import Mathlib

/-!
# FlowSensorJ.Max: durable buffered logging engine

A shallow embedding of the three core classes of the firmware

* `SystemState`  (src/system_state.h, src/system_state.cpp),
* `SDManager`    (src/sd_manager.h, src/sd_manager.cpp),
* `DataLogger`   (src/data_logger.h, src/data_logger.cpp),

as pure functions over an explicit `World`.

Modelling conventions

* The three objects share one `SystemState` by reference, so the whole program
  state is one record `World`; every method is a function
  `World → Bool × World` (or `World → World` for `void` methods).
* The Arduino libraries (`SD`, `SPIFFS`, `millis`, `delay`) are not part of the
  repository.  Their observable behaviour is a parameter: an `Env` fixes, for
  every fallible library call, the outcome of its k-th invocation, and the
  `Hardware` part of the world counts the invocations made so far.  Theorems
  quantify over every `Env`, i.e. over every pattern of hardware failures.
* `millis()` reads the uptime clock modulo 2^32 (`unsigned long` is 32 bits on
  the ESP32).  Time differences are computed modulo 2^32 as in the source.
  The clock advances through `delay` and between operations (`advanceClock`).
* Event counters (`totalWrites`, `failedWrites`, `bufferFlushCount`,
  `bufferOverflows`, `totalDataLogged`) are `unsigned long` too: `++` and `+=`
  on them are computed modulo 2^32, so a counter at 4294967295 wraps to 0.
* `Serial` output is not state and is dropped.
* A method is one function.  Where a run of statements of a method is used by
  several lemmas it is a function of its own, named in the method that calls it
  (`markFlushed`, `pushRecord`, `countOverflow`, `flushCounted`,
  `resumeOrCreate`, `flushLoop`), with the statements it stands for in its
  comment.
* `Ghost` holds three instrumentation counters that no program variable stores:
  how many flushes were made on a non-empty buffer, how many of them failed,
  and how many records `logData` accepted.  No function reads them.
-/

namespace FlowSensor

/-! ## Machine arithmetic and the file stores -/

/-- Modulus of `unsigned long` arithmetic on the target. -/
def U32 : Nat := 4294967296

/-- Unsigned 32-bit subtraction `a - b`. -/
def subU32 (a b : Nat) : Nat := (a % U32 + U32 - b % U32) % U32

/-- Conversion of a C `int` to `size_t`, as done by `size() >= maxBufferSize`. -/
def intToSize (i : Int) : Nat := (i % (U32 : Int)).toNat

/-- A file store: path and content pairs, at most one pair per path once written through `fsWrite`. -/
abbrev FileStore := List (String × String)

/-- Content of the file at `path`, if the file exists. -/
def fsRead (fs : FileStore) (path : String) : Option String := List.lookup path fs

/-- Does a file exist at `path`. -/
def fsExists (fs : FileStore) (path : String) : Bool := (fsRead fs path).isSome

/-- Set the content of the file at `path`, creating it when absent. -/
def fsWrite (fs : FileStore) (path content : String) : FileStore :=
  (path, content) :: fs.filter (fun e => e.1 != path)

/-- Content of the file at `path`, the empty text when there is no such file. -/
def fileContent (fs : FileStore) (path : String) : String := (fsRead fs path).getD ""

/-! ## Data model -/

/-- The enumeration `SystemState::SystemStatus` (src/system_state.h lines 10-18). -/
inductive SystemStatus where
  | INITIALIZING
  | READY
  | LOGGING
  | ERROR
  | RECOVERING
  | SD_MOUNT_FAILED
  | FILESYSTEM_ERROR
  deriving DecidableEq, Repr

/-- The integer value of an enumerator, in declaration order. -/
def SystemStatus.toInt : SystemStatus → Int
  | .INITIALIZING => 0
  | .READY => 1
  | .LOGGING => 2
  | .ERROR => 3
  | .RECOVERING => 4
  | .SD_MOUNT_FAILED => 5
  | .FILESYSTEM_ERROR => 6

/-- The seven enumerators. -/
def allStatuses : List SystemStatus :=
  [.INITIALIZING, .READY, .LOGGING, .ERROR, .RECOVERING, .SD_MOUNT_FAILED, .FILESYSTEM_ERROR]

/-- Data members of `class SystemState`.  `currentStatus` is the stored enum
value; the loader casts an arbitrary integer into it, so it is an `Int`. -/
structure SystemState where
  currentStatus : Int
  lastGoodWriteTime : Nat
  systemStartTime : Nat
  currentLogFile : String
  sdCardMounted : Bool
  loggingActive : Bool
  totalWrites : Nat
  failedWrites : Nat
  lastError : String
  deriving DecidableEq, Repr

/-- Data members of `class SDManager`. -/
structure SDManager where
  sdInitialized : Bool
  lastMountTime : Nat
  mountAttempts : Int
  lastError : String
  deriving DecidableEq, Repr

/-- Data members of `class DataLogger`. -/
structure DataLogger where
  logInterval : Nat
  lastLogTime : Nat
  autoResume : Bool
  enableTimestamps : Bool
  maxBufferSize : Int
  dataBuffer : List String
  bufferStartTime : Nat
  lastBufferFlush : Nat
  currentLogFile : String
  fileOpen : Bool
  totalDataLogged : Nat
  bufferFlushCount : Nat
  bufferOverflows : Nat
  deriving DecidableEq, Repr

/-- State of the board outside the three objects: the uptime clock, the SD card
files and directories, the SPIFFS files, how often each fallible library call
was made, and the arguments of the `delay` calls made so far (latest first). -/
structure Hardware where
  now : Nat
  sdFiles : FileStore
  sdDirs : List String
  spiffsFiles : FileStore
  sdBeginCalls : Nat
  sdOpenCalls : Nat
  sdWriteCalls : Nat
  sdMkdirCalls : Nat
  spiffsBeginCalls : Nat
  spiffsOpenCalls : Nat
  delays : List Nat
  deriving DecidableEq, Repr

/-- Instrumentation only: flushes made on a non-empty buffer, how many of those
returned failure, and how many records `logData` has put into the buffer. -/
structure Ghost where
  flushAttempts : Nat
  flushFailures : Nat
  recordsAccepted : Nat
  deriving DecidableEq, Repr

/-- The whole program state. -/
structure World where
  sys : SystemState
  sd : SDManager
  log : DataLogger
  hw : Hardware
  ghost : Ghost
  deriving DecidableEq, Repr

/-- Behaviour of the libraries: the outcome of the k-th call of each kind.
`sdWrite k = true` means the k-th `print`/`println` on an SD file wrote all its
bytes, `false` that it wrote none. -/
structure Env where
  sdBegin : Nat → Bool
  sdOpen : Nat → Bool
  sdWrite : Nat → Bool
  sdMkdir : Nat → Bool
  spiffsBegin : Nat → Bool
  spiffsOpen : Nat → Bool

/-! ## Library calls -/

/-- Arduino `millis()`. -/
def millis (w : World) : Nat := w.hw.now % U32

/-- Time passing between two operations of the poll loop. -/
def advanceClock (dt : Nat) (w : World) : World :=
  { w with hw := { w.hw with now := w.hw.now + dt } }

/-- Library call `SD.begin(CS_PIN)`. -/
def sdBegin (env : Env) (w : World) : Bool × World :=
  (env.sdBegin w.hw.sdBeginCalls, { w with hw := { w.hw with sdBeginCalls := w.hw.sdBeginCalls + 1 } })

/-- Library call `SD.open(filename, FILE_APPEND)`: on success the file exists afterwards. -/
def sdOpenAppend (env : Env) (filename : String) (w : World) : Bool × World :=
  let hw1 := { w.hw with sdOpenCalls := w.hw.sdOpenCalls + 1 }
  if env.sdOpen w.hw.sdOpenCalls then
    if fsExists hw1.sdFiles filename then (true, { w with hw := hw1 })
    else (true, { w with hw := { hw1 with sdFiles := fsWrite hw1.sdFiles filename "" } })
  else (false, { w with hw := hw1 })

/-- Library call `SD.open(filename, FILE_WRITE)`: on success the file exists and is empty. -/
def sdOpenWrite (env : Env) (filename : String) (w : World) : Bool × World :=
  let hw1 := { w.hw with sdOpenCalls := w.hw.sdOpenCalls + 1 }
  if env.sdOpen w.hw.sdOpenCalls then
    (true, { w with hw := { hw1 with sdFiles := fsWrite hw1.sdFiles filename "" } })
  else (false, { w with hw := hw1 })

/-- Library call `file.print(data)` on an open SD file: the number of bytes written. -/
def filePrint (env : Env) (filename data : String) (w : World) : Nat × World :=
  let hw1 := { w.hw with sdWriteCalls := w.hw.sdWriteCalls + 1 }
  if env.sdWrite w.hw.sdWriteCalls then
    (data.utf8ByteSize,
      { w with hw := { hw1 with sdFiles := fsWrite hw1.sdFiles filename (fileContent hw1.sdFiles filename ++ data) } })
  else (0, { w with hw := hw1 })

/-- Library call `file.println(data)` on an open SD file: the data and a CR LF line end. -/
def filePrintln (env : Env) (filename data : String) (w : World) : Nat × World :=
  filePrint env filename (data ++ "\r\n") w

/-- Library call `SPIFFS.open(path, "w")` followed by `println` of each line and `close`.
The source checks only the open; the lines of an opened file are all written. -/
def spiffsWriteLines (env : Env) (path : String) (lines : List String) (w : World) : Bool × World :=
  let hw1 := { w.hw with spiffsOpenCalls := w.hw.spiffsOpenCalls + 1 }
  if env.spiffsOpen w.hw.spiffsOpenCalls then
    (true, { w with hw := { hw1 with
      spiffsFiles := fsWrite hw1.spiffsFiles path (String.join (lines.map (fun l => l ++ "\r\n"))) } })
  else (false, { w with hw := hw1 })

/-- Does `pat` occur in `s` as a contiguous run of characters. -/
def occursIn (pat : List Char) : List Char → Bool
  | [] => pat.isEmpty
  | c :: cs => pat.isPrefixOf (c :: cs) || occursIn pat cs

/-- Arduino `s.indexOf(pat) >= 0`. -/
def containsText (s pat : String) : Bool := occursIn pat.data s.data

/-- Arduino `readStringUntil` of a line feed on a freshly opened file: the text
before the first line feed. -/
def firstLine (content : String) : String :=
  String.mk (content.data.takeWhile (fun c => c ≠ Char.ofNat 10))

/-- Library call `SD.exists(path)`. -/
def sdExists (w : World) (path : String) : Bool := fsExists w.hw.sdFiles path

/-- Library call `SD.open(filename, FILE_READ)`: the content when the file could be opened. -/
def sdOpenRead (env : Env) (filename : String) (w : World) : Option String × World :=
  let hw1 := { w.hw with sdOpenCalls := w.hw.sdOpenCalls + 1 }
  if env.sdOpen w.hw.sdOpenCalls then (fsRead w.hw.sdFiles filename, { w with hw := hw1 })
  else (none, { w with hw := hw1 })

/-- Arduino `delay(ms)`: the clock moves on and the call is recorded. -/
def delay (ms : Nat) (w : World) : World :=
  { w with hw := { w.hw with now := w.hw.now + ms, delays := ms :: w.hw.delays } }

/-- Library call `SPIFFS.begin(true)`.  What a format on failure does to the
stored files is not modelled; the state machine is examined for every content
of the store. -/
def spiffsBegin (env : Env) (w : World) : Bool × World :=
  (env.spiffsBegin w.hw.spiffsBeginCalls,
    { w with hw := { w.hw with spiffsBeginCalls := w.hw.spiffsBeginCalls + 1 } })

/-- Library call `SPIFFS.open(path, "r")`: the content when the file exists and
could be opened. -/
def spiffsOpenRead (env : Env) (path : String) (w : World) : Option String × World :=
  let hw1 := { w.hw with spiffsOpenCalls := w.hw.spiffsOpenCalls + 1 }
  if env.spiffsOpen w.hw.spiffsOpenCalls then (fsRead w.hw.spiffsFiles path, { w with hw := hw1 })
  else (none, { w with hw := hw1 })

/-! ## Reading `key=value` text (Arduino `String` and `Stream` calls) -/

/-- C `isspace` in the default locale: blank, tab, line feed, vertical tab, form
feed, carriage return. -/
def isSpaceChar (c : Char) : Bool := c == ' ' || (9 ≤ c.toNat && c.toNat ≤ 13)

/-- Arduino `String::trim`: white space is cut off at both ends. -/
def trimChars (cs : List Char) : List Char :=
  ((cs.dropWhile isSpaceChar).reverse.dropWhile isSpaceChar).reverse

/-- The loop `while (file.available()) line = file.readStringUntil(LF)`: the
lines of the rest of the file, `current` being the characters of the line under
way in reverse order.  A line ends at a line feed or at the end of the file;
nothing is read behind a final line feed. -/
def readLinesFrom : List Char → List Char → List (List Char)
  | [], current => if current = [] then [] else [current.reverse]
  | c :: cs, current =>
    if c = Char.ofNat 10 then current.reverse :: readLinesFrom cs []
    else readLinesFrom cs (c :: current)

/-- The lines a reading loop sees in a file with the given content. -/
def readLines (content : String) : List (List Char) := readLinesFrom content.data []

/-- The statements `equalSign = line.indexOf('=')`, `if (equalSign > 0)`,
`key = line.substring(0, equalSign)`, `value = line.substring(equalSign + 1)`
on a trimmed line: nothing when there is no `=` or the line starts with it. -/
def splitKeyValue (line : List Char) : Option (String × String) :=
  match line.dropWhile (fun c => c != '=') with
  | [] => none
  | _ :: value =>
    if line.takeWhile (fun c => c != '=') = [] then none
    else some (String.mk (line.takeWhile (fun c => c != '=')), String.mk value)

/-- The decimal value of the leading digits of `cs`, continuing from `acc`. -/
def parseDigits : List Char → Nat → Nat
  | [], acc => acc
  | c :: cs, acc => if c.isDigit then parseDigits cs (acc * 10 + (c.toNat - 48)) else acc

/-- Arduino `String::toInt`, that is `atol` of the C library of the target:
leading white space is skipped, a sign is read, then the leading digits; a
value outside the 32-bit `long` range gives the nearest end of the range. -/
def toLong (s : String) : Int :=
  match s.data.dropWhile isSpaceChar with
  | '-' :: ds => max (-(parseDigits ds 0 : Int)) (-2147483648)
  | '+' :: ds => min (parseDigits ds 0 : Int) 2147483647
  | ds => min (parseDigits ds 0 : Int) 2147483647

/-- Conversion of a `long` to `unsigned long` on assignment. -/
def toUnsignedLong (i : Int) : Nat := (i % (U32 : Int)).toNat

/-! ## SystemState (src/system_state.cpp) -/

/-- Member `STATE_FILE`. -/
def STATE_FILE : String := "/system.state"

/-- Path used by `createRecoveryPoint` and `attemptRecovery`. -/
def RECOVERY_FILE : String := "/recovery.point"

/-- Arduino `String(bool ? "1" : "0")`. -/
def boolText (b : Bool) : String := if b then "1" else "0"

/-- The nine lines written by `saveStateToSPIFFS`. -/
def stateLines (s : SystemState) : List String :=
  [ "status=" ++ toString s.currentStatus,
    "lastWriteTime=" ++ toString s.lastGoodWriteTime,
    "startTime=" ++ toString s.systemStartTime,
    "currentLogFile=" ++ s.currentLogFile,
    "sdMounted=" ++ boolText s.sdCardMounted,
    "loggingActive=" ++ boolText s.loggingActive,
    "totalWrites=" ++ toString s.totalWrites,
    "failedWrites=" ++ toString s.failedWrites,
    "lastError=" ++ s.lastError ]

/-- Method `SystemState::saveStateToSPIFFS`. -/
def SystemState.saveStateToSPIFFS (env : Env) (w : World) : Bool × World :=
  spiffsWriteLines env STATE_FILE (stateLines w.sys) w

/-- Method `SystemState::saveState`: the result of the write is only printed. -/
def SystemState.saveState (env : Env) (w : World) : World := (SystemState.saveStateToSPIFFS env w).2

/-- The validation `switch` of `SystemState::transitionTo`: `true` when the
function takes one of its `return false` exits. -/
def SystemState.transitionRejected (currentStatus newStatus : Int) : Bool :=
  if newStatus = SystemStatus.INITIALIZING.toInt then false
  else if newStatus = SystemStatus.READY.toInt then
    decide (currentStatus ≠ SystemStatus.INITIALIZING.toInt ∧ currentStatus ≠ SystemStatus.ERROR.toInt
      ∧ currentStatus ≠ SystemStatus.RECOVERING.toInt)
  else if newStatus = SystemStatus.LOGGING.toInt then
    decide (currentStatus ≠ SystemStatus.READY.toInt ∧ currentStatus ≠ SystemStatus.RECOVERING.toInt)
  else if newStatus = SystemStatus.ERROR.toInt then false
  else if newStatus = SystemStatus.RECOVERING.toInt then
    decide (currentStatus ≠ SystemStatus.ERROR.toInt)
  else if newStatus = SystemStatus.SD_MOUNT_FAILED.toInt then
    decide (currentStatus ≠ SystemStatus.READY.toInt ∧ currentStatus ≠ SystemStatus.LOGGING.toInt)
  else if newStatus = SystemStatus.FILESYSTEM_ERROR.toInt then
    decide (currentStatus ≠ SystemStatus.READY.toInt ∧ currentStatus ≠ SystemStatus.LOGGING.toInt)
  else true

/-- Method `SystemState::transitionTo`. -/
def SystemState.transitionTo (env : Env) (newStatus : Int) (w : World) : Bool × World :=
  if SystemState.transitionRejected w.sys.currentStatus newStatus then (false, w)
  else (true, SystemState.saveState env { w with sys := { w.sys with currentStatus := newStatus } })

/-- Method `SystemState::setCurrentLogFile`. -/
def SystemState.setCurrentLogFile (env : Env) (filename : String) (w : World) : World :=
  SystemState.saveState env { w with sys := { w.sys with currentLogFile := filename } }

/-- Method `SystemState::setLoggingActive`. -/
def SystemState.setLoggingActive (active : Bool) (w : World) : World :=
  { w with sys := { w.sys with loggingActive := active } }

/-- Method `SystemState::logError`. -/
def SystemState.logError (env : Env) (error : String) (w : World) : World :=
  SystemState.saveState env { w with sys := { w.sys with lastError := error } }

/-- Method `SystemState::incrementWrites`: `totalWrites++` on `unsigned long`. -/
def SystemState.incrementWrites (w : World) : World :=
  { w with sys := { w.sys with totalWrites := (w.sys.totalWrites + 1) % U32 } }

/-- Method `SystemState::incrementFailedWrites`: `failedWrites++` on `unsigned long`. -/
def SystemState.incrementFailedWrites (w : World) : World :=
  { w with sys := { w.sys with failedWrites := (w.sys.failedWrites + 1) % U32 } }

/-- Method `SystemState::setLastGoodWriteTime`. -/
def SystemState.setLastGoodWriteTime (time : Nat) (w : World) : World :=
  { w with sys := { w.sys with lastGoodWriteTime := time } }

/-- The four lines written by `SystemState::createRecoveryPoint`. -/
def recoveryLines (s : SystemState) (timestamp : Nat) : List String :=
  [ "lastWriteTime=" ++ toString s.lastGoodWriteTime,
    "currentLogFile=" ++ s.currentLogFile,
    "totalWrites=" ++ toString s.totalWrites,
    "timestamp=" ++ toString timestamp ]

/-- The text of a recovery point file with the given four values, as
`createRecoveryPoint` prints it. -/
def recoveryText (lastWriteTime : Nat) (currentLogFile : String) (totalWrites timestamp : Nat) : String :=
  ("lastWriteTime=" ++ toString lastWriteTime ++ "\r\n")
    ++ ("currentLogFile=" ++ currentLogFile ++ "\r\n")
    ++ ("totalWrites=" ++ toString totalWrites ++ "\r\n")
    ++ ("timestamp=" ++ toString timestamp ++ "\r\n")

/-- Method `SystemState::createRecoveryPoint`. -/
def SystemState.createRecoveryPoint (env : Env) (w : World) : Bool × World :=
  let r := spiffsWriteLines env RECOVERY_FILE (recoveryLines w.sys (millis w)) w
  if r.1 then (true, r.2)
  else (false, SystemState.logError env "Failed to create recovery point" r.2)

/-- Method `SystemState::setSDCardMounted`. -/
def SystemState.setSDCardMounted (mounted : Bool) (w : World) : World :=
  { w with sys := { w.sys with sdCardMounted := mounted } }

/-- The body of the reading loop of `SystemState::loadStateFromSPIFFS` for one
line: a line without a key and a line with an unknown key change nothing. -/
def SystemState.applyStateLine (s : SystemState) (line : List Char) : SystemState :=
  match splitKeyValue (trimChars line) with
  | none => s
  | some (key, value) =>
    if key = "status" then { s with currentStatus := toLong value }
    else if key = "lastWriteTime" then { s with lastGoodWriteTime := toUnsignedLong (toLong value) }
    else if key = "startTime" then { s with systemStartTime := toUnsignedLong (toLong value) }
    else if key = "currentLogFile" then { s with currentLogFile := value }
    else if key = "sdMounted" then { s with sdCardMounted := decide (value = "1") }
    else if key = "loggingActive" then { s with loggingActive := decide (value = "1") }
    else if key = "totalWrites" then { s with totalWrites := toUnsignedLong (toLong value) }
    else if key = "failedWrites" then { s with failedWrites := toUnsignedLong (toLong value) }
    else if key = "lastError" then { s with lastError := value }
    else s

/-- Method `SystemState::loadStateFromSPIFFS`. -/
def SystemState.loadStateFromSPIFFS (env : Env) (w : World) : Bool × World :=
  let o := spiffsOpenRead env STATE_FILE w
  match o.1 with
  | none => (false, o.2)
  | some content =>
    (true, { o.2 with sys := (readLines content).foldl SystemState.applyStateLine o.2.sys })

/-- Method `SystemState::loadState`. -/
def SystemState.loadState (env : Env) (w : World) : World := (SystemState.loadStateFromSPIFFS env w).2

/-- Method `SystemState::checkIntegrity`. -/
def SystemState.checkIntegrity (w : World) : Bool :=
  if w.sys.currentStatus < SystemStatus.INITIALIZING.toInt
      ∨ w.sys.currentStatus > SystemStatus.FILESYSTEM_ERROR.toInt then false
  else if w.sys.currentStatus = SystemStatus.LOGGING.toInt ∧ w.sys.currentLogFile ≠ "" then true
  else true

/-- Method `SystemState::initialize`. -/
def SystemState.initializeState (env : Env) (w : World) : Bool × World :=
  let b := spiffsBegin env w
  if !b.1 then (false, b.2)
  else
    let l := SystemState.loadState env b.2
    let c : World :=
      if !SystemState.checkIntegrity l then
        { l with sys := { l.sys with currentStatus := SystemStatus.INITIALIZING.toInt } }
      else l
    (true, { c with sys := { c.sys with
      systemStartTime := millis c, lastGoodWriteTime := 0, totalWrites := 0, failedWrites := 0 } })

/-- The body of the reading loop of `SystemState::attemptRecovery` for one line:
the state and the flag `recoverySuccessful`. -/
def SystemState.applyRecoveryLine (acc : SystemState × Bool) (line : List Char) : SystemState × Bool :=
  match splitKeyValue (trimChars line) with
  | none => acc
  | some (key, value) =>
    if key = "lastWriteTime" then ({ acc.1 with lastGoodWriteTime := toUnsignedLong (toLong value) }, acc.2)
    else if key = "currentLogFile" then ({ acc.1 with currentLogFile := value }, true)
    else if key = "totalWrites" then ({ acc.1 with totalWrites := toUnsignedLong (toLong value) }, acc.2)
    else acc

/-- Method `SystemState::attemptRecovery`. -/
def SystemState.attemptRecovery (env : Env) (w : World) : Bool × World :=
  let o := spiffsOpenRead env RECOVERY_FILE w
  match o.1 with
  | none => (false, o.2)
  | some content =>
    let r := (readLines content).foldl SystemState.applyRecoveryLine (o.2.sys, false)
    if r.2 then
      (true, (SystemState.transitionTo env SystemStatus.RECOVERING.toInt { o.2 with sys := r.1 }).2)
    else (false, { o.2 with sys := r.1 })

/-- The text of a state file with the nine fields of `s`, as `saveStateToSPIFFS`
prints it. -/
def stateText (s : SystemState) : String :=
  ("status=" ++ toString s.currentStatus ++ "\r\n")
    ++ ("lastWriteTime=" ++ toString s.lastGoodWriteTime ++ "\r\n")
    ++ ("startTime=" ++ toString s.systemStartTime ++ "\r\n")
    ++ ("currentLogFile=" ++ s.currentLogFile ++ "\r\n")
    ++ ("sdMounted=" ++ boolText s.sdCardMounted ++ "\r\n")
    ++ ("loggingActive=" ++ boolText s.loggingActive ++ "\r\n")
    ++ ("totalWrites=" ++ toString s.totalWrites ++ "\r\n")
    ++ ("failedWrites=" ++ toString s.failedWrites ++ "\r\n")
    ++ ("lastError=" ++ s.lastError ++ "\r\n")

/-- The transition table of the specification, section 4.1, as a relation
between the current status and the target. -/
def tableAllows (c t : SystemStatus) : Prop :=
  t = .INITIALIZING ∨ t = .ERROR
  ∨ (t = .READY ∧ (c = .INITIALIZING ∨ c = .ERROR ∨ c = .RECOVERING))
  ∨ (t = .LOGGING ∧ (c = .READY ∨ c = .RECOVERING))
  ∨ (t = .RECOVERING ∧ c = .ERROR)
  ∨ (t = .SD_MOUNT_FAILED ∧ (c = .READY ∨ c = .LOGGING))
  ∨ (t = .FILESYSTEM_ERROR ∧ (c = .READY ∨ c = .LOGGING))

/-! ## SDManager (src/sd_manager.h, src/sd_manager.cpp) -/

/-- Member `LOG_DIR`. -/
def LOG_DIR : String := "/logs"

/-- Method `SDManager::isMounted`: `sdInitialized && SD.begin(CS_PIN)`, the library is
asked only when the flag is set. -/
def SDManager.isMounted (env : Env) (w : World) : Bool × World :=
  if w.sd.sdInitialized then sdBegin env w else (false, w)

/-- Assignment to the member `SDManager::lastError`. -/
def SDManager.setLastError (msg : String) (w : World) : World :=
  { w with sd := { w.sd with lastError := msg } }

/-- Method `SDManager::generateTimestampedFilename`. -/
def SDManager.generateTimestampedFilename (w : World) : String :=
  LOG_DIR ++ "/log_" ++ toString (millis w / 1000) ++ "_" ++ toString (millis w % 1000) ++ ".csv"

/-- Method `SDManager::writeData`. -/
def SDManager.writeData (env : Env) (data filename : String) (w : World) : Bool × World :=
  let m := SDManager.isMounted env w
  if !m.1 then (false, SDManager.setLastError "Cannot write data: SD card not mounted" m.2)
  else
    let o := sdOpenWrite env filename m.2
    if !o.1 then
      (false, SystemState.logError env ("Cannot open file for writing: " ++ filename)
        (SDManager.setLastError ("Cannot open file for writing: " ++ filename) o.2))
    else
      let p := filePrint env filename data o.2
      if p.1 = 0 then
        (false, SystemState.logError env ("Failed to write data to file: " ++ filename)
          (SDManager.setLastError ("Failed to write data to file: " ++ filename) p.2))
      else
        (true, SystemState.setLastGoodWriteTime (millis p.2) (SystemState.incrementWrites p.2))

/-- Method `SDManager::appendData`. -/
def SDManager.appendData (env : Env) (data filename : String) (w : World) : Bool × World :=
  let m := SDManager.isMounted env w
  if !m.1 then (false, SDManager.setLastError "Cannot append data: SD card not mounted" m.2)
  else
    let o := sdOpenAppend env filename m.2
    if !o.1 then
      (false, SystemState.logError env ("Cannot open file for appending: " ++ filename)
        (SDManager.setLastError ("Cannot open file for appending: " ++ filename) o.2))
    else
      let p := filePrintln env filename data o.2
      if p.1 = 0 then
        (false, SystemState.logError env ("Failed to append data to file: " ++ filename)
          (SDManager.setLastError ("Failed to append data to file: " ++ filename) p.2))
      else
        (true, SystemState.setLastGoodWriteTime (millis p.2) (SystemState.incrementWrites p.2))

/-- The header text written by `SDManager::createNewLogFile`. -/
def LOG_HEADER : String := "timestamp,flow_rate,temperature,pressure\n"

/-- Method `SDManager::createNewLogFile`: the result and the value left in the
reference parameter `filename`. -/
def SDManager.createNewLogFile (env : Env) (w : World) : (Bool × String) × World :=
  let filename := SDManager.generateTimestampedFilename w
  let r := SDManager.writeData env LOG_HEADER filename w
  if !r.1 then ((false, filename), SDManager.setLastError "Failed to create new log file" r.2)
  else ((true, filename), r.2)

/-- Method `SDManager::cleanupOldFiles`: beyond the mount check it only prints. -/
def SDManager.cleanupOldFiles (env : Env) (_maxFiles : Int) (w : World) : Bool × World :=
  let m := SDManager.isMounted env w
  if !m.1 then (false, m.2) else (true, m.2)

/-- Member `MAX_MOUNT_ATTEMPTS`. -/
def MAX_MOUNT_ATTEMPTS : Nat := 3

/-- Member `MOUNT_RETRY_DELAY`. -/
def MOUNT_RETRY_DELAY : Nat := 5000

/-- Member `BACKUP_DIR`. -/
def BACKUP_DIR : String := "/backups"

/-- Member `TEMP_DIR`. -/
def TEMP_DIR : String := "/temp"

/-- The `for` loop of `SDManager::mount` with `remaining` iterations to go, that
is from `attempt = MAX_MOUNT_ATTEMPTS + 1 - remaining` on: `true` when an
attempt mounted the card (the `return true` inside the loop), `false` when the
loop ran out. -/
def SDManager.mountLoop (env : Env) : Nat → World → Bool × World
  | 0, w => (false, w)
  | remaining + 1, w =>
    let b := sdBegin env w
    if b.1 then
      (true, SystemState.setSDCardMounted true
        { b.2 with sd := { b.2.sd with sdInitialized := true, lastMountTime := millis b.2, mountAttempts := 0 } })
    else
      let w1 := { b.2 with sd := { b.2.sd with mountAttempts := b.2.sd.mountAttempts + 1 } }
      let w2 := if MAX_MOUNT_ATTEMPTS + 1 - (remaining + 1) < MAX_MOUNT_ATTEMPTS then delay MOUNT_RETRY_DELAY w1 else w1
      SDManager.mountLoop env remaining w2

/-- The world after an iteration of the loop of `SDManager::mount` whose `SD.begin`
was refused, before the delay: the library call and `mountAttempts++`. -/
def SDManager.refusedAttempt (env : Env) (w : World) : World :=
  { (sdBegin env w).2 with
    sd := { (sdBegin env w).2.sd with mountAttempts := (sdBegin env w).2.sd.mountAttempts + 1 } }

/-- The text `"Failed to mount SD card after " + String(MAX_MOUNT_ATTEMPTS) + " attempts"`. -/
def MOUNT_FAILED_TEXT : String :=
  "Failed to mount SD card after " ++ toString MAX_MOUNT_ATTEMPTS ++ " attempts"

/-- Method `SDManager::mount`. -/
def SDManager.mount (env : Env) (w : World) : Bool × World :=
  let m := SDManager.isMounted env w
  if m.1 then (true, m.2)
  else
    let l := SDManager.mountLoop env MAX_MOUNT_ATTEMPTS m.2
    if l.1 then (true, l.2)
    else
      (false, SystemState.logError env MOUNT_FAILED_TEXT
        (SDManager.setLastError MOUNT_FAILED_TEXT
          (SystemState.setSDCardMounted false
            { l.2 with sd := { l.2.sd with sdInitialized := false } })))

/-- Library call `SD.exists(path)` for a path that may be a file or a directory. -/
def sdPathExists (w : World) (path : String) : Bool :=
  fsExists w.hw.sdFiles path || decide (path ∈ w.hw.sdDirs)

/-- Library call `SD.mkdir(path)`. -/
def sdMkdir (env : Env) (path : String) (w : World) : Bool × World :=
  let hw1 := { w.hw with sdMkdirCalls := w.hw.sdMkdirCalls + 1 }
  if env.sdMkdir w.hw.sdMkdirCalls then (true, { w with hw := { hw1 with sdDirs := path :: hw1.sdDirs } })
  else (false, { w with hw := hw1 })

/-- Library call `SD.remove(path)`, whose result the source never reads: the
file is gone afterwards. -/
def sdRemove (path : String) (w : World) : World :=
  { w with hw := { w.hw with sdFiles := w.hw.sdFiles.filter (fun e => e.1 != path) } }

/-- Library call `SD.open("/")`, the root directory. -/
def sdOpenRoot (env : Env) (w : World) : Bool × World :=
  (env.sdOpen w.hw.sdOpenCalls, { w with hw := { w.hw with sdOpenCalls := w.hw.sdOpenCalls + 1 } })

/-- Method `SDManager::createDirectory`. -/
def SDManager.createDirectory (env : Env) (path : String) (w : World) : Bool × World :=
  let m := SDManager.isMounted env w
  if !m.1 then (false, SDManager.setLastError "Cannot create directory: SD card not mounted" m.2)
  else if sdPathExists m.2 path then (true, m.2)
  else
    let k := sdMkdir env path m.2
    if !k.1 then
      (false, SystemState.logError env ("Failed to create directory: " ++ path)
        (SDManager.setLastError ("Failed to create directory: " ++ path) k.2))
    else (true, k.2)

/-- Method `SDManager::createDirectoryStructure`: the three directories are tried
in turn, each whatever the result of the one before. -/
def SDManager.createDirectoryStructure (env : Env) (w : World) : Bool × World :=
  let a := SDManager.createDirectory env LOG_DIR w
  let b := SDManager.createDirectory env BACKUP_DIR a.2
  let c := SDManager.createDirectory env TEMP_DIR b.2
  (a.1 && b.1 && c.1, c.2)

/-- Method `SDManager::checkCardHealth`. -/
def SDManager.checkCardHealth (env : Env) (w : World) : Bool × World :=
  let r := sdOpenRoot env w
  if !r.1 then (false, SDManager.setLastError "Cannot open root directory" r.2)
  else
    let o := sdOpenWrite env "/temp/test.tmp" r.2
    if !o.1 then (false, SDManager.setLastError "Cannot create test file" o.2)
    else
      let p := filePrint env "/temp/test.tmp" "TEST" o.2
      let q := sdOpenRead env "/temp/test.tmp" p.2
      match q.1 with
      | none => (false, SDManager.setLastError "Cannot read test file" q.2)
      | some content =>
        let d := sdRemove "/temp/test.tmp" q.2
        if content ≠ "TEST" then (false, SDManager.setLastError "Test file content verification failed" d)
        else (true, d)

/-- Method `SDManager::writeTestFile`. -/
def SDManager.writeTestFile (env : Env) (w : World) : Bool × World :=
  let testContent := "SD Card Test - " ++ toString (millis w)
  let o := sdOpenWrite env "/temp/sd_test.txt" w
  if !o.1 then (false, SDManager.setLastError "Cannot create test file" o.2)
  else
    let p := filePrintln env "/temp/sd_test.txt" testContent o.2
    let q := sdOpenRead env "/temp/sd_test.txt" p.2
    match q.1 with
    | none => (false, SDManager.setLastError "Cannot read test file" q.2)
    | some readContent => (containsText readContent testContent, sdRemove "/temp/sd_test.txt" q.2)

/-- Method `SDManager::verifyFileSystem`. -/
def SDManager.verifyFileSystem (env : Env) (w : World) : Bool × World :=
  let m := SDManager.isMounted env w
  if !m.1 then (false, SDManager.setLastError "Cannot verify file system: SD card not mounted" m.2)
  else
    let h := SDManager.checkCardHealth env m.2
    if !h.1 then (false, SDManager.setLastError "Card health check failed" h.2)
    else
      let t := SDManager.writeTestFile env h.2
      if !t.1 then (false, SDManager.setLastError "Write test failed" t.2)
      else (true, t.2)

/-- Method `SDManager::initialize`. -/
def SDManager.initializeManager (env : Env) (w : World) : Bool × World :=
  let m := SDManager.mount env w
  if !m.1 then (false, m.2)
  else
    let d := SDManager.createDirectoryStructure env m.2
    if !d.1 then (false, d.2)
    else
      let v := SDManager.verifyFileSystem env d.2
      if !v.1 then (false, v.2) else (true, v.2)

/-! ## DataLogger (src/data_logger.h, src/data_logger.cpp) -/

/-- Member `BUFFER_FLUSH_INTERVAL`. -/
def BUFFER_FLUSH_INTERVAL : Nat := 30000

/-- Method `DataLogger::initializeBuffer`. -/
def DataLogger.initializeBuffer (w : World) : Bool × World :=
  (true, { w with log := { w.log with dataBuffer := [] } })

/-- Method `DataLogger::createNewLogFile`. -/
def DataLogger.createNewLogFile (env : Env) (w : World) : Bool × World :=
  let r := SDManager.createNewLogFile env w
  if !r.1.1 then (false, SystemState.logError env "Failed to create new log file" r.2)
  else
    let w1 := { r.2 with log := { r.2.log with currentLogFile := r.1.2, fileOpen := true } }
    (true, SystemState.setLoggingActive true (SystemState.setCurrentLogFile env w1.log.currentLogFile w1))

/-- Method `DataLogger::validateLogFile`. -/
def DataLogger.validateLogFile (env : Env) (filename : String) (w : World) : Bool × World :=
  let o := sdOpenRead env filename w
  match o.1 with
  | none => (false, o.2)
  | some content =>
    (containsText (firstLine content) "timestamp" || containsText (firstLine content) "flow_rate", o.2)

/-- Method `DataLogger::attemptResumeLogging`. -/
def DataLogger.attemptResumeLogging (env : Env) (w : World) : Bool × World :=
  let resumeFile := w.sys.currentLogFile
  if resumeFile = "" then (false, w)
  else
    let m := SDManager.isMounted env w
    if !m.1 then (false, m.2)
    else if !sdExists m.2 resumeFile then (false, m.2)
    else
      let v := DataLogger.validateLogFile env resumeFile m.2
      if !v.1 then (false, v.2)
      else
        (true, SystemState.setLoggingActive true
          { v.2 with log := { v.2.log with currentLogFile := resumeFile, fileOpen := true } })

/-- The `if (autoResume) ... else ...` block of `DataLogger::initialize`: `false`
stands for its `return false` exits, taken when no new log file could be created. -/
def DataLogger.resumeOrCreate (env : Env) (w : World) : Bool × World :=
  if w.log.autoResume then
    let a := DataLogger.attemptResumeLogging env w
    if !a.1 then DataLogger.createNewLogFile env a.2 else (true, a.2)
  else DataLogger.createNewLogFile env w

/-- Method `DataLogger::initialize`. -/
def DataLogger.initializeLogger (env : Env) (w : World) : Bool × World :=
  let b := DataLogger.initializeBuffer w
  if !b.1 then (false, b.2)
  else
    let f := DataLogger.resumeOrCreate env b.2
    if !f.1 then (false, f.2)
    else
      (true, { f.2 with log := { f.2.log with
        bufferStartTime := millis f.2, lastBufferFlush := millis f.2, lastLogTime := millis f.2 } })

/-- Method `DataLogger::isSystemReady`. -/
def DataLogger.isSystemReady (env : Env) (w : World) : Bool × World :=
  if w.sys.currentStatus ≠ SystemStatus.READY.toInt ∧ w.sys.currentStatus ≠ SystemStatus.LOGGING.toInt
      ∧ w.sys.currentStatus ≠ SystemStatus.RECOVERING.toInt then (false, w)
  else
    let m := SDManager.isMounted env w
    if !m.1 then (false, m.2)
    else if m.2.log.currentLogFile = "" then (false, m.2)
    else (true, m.2)

/-- Method `DataLogger::createRecoveryPoint`. -/
def DataLogger.createRecoveryPoint (env : Env) (w : World) : Bool × World :=
  SystemState.createRecoveryPoint env w

/-- The `for` loop of `DataLogger::flushBufferToSD` over the records still to be
appended, with its `return false` on the first failed append. -/
def DataLogger.flushLoop (env : Env) (file : String) : List String → World → Bool × World
  | [], w => (true, w)
  | data :: rest, w =>
    let a := SDManager.appendData env data file w
    if !a.1 then (false, SystemState.logError env ("Failed to append data to: " ++ file) a.2)
    else DataLogger.flushLoop env file rest a.2

/-- Instrumentation: a flush over a non-empty buffer was made and succeeded. -/
def noteFlushSuccess (w : World) : World :=
  { w with ghost := { w.ghost with flushAttempts := w.ghost.flushAttempts + 1 } }

/-- Instrumentation: a flush over a non-empty buffer was made and failed. -/
def noteFlushFailure (w : World) : World :=
  { w with ghost := { w.ghost with
    flushAttempts := w.ghost.flushAttempts + 1, flushFailures := w.ghost.flushFailures + 1 } }

/-- Instrumentation: `logData` put a record into the buffer. -/
def noteRecordAccepted (w : World) : World :=
  { w with ghost := { w.ghost with recordsAccepted := w.ghost.recordsAccepted + 1 } }

/-- The three assignments of `DataLogger::flushBufferToSD` behind its loop:
`dataBuffer.clear()`, `bufferFlushCount++` (on `unsigned long`),
`lastBufferFlush = millis()`. -/
def DataLogger.markFlushed (w : World) : World :=
  { w with log := { w.log with
    dataBuffer := [], bufferFlushCount := (w.log.bufferFlushCount + 1) % U32,
    lastBufferFlush := millis w } }

/-- Method `DataLogger::flushBufferToSD`. -/
def DataLogger.flushBufferToSD (env : Env) (w : World) : Bool × World :=
  if w.log.dataBuffer = [] then (true, w)
  else if !w.log.fileOpen || decide (w.log.currentLogFile = "") then
    (false, noteFlushFailure (SystemState.logError env "Cannot flush: No file open" w))
  else
    let l := DataLogger.flushLoop env w.log.currentLogFile w.log.dataBuffer w
    if !l.1 then (false, noteFlushFailure l.2)
    else (true, noteFlushSuccess (DataLogger.createRecoveryPoint env (DataLogger.markFlushed l.2)).2)

/-- A call of `flushBufferToSD` as `logData`, `update` and `forceFlushBuffer`
make it: the result of the flush is returned, and a failed flush is counted by
`systemState.incrementFailedWrites()`. -/
def DataLogger.flushCounted (env : Env) (w : World) : Bool × World :=
  let f := DataLogger.flushBufferToSD env w
  if !f.1 then (false, SystemState.incrementFailedWrites f.2) else (true, f.2)

/-- The record stored by `DataLogger::logData` for the text `data`. -/
def storedRecord (w : World) (data : String) : String :=
  if w.log.enableTimestamps then toString (millis w) ++ "," ++ data else data

/-- The accepting statements of `DataLogger::logData`: `lastLogTime = millis()`,
the optional time stamp, `dataBuffer.push_back(logData)` and
`totalDataLogged += logData.length()` (on `unsigned long`). -/
def DataLogger.pushRecord (data : String) (w : World) : World :=
  noteRecordAccepted { w with log := { w.log with
    lastLogTime := millis w,
    dataBuffer := w.log.dataBuffer ++ [storedRecord w data],
    totalDataLogged := (w.log.totalDataLogged + (storedRecord w data).utf8ByteSize) % U32 } }

/-- The statement `bufferOverflows++` of `DataLogger::logData`, on `unsigned long`. -/
def DataLogger.countOverflow (w : World) : World :=
  { w with log := { w.log with bufferOverflows := (w.log.bufferOverflows + 1) % U32 } }

/-- Method `DataLogger::logData`. -/
def DataLogger.logData (env : Env) (data : String) (w : World) : Bool × World :=
  let r := DataLogger.isSystemReady env w
  if !r.1 then (false, r.2)
  else if subU32 (millis r.2) r.2.log.lastLogTime < r.2.log.logInterval then (false, r.2)
  else
    let w1 := DataLogger.pushRecord data r.2
    let full : Bool × World :=
      if intToSize w1.log.maxBufferSize ≤ w1.log.dataBuffer.length then
        DataLogger.flushCounted env (DataLogger.countOverflow w1)
      else (true, w1)
    if !full.1 then (false, full.2)
    else if BUFFER_FLUSH_INTERVAL < subU32 (millis full.2) full.2.log.lastBufferFlush then
      DataLogger.flushCounted env full.2
    else (true, full.2)

/-- Method `DataLogger::update`. -/
def DataLogger.update (env : Env) (w : World) : Bool × World :=
  let flushed : Bool × World :=
    if w.log.dataBuffer ≠ [] then
      if intToSize w.log.maxBufferSize ≤ w.log.dataBuffer.length
          ∨ BUFFER_FLUSH_INTERVAL < subU32 (millis w) w.log.lastBufferFlush then
        DataLogger.flushCounted env w
      else (true, w)
    else (true, w)
  if !flushed.1 then (false, flushed.2)
  else
    let r := DataLogger.isSystemReady env flushed.2
    if !r.1 then (false, (SystemState.transitionTo env SystemStatus.ERROR.toInt r.2).2)
    else (true, r.2)

/-- Method `DataLogger::forceFlushBuffer`. -/
def DataLogger.forceFlushBuffer (env : Env) (w : World) : Bool × World :=
  if w.log.dataBuffer = [] then (true, w)
  else DataLogger.flushCounted env w

/-- Method `DataLogger::closeCurrentFile`. -/
def DataLogger.closeCurrentFile (env : Env) (w : World) : Bool × World :=
  if !w.log.fileOpen then (true, w)
  else
    (true, SystemState.setCurrentLogFile env ""
      { w with log := { w.log with fileOpen := false, currentLogFile := "" } })

/-- Method `DataLogger::switchLogFile`. -/
def DataLogger.switchLogFile (env : Env) (w : World) : Bool × World :=
  let f := DataLogger.forceFlushBuffer env w
  if !f.1 then (false, f.2)
  else
    let c := DataLogger.closeCurrentFile env f.2
    let n := DataLogger.createNewLogFile env c.2
    if !n.1 then (false, n.2) else (true, n.2)

/-- Method `DataLogger::shutdown`. -/
def DataLogger.shutdown (env : Env) (w : World) : Bool × World :=
  let f := DataLogger.forceFlushBuffer env w
  let c := DataLogger.closeCurrentFile env f.2
  let p := DataLogger.createRecoveryPoint env c.2
  (true, SystemState.setLoggingActive false p.2)

/-- Method `DataLogger::attemptRecovery`. -/
def DataLogger.attemptRecovery (env : Env) (w : World) : Bool × World :=
  let a := DataLogger.attemptResumeLogging env w
  if a.1 then (true, a.2)
  else
    let n := DataLogger.createNewLogFile env a.2
    if !n.1 then (false, n.2) else (true, n.2)

/-- Method `DataLogger::resetStatistics`. -/
def DataLogger.resetStatistics (w : World) : World :=
  { w with log := { w.log with totalDataLogged := 0, bufferFlushCount := 0, bufferOverflows := 0 } }

/-- Method `DataLogger::performMaintenance`. -/
def DataLogger.performMaintenance (env : Env) (w : World) : Bool × World :=
  let f := DataLogger.forceFlushBuffer env w
  let s : World :=
    if 50 < f.2.log.currentLogFile.utf8ByteSize then (DataLogger.switchLogFile env f.2).2 else f.2
  let m := SDManager.isMounted env s
  let c : World := if m.1 then (SDManager.cleanupOldFiles env 10 m.2).2 else m.2
  let r : World := if 10 < c.log.bufferOverflows then DataLogger.resetStatistics c else c
  (true, r)

/-- The statements of `DataLogger::performMaintenance` other than its rotation
block `if (currentLogFile.length() > 50) switchLogFile()`: the flush, the
clean-up and the reset of the statistics. -/
def DataLogger.maintenanceWithoutSwitch (env : Env) (w : World) : Bool × World :=
  let f := DataLogger.forceFlushBuffer env w
  let m := SDManager.isMounted env f.2
  let c : World := if m.1 then (SDManager.cleanupOldFiles env 10 m.2).2 else m.2
  let r : World := if 10 < c.log.bufferOverflows then DataLogger.resetStatistics c else c
  (true, r)

/-! ## RobustLogger (src/robust_logger.cpp) -/

/-- Method `RobustLogger::initialize`.  `initializeWiFi`, `initializeModbus` and
`initializeWebServer` return true on every path of the source and touch none of
the three core objects; the member `systemInitialized` lies outside them. -/
def RobustLogger.initializeRobust (env : Env) (w : World) : Bool × World :=
  let s := SystemState.initializeState env w
  if !s.1 then (false, s.2)
  else
    let d := SDManager.initializeManager env s.2
    if !d.1 then (false, (SystemState.transitionTo env SystemStatus.SD_MOUNT_FAILED.toInt d.2).2)
    else
      let l := DataLogger.initializeLogger env d.2
      if !l.1 then (false, (SystemState.transitionTo env SystemStatus.ERROR.toInt l.2).2)
      else (true, (SystemState.transitionTo env SystemStatus.READY.toInt l.2).2)

/-! ## Runs of the poll loop and specification-side notions -/

/-- The text `content` followed by the records `rs`, one CR LF terminated line
each, in list order. -/
def appendLines (content : String) (rs : List String) : String :=
  rs.foldl (fun acc r => acc ++ (r ++ "\r\n")) content

/-- The pending-record buffer capacity as the comparisons of the source see it. -/
def capacity (w : World) : Nat := intToSize w.log.maxBufferSize

/-- The operations the poll loop and the control layer run on an initialised
engine, and time passing between them. -/
inductive LogOp where
  | logData (data : String)
  | update
  | forceFlushBuffer
  | switchLogFile
  | performMaintenance
  | tick (dt : Nat)
  deriving DecidableEq, Repr

/-- The world after one operation. -/
def LogOp.run (env : Env) : LogOp → World → World
  | .logData data, w => (DataLogger.logData env data w).2
  | .update, w => (DataLogger.update env w).2
  | .forceFlushBuffer, w => (DataLogger.forceFlushBuffer env w).2
  | .switchLogFile, w => (DataLogger.switchLogFile env w).2
  | .performMaintenance, w => (DataLogger.performMaintenance env w).2
  | .tick dt, w => advanceClock dt w

/-- The world after a sequence of operations. -/
def runOps (env : Env) (ops : List LogOp) (w : World) : World :=
  ops.foldl (fun v op => op.run env v) w

/-- A run that only logs: each step lets `dt` milliseconds pass and then calls
`logData` with the given text. -/
def logRun (env : Env) : List (Nat × String) → World → World
  | [], w => w
  | (dt, data) :: rest, w => logRun env rest (DataLogger.logData env data (advanceClock dt w)).2

/-- Every call of a logging run finds the engine ready, arrives when the minimum
interval since the last accepted record has elapsed, and comes before the flush
interval has run out. -/
def acceptedRun (env : Env) : List (Nat × String) → World → Bool
  | [], _ => true
  | (dt, data) :: rest, w =>
    (DataLogger.isSystemReady env (advanceClock dt w)).1
    && !decide (subU32 (millis (advanceClock dt w)) w.log.lastLogTime < w.log.logInterval)
    && !decide (BUFFER_FLUSH_INTERVAL < subU32 (millis (advanceClock dt w)) w.log.lastBufferFlush)
    && acceptedRun env rest (DataLogger.logData env data (advanceClock dt w)).2

/-- The records a logging run is to leave in the buffer: the text of each call,
behind the clock reading of that call when time stamps are enabled. -/
def expectedRecords (stamps : Bool) : Nat → List (Nat × String) → List String
  | _, [] => []
  | now, (dt, data) :: rest =>
    (if stamps then toString ((now + dt) % U32) ++ "," ++ data else data)
      :: expectedRecords stamps (now + dt) rest

/-- Relation between the worlds before and after a call that leaves the logging
engine, the instrumentation, the clock, the mount flag, the failed-write counter
and the operational status alone. -/
structure SameEngine (w v : World) : Prop where
  log : v.log = w.log
  ghost : v.ghost = w.ghost
  now : v.hw.now = w.hw.now
  sdInit : v.sd.sdInitialized = w.sd.sdInitialized
  failed : v.sys.failedWrites = w.sys.failedWrites
  status : v.sys.currentStatus = w.sys.currentStatus

/-- Relation between the worlds before and after a call that leaves the buffer,
its capacity and the instrumentation alone. -/
structure SameBuffer (w v : World) : Prop where
  buffer : v.log.dataBuffer = w.log.dataBuffer
  maxSize : v.log.maxBufferSize = w.log.maxBufferSize
  ghost : v.ghost = w.ghost

/-- The bound on the buffer that the operations of the engine keep: the buffer
holds fewer records than the capacity plus the number of flushes that failed
since the instrumentation read `failuresAtStart`. -/
def bufferBounded (failuresAtStart : Nat) (w : World) : Prop :=
  failuresAtStart ≤ w.ghost.flushFailures
  ∧ w.log.dataBuffer.length + failuresAtStart < capacity w + w.ghost.flushFailures

/-- The value of an `unsigned long` counter that held `x` after `n` statements `x++`. -/
def afterIncrements (n x : Nat) : Nat := if n = 0 then x else (x + n) % U32

/-- The world `w` after `n` successful appends that left the card files `files`:
each append counts one write and stamps the time of the last good write. -/
def afterAppends (n : Nat) (files : FileStore) (w : World) : World :=
  { w with
    sys := { w.sys with
      totalWrites := afterIncrements n w.sys.totalWrites,
      lastGoodWriteTime := if n = 0 then w.sys.lastGoodWriteTime else millis w },
    hw := { w.hw with
      sdFiles := files,
      sdBeginCalls := w.hw.sdBeginCalls + n,
      sdOpenCalls := w.hw.sdOpenCalls + n,
      sdWriteCalls := w.hw.sdWriteCalls + n } }

/-! ## Concrete environments and states used to evaluate the model -/

/-- Libraries that never fail. -/
def reliableEnv : Env :=
  { sdBegin := fun _ => true, sdOpen := fun _ => true, sdWrite := fun _ => true,
    sdMkdir := fun _ => true,
    spiffsBegin := fun _ => true, spiffsOpen := fun _ => true }

/-- The three objects right after their constructors ran (src/system_state.cpp
lines 3-12, src/sd_manager.h lines 30-31, src/data_logger.h lines 45-50), on a
board whose stores are empty and whose clock reads 0. -/
def powerOnWorld : World :=
  { sys := { currentStatus := SystemStatus.INITIALIZING.toInt, lastGoodWriteTime := 0, systemStartTime := 0,
             currentLogFile := "", sdCardMounted := false, loggingActive := false,
             totalWrites := 0, failedWrites := 0, lastError := "" },
    sd := { sdInitialized := false, lastMountTime := 0, mountAttempts := 0, lastError := "" },
    log := { logInterval := 1000, lastLogTime := 0, autoResume := true, enableTimestamps := true,
             maxBufferSize := 1000, dataBuffer := [], bufferStartTime := 0, lastBufferFlush := 0,
             currentLogFile := "", fileOpen := false, totalDataLogged := 0,
             bufferFlushCount := 0, bufferOverflows := 0 },
    hw := { now := 0, sdFiles := [], sdDirs := [], spiffsFiles := [], sdBeginCalls := 0,
            sdOpenCalls := 0, sdWriteCalls := 0, sdMkdirCalls := 0, spiffsBeginCalls := 0,
            spiffsOpenCalls := 0, delays := [] },
    ghost := { flushAttempts := 0, flushFailures := 0, recordsAccepted := 0 } }

/-- A mounted card and status READY, before the logger is initialised. -/
def mountedReadyWorld : World :=
  { powerOnWorld with
    sys := { powerOnWorld.sys with currentStatus := SystemStatus.READY.toInt, sdCardMounted := true },
    sd := { powerOnWorld.sd with sdInitialized := true } }

/-- A card on which no file can be opened. -/
def openFailsEnv : Env := { reliableEnv with sdOpen := fun _ => false }

/-- A card whose second `println` fails, all other calls succeed. -/
def secondWriteFailsEnv : Env := { reliableEnv with sdWrite := fun k => k != 1 }

/-- A board whose SPIFFS refuses every open for writing. -/
def spiffsDownEnv : Env := { reliableEnv with spiffsOpen := fun _ => false }

/-- A card on which only the first open succeeds. -/
def firstOpenOnlyEnv : Env := { reliableEnv with sdOpen := fun k => k == 0 }

/-- An engine with an open file that holds the header, and two pending records. -/
def pendingWorld : World :=
  { mountedReadyWorld with
    sys := { mountedReadyWorld.sys with currentLogFile := "/logs/log_0_0.csv", totalWrites := 1 },
    log := { mountedReadyWorld.log with
      currentLogFile := "/logs/log_0_0.csv", fileOpen := true, dataBuffer := ["1000,a", "2000,b"] },
    hw := { mountedReadyWorld.hw with now := 2000, sdFiles := [("/logs/log_0_0.csv", LOG_HEADER)] } }

/-- The engine after `initialize` and one accepted `logData("x")` one second
later, on a board that never fails. -/
def afterOneRecord : World :=
  (DataLogger.logData reliableEnv "x"
    (advanceClock 1000 (DataLogger.initializeLogger reliableEnv mountedReadyWorld).2)).2

/-- A mounted card, status READY, and the capacity set to one record by
`setMaxBufferSize(1)` before `initialize`. -/
def capacityOneWorld : World :=
  { mountedReadyWorld with log := { mountedReadyWorld.log with maxBufferSize := 1 } }

/-- A card that refuses every `SD.begin`. -/
def noCardEnv : Env := { reliableEnv with sdBegin := fun _ => false }

/-- A card on which only the first open fails. -/
def firstOpenFailsEnv : Env := { reliableEnv with sdOpen := fun k => k != 0 }

/-- A mounted card that holds the log file of an earlier run, whose name the
state machine has loaded; the clock reads 7000. -/
def resumableWorld : World :=
  { mountedReadyWorld with
    sys := { mountedReadyWorld.sys with currentLogFile := "/logs/old.csv" },
    hw := { mountedReadyWorld.hw with
      now := 7000,
      sdFiles := [("/logs/old.csv", "timestamp,flow_rate,temperature,pressure\n5,1\r\n")] } }

/-- As `resumableWorld`, but the file of the earlier run starts with a line that
holds neither header word. -/
def foreignFileWorld : World :=
  { resumableWorld with
    hw := { resumableWorld.hw with sdFiles := [("/logs/old.csv", "time;flow\n5;1\r\n")] } }

/-- The storage manager believes the card is initialised (it was mounted
earlier), as after a card was pulled out. -/
def cardPulledWorld : World :=
  { powerOnWorld with sd := { powerOnWorld.sd with sdInitialized := true } }

/-- A board just powered on whose SPIFFS holds the recovery point written by the
flush of `afterOneRecord`. -/
def recoveryPointWorld : World :=
  { powerOnWorld with
    hw := { powerOnWorld.hw with
      spiffsFiles := [("/recovery.point",
        "lastWriteTime=1000\r\ncurrentLogFile=/logs/log_0_0.csv\r\ntotalWrites=2\r\ntimestamp=1000\r\n")] } }

/-- A board just powered on whose SPIFFS holds a state file with a status outside
the enumeration and non-zero counters. -/
def staleStateWorld : World :=
  { powerOnWorld with
    hw := { powerOnWorld.hw with
      spiffsFiles := [("/system.state",
        "status=9\r\nlastWriteTime=77\r\ntotalWrites=5\r\nfailedWrites=2\r\n")] } }

/-- A board whose SPIFFS does not start. -/
def spiffsDeadEnv : Env := { reliableEnv with spiffsBegin := fun _ => false }

/-! ## Lines of a state file that the loader skips -/

/-- The nine keys that `loadStateFromSPIFFS` compares with. -/
def STATE_KEYS : List String :=
  ["status", "lastWriteTime", "startTime", "currentLogFile", "sdMounted", "loggingActive",
   "totalWrites", "failedWrites", "lastError"]

/-- The key of a line as the loader takes it: the text before the first `=` of
the trimmed line. -/
def lineKey (line : List Char) : String :=
  String.mk ((trimChars line).takeWhile (fun c => c != '='))

/-- A line that holds no `=`, or whose key is none of the nine keys. -/
def skippedLine (line : List Char) : Bool :=
  decide ('=' ∉ line) || decide (lineKey line ∉ STATE_KEYS)

/-- The characters of a text made of the given lines, a line feed behind each. -/
def linesChars : List (List Char) → List Char
  | [] => []
  | l :: ls => l ++ Char.ofNat 10 :: linesChars ls

/-- The text `content` with the skipped lines removed. -/
def withoutSkippedLines (content : String) : String :=
  String.mk (linesChars ((readLines content).filter (fun l => !skippedLine l)))

/-- The world whose SPIFFS holds `text` as state file. -/
def withStateText (text : String) (w : World) : World :=
  { w with hw := { w.hw with spiffsFiles := fsWrite w.hw.spiffsFiles STATE_FILE text } }

/-- A board just powered on whose state file holds two lines without `=`, an
empty line and a line with an unknown key among two recognised lines. -/
def noisyStateWorld : World :=
  withStateText "junk\r\nstatus=2\r\nfoo=bar\r\n\r\ntotalWrites=7\r\nend" powerOnWorld

/-! ## Round trip of the state file -/

/-- The characters that `println(key + "=" + value)` puts before the line feed. -/
def entryLine (key value : String) : List Char :=
  key.data ++ '=' :: (value.data ++ [Char.ofNat 13])

/-- A text that the state file stores on one line and that trimming leaves
alone: no line feed, no white space at either end. -/
def plainValue (v : String) : Prop :=
  Char.ofNat 10 ∉ v.data ∧ trimChars v.data = v.data

/-- The states of the round trip: the status is an enumerator, the four numbers
are below 2^31, the file name and the error text are plain values. -/
def RoundTripState (s : SystemState) : Prop :=
  (∃ st : SystemStatus, s.currentStatus = st.toInt)
  ∧ s.lastGoodWriteTime < 2147483648 ∧ s.systemStartTime < 2147483648
  ∧ s.totalWrites < 2147483648 ∧ s.failedWrites < 2147483648
  ∧ plainValue s.currentLogFile ∧ plainValue s.lastError

/-! ## A state of a running logger -/

/-- A state of the running logger: status LOGGING, a current file, counters and
times of a run. -/
def loggingState : SystemState :=
  { currentStatus := SystemStatus.LOGGING.toInt, lastGoodWriteTime := 61000, systemStartTime := 12,
    currentLogFile := "/logs/log_0_12.csv", sdCardMounted := true, loggingActive := true,
    totalWrites := 40, failedWrites := 3, lastError := "Failed to append data to: /logs/log_0_12.csv" }

/-! ## Calls of the logging engine -/

/-- Method `DataLogger::setLogInterval`. -/
def DataLogger.setLogInterval (interval : Nat) (w : World) : World :=
  { w with log := { w.log with logInterval := interval } }

/-- Method `DataLogger::setAutoResume`. -/
def DataLogger.setAutoResume (enable : Bool) (w : World) : World :=
  { w with log := { w.log with autoResume := enable } }

/-- Method `DataLogger::setEnableTimestamps`. -/
def DataLogger.setEnableTimestamps (enable : Bool) (w : World) : World :=
  { w with log := { w.log with enableTimestamps := enable } }

/-- Method `DataLogger::setMaxBufferSize`. -/
def DataLogger.setMaxBufferSize (size : Int) (w : World) : World :=
  { w with log := { w.log with maxBufferSize := size } }

/-- Library call `SD.open(dir)` on a directory. -/
def sdOpenDir (env : Env) (_dir : String) (w : World) : Bool × World :=
  (env.sdOpen w.hw.sdOpenCalls, { w with hw := { w.hw with sdOpenCalls := w.hw.sdOpenCalls + 1 } })

/-- Is `path` the path of a file directly inside the directory `dir`. -/
def directlyIn (dir path : String) : Bool :=
  dir.data.isPrefixOf path.data
    && (match path.data.drop dir.data.length with
        | '/' :: name => !name.isEmpty && !name.contains '/'
        | _ => false)

/-- The files that the loop `file = root.openNextFile()` meets in the directory
`dir`: the files of the store directly inside it.  `file.name()` is taken to be
the last component of the path, so that `dir + "/" + file.name()` is the path. -/
def filesIn (fs : FileStore) (dir : String) : List String :=
  (fs.map Prod.fst).filter (directlyIn dir)

/-- The body of the loop of `SDManager::verifyAllFiles` for one file: the file
is opened for reading and read; `false` when it cannot be read or is empty. -/
def SDManager.verifyFile (env : Env) (acc : Bool × World) (filename : String) : Bool × World :=
  let o := sdOpenRead env filename acc.2
  match o.1 with
  | none => (false, o.2)
  | some content => (if content.utf8ByteSize = 0 then false else acc.1, o.2)

/-- Method `SDManager::verifyAllFiles`. -/
def SDManager.verifyAllFiles (env : Env) (w : World) : Bool × World :=
  let m := SDManager.isMounted env w
  if !m.1 then (false, m.2)
  else
    let r := sdOpenDir env LOG_DIR m.2
    if r.1 then (filesIn r.2.hw.sdFiles LOG_DIR).foldl (SDManager.verifyFile env) (true, r.2)
    else (true, r.2)

/-- Method `SDManager::performMaintenance`. -/
def SDManager.performMaintenance (env : Env) (w : World) : Bool × World :=
  let m := SDManager.isMounted env w
  if !m.1 then (false, m.2)
  else
    let r := sdOpenDir env TEMP_DIR m.2
    let cleaned : World :=
      if r.1 then (filesIn r.2.hw.sdFiles TEMP_DIR).foldl (fun v p => sdRemove p v) r.2 else r.2
    (true, (SDManager.verifyAllFiles env cleaned).2)

/-- Method `DataLogger::clearRecoveryData`. -/
def DataLogger.clearRecoveryData (env : Env) (w : World) : Bool × World :=
  let l := SystemState.loadState env w
  let m := SDManager.isMounted env l
  (true, if m.1 then (SDManager.performMaintenance env m.2).2 else m.2)

/-- The first block of `DataLogger::update`: the flush of a buffer that is full
or whose flush interval has passed; `false` stands for the `return false` of the
block. -/
def DataLogger.updateFlush (env : Env) (w : World) : Bool × World :=
  if w.log.dataBuffer ≠ [] then
    if intToSize w.log.maxBufferSize ≤ w.log.dataBuffer.length
        ∨ BUFFER_FLUSH_INTERVAL < subU32 (millis w) w.log.lastBufferFlush then
      DataLogger.flushCounted env w
    else (true, w)
  else (true, w)

/-- The public methods of `DataLogger` that can assign a member or call a
library.  The remaining public methods are getters; `getDiagnostics` makes the
call `isSystemReady` and assigns nothing. -/
inductive EngineCall where
  | initializeLogger
  | logData (data : String)
  | update
  | shutdown
  | setLogInterval (interval : Nat)
  | setAutoResume (enable : Bool)
  | setEnableTimestamps (enable : Bool)
  | setMaxBufferSize (size : Int)
  | switchLogFile
  | closeCurrentFile
  | forceFlushBuffer
  | createRecoveryPoint
  | attemptRecovery
  | clearRecoveryData
  | isSystemReady
  | performMaintenance
  | resetStatistics
  deriving DecidableEq, Repr

/-- The result of a call and the world after it; `true` for a `void` method. -/
def EngineCall.run (env : Env) : EngineCall → World → Bool × World
  | .initializeLogger, w => DataLogger.initializeLogger env w
  | .logData data, w => DataLogger.logData env data w
  | .update, w => DataLogger.update env w
  | .shutdown, w => DataLogger.shutdown env w
  | .setLogInterval interval, w => (true, DataLogger.setLogInterval interval w)
  | .setAutoResume enable, w => (true, DataLogger.setAutoResume enable w)
  | .setEnableTimestamps enable, w => (true, DataLogger.setEnableTimestamps enable w)
  | .setMaxBufferSize size, w => (true, DataLogger.setMaxBufferSize size w)
  | .switchLogFile, w => DataLogger.switchLogFile env w
  | .closeCurrentFile, w => DataLogger.closeCurrentFile env w
  | .forceFlushBuffer, w => DataLogger.forceFlushBuffer env w
  | .createRecoveryPoint, w => DataLogger.createRecoveryPoint env w
  | .attemptRecovery, w => DataLogger.attemptRecovery env w
  | .clearRecoveryData, w => DataLogger.clearRecoveryData env w
  | .isSystemReady, w => DataLogger.isSystemReady env w
  | .performMaintenance, w => DataLogger.performMaintenance env w
  | .resetStatistics, w => (true, DataLogger.resetStatistics w)

/-- Between `w` and `v` a flush of a non-empty buffer returned success: the
flushes counted by the instrumentation grew by more than the failed ones. -/
def flushSucceeded (w v : World) : Prop :=
  w.ghost.flushAttempts + v.ghost.flushFailures < v.ghost.flushAttempts + w.ghost.flushFailures

/-- The step from `w` to `v` removed pending records only through a successful
flush: no flush is counted as failed without being counted as made, and when
the buffer of `v` holds fewer records than that of `w` a flush succeeded. -/
def drainedOnlyByFlush (w v : World) : Prop :=
  w.ghost.flushAttempts + v.ghost.flushFailures ≤ v.ghost.flushAttempts + w.ghost.flushFailures
  ∧ (v.log.dataBuffer.length < w.log.dataBuffer.length → flushSucceeded w v)

/-! ## The current file of the engine -/

/-- The six operations of the poll loop and the control layer: `logData`,
`update`, `forceFlushBuffer`, `switchLogFile`, `attemptRecovery` and
`performMaintenance`. -/
def EngineCall.isLoggingOperation : EngineCall → Bool
  | .logData _ => true
  | .update => true
  | .forceFlushBuffer => true
  | .switchLogFile => true
  | .attemptRecovery => true
  | .performMaintenance => true
  | _ => false

/-- A step of a run of the engine: a call, or time passing. -/
inductive EngineStep where
  | call (c : EngineCall)
  | tick (dt : Nat)
  deriving DecidableEq, Repr

/-- The world after a step. -/
def EngineStep.run (env : Env) : EngineStep → World → World
  | .call c, w => (c.run env w).2
  | .tick dt, w => advanceClock dt w

/-- The world after a sequence of steps. -/
def runSteps (env : Env) (steps : List EngineStep) (w : World) : World :=
  steps.foldl (fun v s => s.run env v) w

/-- A step that is time passing or one of the six operations. -/
def EngineStep.isLoggingStep : EngineStep → Bool
  | .call c => c.isLoggingOperation
  | .tick _ => true

/-- The step from `w` to `v` leaves the operational status as it is. -/
def sameStatus (w v : World) : Prop := v.sys.currentStatus = w.sys.currentStatus

/-! ## Shutdown and the following start -/

/-- The step from `w` to `v` leaves the file name held by the state machine as
it is. -/
def sameName (w v : World) : Prop := v.sys.currentLogFile = w.sys.currentLogFile

/-- The engine of `pendingWorld` on a board whose state file stores `totalWrites=-1` and
`failedWrites=-1`, after `DataLogger::clearRecoveryData`, which calls
`systemState.loadState()`: both counters of the state machine hold 4294967295. -/
def countersAtMaxWorld : World :=
  (DataLogger.clearRecoveryData reliableEnv
    (withStateText "totalWrites=-1\r\nfailedWrites=-1\r\n" pendingWorld)).2

/-- The engine of `pendingWorld` with its flush counter at the largest `unsigned long`,
the value after 4294967295 successful flushes (`counters_after_records` follows the
counter along a run). -/
def flushesAtMaxWorld : World :=
  { pendingWorld with log := { pendingWorld.log with bufferFlushCount := 4294967295 } }

/-- The engine with capacity one, one second after its `initialize`, with its overflow
counter at the largest `unsigned long`, the value after 4294967295 counted overflows
(`counters_after_records` follows the counter along a run). -/
def overflowsAtMaxWorld : World :=
  { advanceClock 1000 (DataLogger.initializeLogger reliableEnv capacityOneWorld).2 with
    log := { (advanceClock 1000 (DataLogger.initializeLogger reliableEnv capacityOneWorld).2).log with
      bufferOverflows := 4294967295 } }

/-- An engine of capacity one that is ready for the next record: a status that passes the
readiness check, an initialised card, a current file, an empty buffer, a log interval of
at most one second, and the last accepted record and the last flush (or `initialize`) at
the present clock reading. -/
def readyCapacityOne (w : World) : Prop :=
  (w.sys.currentStatus = SystemStatus.READY.toInt ∨ w.sys.currentStatus = SystemStatus.LOGGING.toInt
    ∨ w.sys.currentStatus = SystemStatus.RECOVERING.toInt)
  ∧ w.sd.sdInitialized = true
  ∧ w.log.currentLogFile ≠ ""
  ∧ w.log.fileOpen = true
  ∧ w.log.dataBuffer = []
  ∧ capacity w = 1
  ∧ w.log.logInterval ≤ 1000
  ∧ w.log.lastLogTime = millis w
  ∧ w.log.lastBufferFlush = millis w

/-! ## Supporting lemmas -/

/-! ### File stores -/

theorem lookup_filter_ne (fs : FileStore) (p q : String) (h : q ≠ p) :
    List.lookup q (fs.filter (fun e => e.1 != p)) = List.lookup q fs := by
  induction fs with
  | nil => rfl
  | cons e es ih =>
    obtain ⟨a, b⟩ := e
    by_cases hap : a = p
    · subst hap
      have hqa : (q == a) = false := by simpa using h
      simp [List.filter, List.lookup, hqa, ih]
    · have : (a != p) = true := by simpa using hap
      simp only [List.filter, this, List.lookup]
      rw [ih]

theorem fsRead_fsWrite_same (fs : FileStore) (p c : String) :
    fsRead (fsWrite fs p c) p = some c := by
  simp [fsRead, fsWrite, List.lookup]

theorem fsRead_fsWrite_other (fs : FileStore) (p q c : String) (h : q ≠ p) :
    fsRead (fsWrite fs p c) q = fsRead fs q := by
  have hqp : (q == p) = false := by simpa using h
  simp [fsRead, fsWrite, List.lookup, hqp, lookup_filter_ne fs p q h]

theorem fileContent_fsWrite_same (fs : FileStore) (p c : String) :
    fileContent (fsWrite fs p c) p = c := by
  simp [fileContent, fsRead_fsWrite_same]

theorem fileContent_of_not_exists (fs : FileStore) (p : String) (h : ¬ fsExists fs p = true) :
    fileContent fs p = "" := by
  unfold fileContent
  unfold fsExists at h
  cases hr : fsRead fs p with
  | none => rfl
  | some c => simp [hr] at h

/-! ### Calls that leave the engine alone -/

theorem SameEngine.refl (w : World) : SameEngine w w := ⟨rfl, rfl, rfl, rfl, rfl, rfl⟩

theorem SameEngine.trans {a b c : World} (h1 : SameEngine a b) (h2 : SameEngine b c) :
    SameEngine a c :=
  ⟨h2.log.trans h1.log, h2.ghost.trans h1.ghost, h2.now.trans h1.now, h2.sdInit.trans h1.sdInit,
    h2.failed.trans h1.failed, h2.status.trans h1.status⟩

theorem SameEngine.millis_eq {a b : World} (h : SameEngine a b) : millis b = millis a := by
  simp [millis, h.now]

theorem spiffsWriteLines_same (env : Env) (p : String) (ls : List String) (w : World) :
    SameEngine w (spiffsWriteLines env p ls w).2 := by
  unfold spiffsWriteLines
  simp only []
  split <;> exact ⟨rfl, rfl, rfl, rfl, rfl, rfl⟩

theorem spiffsWriteLines_sys (env : Env) (p : String) (ls : List String) (w : World) :
    (spiffsWriteLines env p ls w).2.sys = w.sys := by
  unfold spiffsWriteLines
  simp only []
  split <;> rfl

theorem spiffsWriteLines_sdFiles (env : Env) (p : String) (ls : List String) (w : World) :
    (spiffsWriteLines env p ls w).2.hw.sdFiles = w.hw.sdFiles := by
  unfold spiffsWriteLines
  simp only []
  split <;> rfl

theorem saveState_same (env : Env) (w : World) : SameEngine w (SystemState.saveState env w) :=
  spiffsWriteLines_same env _ _ w

theorem saveState_sys (env : Env) (w : World) : (SystemState.saveState env w).sys = w.sys :=
  spiffsWriteLines_sys env _ _ w

theorem saveState_sdFiles (env : Env) (w : World) :
    (SystemState.saveState env w).hw.sdFiles = w.hw.sdFiles :=
  spiffsWriteLines_sdFiles env _ _ w

theorem logError_same (env : Env) (e : String) (w : World) :
    SameEngine w (SystemState.logError env e w) := by
  have h := saveState_same env { w with sys := { w.sys with lastError := e } }
  exact ⟨h.log, h.ghost, h.now, h.sdInit, h.failed, h.status⟩

theorem logError_sdFiles (env : Env) (e : String) (w : World) :
    (SystemState.logError env e w).hw.sdFiles = w.hw.sdFiles := by
  unfold SystemState.logError
  rw [saveState_sdFiles]

theorem logError_sys (env : Env) (e : String) (w : World) :
    (SystemState.logError env e w).sys = { w.sys with lastError := e } := by
  unfold SystemState.logError
  rw [saveState_sys]

theorem setLastError_same (m : String) (w : World) : SameEngine w (SDManager.setLastError m w) :=
  ⟨rfl, rfl, rfl, rfl, rfl, rfl⟩

theorem isMounted_same (env : Env) (w : World) : SameEngine w (SDManager.isMounted env w).2 := by
  unfold SDManager.isMounted sdBegin
  split <;> exact ⟨rfl, rfl, rfl, rfl, rfl, rfl⟩

theorem isMounted_sdFiles (env : Env) (w : World) :
    (SDManager.isMounted env w).2.hw.sdFiles = w.hw.sdFiles := by
  unfold SDManager.isMounted sdBegin
  split <;> rfl

theorem sdOpenAppend_same (env : Env) (f : String) (w : World) :
    SameEngine w (sdOpenAppend env f w).2 := by
  unfold sdOpenAppend
  simp only []
  split
  · split <;> exact ⟨rfl, rfl, rfl, rfl, rfl, rfl⟩
  · exact ⟨rfl, rfl, rfl, rfl, rfl, rfl⟩

theorem fileContent_sdOpenAppend (env : Env) (f : String) (w : World) :
    fileContent (sdOpenAppend env f w).2.hw.sdFiles f = fileContent w.hw.sdFiles f := by
  unfold sdOpenAppend
  simp only []
  split
  · split
    · rfl
    · rename_i hne
      simp only [fileContent_fsWrite_same]
      exact (fileContent_of_not_exists _ _ hne).symm
  · rfl

theorem filePrint_same (env : Env) (f d : String) (w : World) :
    SameEngine w (filePrint env f d w).2 := by
  unfold filePrint
  simp only []
  split <;> exact ⟨rfl, rfl, rfl, rfl, rfl, rfl⟩

theorem appendData_same (env : Env) (d f : String) (w : World) :
    SameEngine w (SDManager.appendData env d f w).2 := by
  unfold SDManager.appendData
  simp only []
  have h1 := isMounted_same env w
  have h2 := sdOpenAppend_same env f (SDManager.isMounted env w).2
  have h3 := filePrint_same env f (d ++ "\r\n") (sdOpenAppend env f (SDManager.isMounted env w).2).2
  split
  · exact h1.trans (setLastError_same _ _)
  · split
    · exact (h1.trans h2).trans ((setLastError_same _ _).trans (logError_same env _ _))
    · split
      · exact ((h1.trans h2).trans h3).trans ((setLastError_same _ _).trans (logError_same env _ _))
      · exact ((h1.trans h2).trans h3).trans ⟨rfl, rfl, rfl, rfl, rfl, rfl⟩

/-! ### A single append -/

theorem line_utf8ByteSize_ne_zero (d : String) : (d ++ "\r\n").utf8ByteSize ≠ 0 := by
  obtain ⟨cs⟩ := d
  show String.utf8ByteSize ⟨cs ++ "\r\n".data⟩ ≠ 0
  have h2 : String.utf8Len "\r\n".data = 2 := by decide
  rw [String.utf8ByteSize_mk, String.utf8Len_append, h2]
  omega

/-- One `x++` followed by `n` more is `1 + n` of them. -/
theorem afterIncrements_succ (n x : Nat) :
    afterIncrements n (afterIncrements 1 x) = afterIncrements (1 + n) x := by
  cases n with
  | zero => rfl
  | succ m =>
    simp only [afterIncrements, U32]
    rw [if_neg (by omega), if_neg (by omega), if_neg (by omega)]
    omega

theorem afterAppends_zero (w : World) : afterAppends 0 w.hw.sdFiles w = w := by
  simp [afterAppends, afterIncrements]

theorem afterAppends_succ (n : Nat) (files1 files2 : FileStore) (w : World) :
    afterAppends n files2 (afterAppends 1 files1 w) = afterAppends (1 + n) files2 w := by
  have hc := afterIncrements_succ n w.sys.totalWrites
  cases n with
  | zero => simp [afterAppends, millis, afterIncrements]
  | succ m =>
    simp only [afterAppends] at *
    rw [hc]
    simp [millis, Nat.add_assoc, Nat.add_comm 1 m]

theorem afterAppends_same (n : Nat) (files : FileStore) (w : World) :
    SameEngine w (afterAppends n files w) := ⟨rfl, rfl, rfl, rfl, rfl, rfl⟩

/-- The library outcomes under which `appendData` called in `w` succeeds. -/
theorem appendData_true_iff (env : Env) (d f : String) (w : World) :
    (SDManager.appendData env d f w).1 = true
      ↔ (w.sd.sdInitialized = true ∧ env.sdBegin w.hw.sdBeginCalls = true
          ∧ env.sdOpen w.hw.sdOpenCalls = true ∧ env.sdWrite w.hw.sdWriteCalls = true) := by
  have hz := line_utf8ByteSize_ne_zero d
  cases hI : w.sd.sdInitialized <;> cases hB : env.sdBegin w.hw.sdBeginCalls <;>
    cases hO : env.sdOpen w.hw.sdOpenCalls <;> cases hW : env.sdWrite w.hw.sdWriteCalls <;>
    by_cases hE : fsExists w.hw.sdFiles f = true <;>
    simp [SDManager.appendData, SDManager.isMounted, sdBegin, sdOpenAppend, filePrintln, filePrint,
      hI, hB, hO, hW, hE, hz]

/-- A successful `appendData` counts one write, stamps the write time, and puts
the record and a line end behind the content of the file. -/
theorem appendData_ok (env : Env) (d f : String) (w : World)
    (h : (SDManager.appendData env d f w).1 = true) :
    (SDManager.appendData env d f w).2
        = afterAppends 1 (SDManager.appendData env d f w).2.hw.sdFiles w
      ∧ fileContent (SDManager.appendData env d f w).2.hw.sdFiles f
        = fileContent w.hw.sdFiles f ++ (d ++ "\r\n") := by
  have hz := line_utf8ByteSize_ne_zero d
  obtain ⟨hI, hB, hO, hW⟩ := (appendData_true_iff env d f w).1 h
  by_cases hE : fsExists w.hw.sdFiles f = true
  · simp [SDManager.appendData, SDManager.isMounted, sdBegin, sdOpenAppend, filePrintln, filePrint,
      hI, hB, hO, hW, hE, hz, afterAppends, afterIncrements, millis,
      SystemState.setLastGoodWriteTime, SystemState.incrementWrites, fileContent_fsWrite_same]
  · simp [SDManager.appendData, SDManager.isMounted, sdBegin, sdOpenAppend, filePrintln, filePrint,
      hI, hB, hO, hW, hE, hz, afterAppends, afterIncrements, millis,
      SystemState.setLastGoodWriteTime, SystemState.incrementWrites, fileContent_fsWrite_same, fileContent_of_not_exists _ _ hE]

/-- A failed `appendData` leaves the content of the file as it was. -/
theorem appendData_fail_content (env : Env) (d f : String) (w : World)
    (h : (SDManager.appendData env d f w).1 = false) :
    fileContent (SDManager.appendData env d f w).2.hw.sdFiles f = fileContent w.hw.sdFiles f := by
  have hz := line_utf8ByteSize_ne_zero d
  have hn : ¬ fsExists w.hw.sdFiles f = true → fileContent w.hw.sdFiles f = "" :=
    fileContent_of_not_exists _ _
  cases hI : w.sd.sdInitialized <;> cases hB : env.sdBegin w.hw.sdBeginCalls <;>
    cases hO : env.sdOpen w.hw.sdOpenCalls <;> cases hW : env.sdWrite w.hw.sdWriteCalls <;>
    by_cases hE : fsExists w.hw.sdFiles f = true <;>
    simp [SDManager.appendData, SDManager.isMounted, sdBegin, sdOpenAppend, filePrintln, filePrint,
      hI, hB, hO, hW, hE, hz, logError_sdFiles, SDManager.setLastError, fileContent_fsWrite_same,
      hn] at h ⊢

/-! ### The append loop of a flush -/

theorem flushLoop_same (env : Env) (f : String) (rs : List String) (w : World) :
    SameEngine w (DataLogger.flushLoop env f rs w).2 := by
  induction rs generalizing w with
  | nil => exact SameEngine.refl w
  | cons d ds ih =>
    unfold DataLogger.flushLoop
    simp only []
    split
    · exact (appendData_same env d f w).trans (logError_same env _ _)
    · exact (appendData_same env d f w).trans (ih _)

theorem appendLines_cons (c d : String) (ds : List String) :
    appendLines c (d :: ds) = appendLines (c ++ (d ++ "\r\n")) ds := rfl

theorem appendLines_append (c : String) (xs ys : List String) :
    appendLines c (xs ++ ys) = appendLines (appendLines c xs) ys := by
  simp [appendLines, List.foldl_append]

theorem flushLoop_nil (env : Env) (f : String) (w : World) :
    DataLogger.flushLoop env f [] w = (true, w) := rfl

theorem flushLoop_cons (env : Env) (f d : String) (ds : List String) (w : World) :
    DataLogger.flushLoop env f (d :: ds) w
      = if !(SDManager.appendData env d f w).1 then
          (false, SystemState.logError env ("Failed to append data to: " ++ f)
            (SDManager.appendData env d f w).2)
        else DataLogger.flushLoop env f ds (SDManager.appendData env d f w).2 := rfl

/-- When the loop returns true every record was appended: the file holds its
former content followed by the records, and each append counted one write. -/
theorem flushLoop_ok (env : Env) (f : String) (rs : List String) (w : World)
    (h : (DataLogger.flushLoop env f rs w).1 = true) :
    (DataLogger.flushLoop env f rs w).2
        = afterAppends rs.length (DataLogger.flushLoop env f rs w).2.hw.sdFiles w
      ∧ fileContent (DataLogger.flushLoop env f rs w).2.hw.sdFiles f
        = appendLines (fileContent w.hw.sdFiles f) rs := by
  induction rs generalizing w with
  | nil =>
    simp only [flushLoop_nil, List.length_nil, appendLines, List.foldl_nil, and_true]
    exact (afterAppends_zero w).symm
  | cons d ds ih =>
    rw [flushLoop_cons] at h ⊢
    cases ha : (SDManager.appendData env d f w).1 with
    | false => simp [ha] at h
    | true =>
      simp only [ha, Bool.not_true, Bool.false_eq_true, if_false] at h ⊢
      obtain ⟨e1, c1⟩ := appendData_ok env d f w ha
      obtain ⟨e2, c2⟩ := ih _ h
      generalize (SDManager.appendData env d f w).2 = A at *
      generalize (DataLogger.flushLoop env f ds A).2 = X at *
      refine ⟨?_, ?_⟩
      · calc X = afterAppends ds.length X.hw.sdFiles A := e2
          _ = afterAppends ds.length X.hw.sdFiles (afterAppends 1 A.hw.sdFiles w) :=
              congrArg _ e1
          _ = afterAppends (1 + ds.length) X.hw.sdFiles w := afterAppends_succ _ _ _ _
          _ = afterAppends (d :: ds).length X.hw.sdFiles w := by
              rw [List.length_cons, Nat.add_comm]
      · rw [c2, c1, appendLines_cons]

theorem flushLoop_append (env : Env) (f : String) (xs ys : List String) (w : World) :
    DataLogger.flushLoop env f (xs ++ ys) w
      = if (DataLogger.flushLoop env f xs w).1 then
          DataLogger.flushLoop env f ys (DataLogger.flushLoop env f xs w).2
        else DataLogger.flushLoop env f xs w := by
  induction xs generalizing w with
  | nil => simp [flushLoop_nil]
  | cons d ds ih =>
    simp only [List.cons_append, flushLoop_cons]
    cases ha : (SDManager.appendData env d f w).1 with
    | false => simp
    | true => simpa using ih _

/-- The loop succeeds when the card is initialised and the library calls it makes,
one `begin`, one `open` and one `println` for each record, all succeed. -/
theorem flushLoop_true_of_env (env : Env) (f : String) (rs : List String) (w : World)
    (hI : w.sd.sdInitialized = true)
    (hB : ∀ i, i < rs.length → env.sdBegin (w.hw.sdBeginCalls + i) = true)
    (hO : ∀ i, i < rs.length → env.sdOpen (w.hw.sdOpenCalls + i) = true)
    (hW : ∀ i, i < rs.length → env.sdWrite (w.hw.sdWriteCalls + i) = true) :
    (DataLogger.flushLoop env f rs w).1 = true := by
  induction rs generalizing w with
  | nil => rfl
  | cons d ds ih =>
    have ha : (SDManager.appendData env d f w).1 = true :=
      (appendData_true_iff env d f w).2
        ⟨hI, by simpa using hB 0 (by simp), by simpa using hO 0 (by simp), by simpa using hW 0 (by simp)⟩
    rw [flushLoop_cons]
    simp only [ha, Bool.not_true, Bool.false_eq_true, if_false]
    obtain ⟨e1, _⟩ := appendData_ok env d f w ha
    apply ih
    · rw [(appendData_same env d f w).sdInit]; exact hI
    · intro i hi
      rw [e1]
      have := hB (1 + i) (by simp; omega)
      simpa [afterAppends, Nat.add_assoc] using this
    · intro i hi
      rw [e1]
      have := hO (1 + i) (by simp; omega)
      simpa [afterAppends, Nat.add_assoc] using this
    · intro i hi
      rw [e1]
      have := hW (1 + i) (by simp; omega)
      simpa [afterAppends, Nat.add_assoc] using this

/-! ### The recovery point -/

theorem createRecoveryPoint_same (env : Env) (w : World) :
    SameEngine w (SystemState.createRecoveryPoint env w).2 := by
  unfold SystemState.createRecoveryPoint
  simp only []
  split
  · exact spiffsWriteLines_same env _ _ w
  · exact (spiffsWriteLines_same env _ _ w).trans (logError_same env _ _)

theorem createRecoveryPoint_sdFiles (env : Env) (w : World) :
    (SystemState.createRecoveryPoint env w).2.hw.sdFiles = w.hw.sdFiles := by
  unfold SystemState.createRecoveryPoint
  simp only []
  split
  · exact spiffsWriteLines_sdFiles env _ _ w
  · rw [logError_sdFiles, spiffsWriteLines_sdFiles]

theorem createRecoveryPoint_totalWrites (env : Env) (w : World) :
    (SystemState.createRecoveryPoint env w).2.sys.totalWrites = w.sys.totalWrites := by
  unfold SystemState.createRecoveryPoint
  simp only []
  split
  · rw [spiffsWriteLines_sys]
  · rw [logError_sys, spiffsWriteLines_sys]

/-- When SPIFFS opens the file, the recovery point holds the four lines of the
current state and the state machine is left as it was. -/
theorem createRecoveryPoint_ok (env : Env) (w : World)
    (h : env.spiffsOpen w.hw.spiffsOpenCalls = true) :
    (SystemState.createRecoveryPoint env w).1 = true
    ∧ fsRead (SystemState.createRecoveryPoint env w).2.hw.spiffsFiles RECOVERY_FILE
        = some (String.join ((recoveryLines w.sys (millis w)).map (fun l => l ++ "\r\n")))
    ∧ (SystemState.createRecoveryPoint env w).2.sys = w.sys := by
  simp [SystemState.createRecoveryPoint, spiffsWriteLines, h, fsRead_fsWrite_same]

/-- When SPIFFS refuses to open the file, the recovery point file is not touched. -/
theorem createRecoveryPoint_refused (env : Env) (w : World)
    (h : env.spiffsOpen w.hw.spiffsOpenCalls = false) :
    (SystemState.createRecoveryPoint env w).1 = false
    ∧ fsRead (SystemState.createRecoveryPoint env w).2.hw.spiffsFiles RECOVERY_FILE
        = fsRead w.hw.spiffsFiles RECOVERY_FILE := by
  have hne : RECOVERY_FILE ≠ STATE_FILE := by decide
  cases h2 : env.spiffsOpen (w.hw.spiffsOpenCalls + 1) <;>
    simp [SystemState.createRecoveryPoint, spiffsWriteLines, h, h2, SystemState.logError,
      SystemState.saveState, SystemState.saveStateToSPIFFS, fsRead_fsWrite_other _ _ _ _ hne]

/-! ### A whole flush -/

theorem flush_nil (env : Env) (w : World) (h : w.log.dataBuffer = []) :
    DataLogger.flushBufferToSD env w = (true, w) := by
  simp [DataLogger.flushBufferToSD, h]

/-- A failed flush changes no field of the engine and counts one failed attempt. -/
theorem flush_false (env : Env) (w : World) (h : (DataLogger.flushBufferToSD env w).1 = false) :
    (DataLogger.flushBufferToSD env w).2.log = w.log
    ∧ (DataLogger.flushBufferToSD env w).2.ghost
        = { w.ghost with flushAttempts := w.ghost.flushAttempts + 1,
                         flushFailures := w.ghost.flushFailures + 1 }
    ∧ (DataLogger.flushBufferToSD env w).2.hw.now = w.hw.now
    ∧ (DataLogger.flushBufferToSD env w).2.sd.sdInitialized = w.sd.sdInitialized
    ∧ (DataLogger.flushBufferToSD env w).2.sys.failedWrites = w.sys.failedWrites
    ∧ (DataLogger.flushBufferToSD env w).2.sys.currentStatus = w.sys.currentStatus := by
  unfold DataLogger.flushBufferToSD at h ⊢
  simp only [] at h ⊢
  split at h
  · simp at h
  · split at h
    · rename_i h1 h2
      simp only [h1, h2, if_true, if_false]
      have hs := logError_same env "Cannot flush: No file open" w
      exact ⟨by simp [noteFlushFailure, hs.log], by simp [noteFlushFailure, hs.ghost],
        by simp [noteFlushFailure, hs.now], by simp [noteFlushFailure, hs.sdInit],
        by simp [noteFlushFailure, hs.failed], by simp [noteFlushFailure, hs.status]⟩
    · split at h
      · rename_i h1 h2 h3
        simp only [h1, h2, h3, if_true, if_false]
        have hs := flushLoop_same env w.log.currentLogFile w.log.dataBuffer w
        exact ⟨by simp [noteFlushFailure, hs.log], by simp [noteFlushFailure, hs.ghost],
          by simp [noteFlushFailure, hs.now], by simp [noteFlushFailure, hs.sdInit],
          by simp [noteFlushFailure, hs.failed], by simp [noteFlushFailure, hs.status]⟩
      · simp at h

/-- The result of a flush of a non-empty buffer. -/
theorem flush_true_iff (env : Env) (w : World) (hb : w.log.dataBuffer ≠ []) :
    (DataLogger.flushBufferToSD env w).1 = true
      ↔ (w.log.fileOpen = true ∧ w.log.currentLogFile ≠ ""
          ∧ (DataLogger.flushLoop env w.log.currentLogFile w.log.dataBuffer w).1 = true) := by
  unfold DataLogger.flushBufferToSD
  simp only [hb, if_false]
  cases hO : w.log.fileOpen <;> by_cases hF : w.log.currentLogFile = "" <;>
    cases hL : (DataLogger.flushLoop env w.log.currentLogFile w.log.dataBuffer w).1 <;> simp [hF]

/-- The world after a successful flush of a non-empty buffer. -/
theorem flush_true_eq (env : Env) (w : World) (hb : w.log.dataBuffer ≠ [])
    (h : (DataLogger.flushBufferToSD env w).1 = true) :
    (DataLogger.flushBufferToSD env w).2
      = noteFlushSuccess (SystemState.createRecoveryPoint env
          (DataLogger.markFlushed
            (DataLogger.flushLoop env w.log.currentLogFile w.log.dataBuffer w).2)).2 := by
  obtain ⟨hO, hF, hL⟩ := (flush_true_iff env w hb).1 h
  unfold DataLogger.flushBufferToSD
  simp only [hb, hO, hF, hL, if_false, Bool.not_true, Bool.false_or, decide_False,
    Bool.false_eq_true, DataLogger.createRecoveryPoint]

/-- The last step of a successful flush: the recovery point is written, the
instrumentation notes the flush. -/
theorem finishFlush_facts (env : Env) (v : World) :
    (noteFlushSuccess (SystemState.createRecoveryPoint env v).2).log = v.log
    ∧ (noteFlushSuccess (SystemState.createRecoveryPoint env v).2).ghost
        = { v.ghost with flushAttempts := v.ghost.flushAttempts + 1 }
    ∧ (noteFlushSuccess (SystemState.createRecoveryPoint env v).2).hw.now = v.hw.now
    ∧ (noteFlushSuccess (SystemState.createRecoveryPoint env v).2).sd.sdInitialized
        = v.sd.sdInitialized
    ∧ (noteFlushSuccess (SystemState.createRecoveryPoint env v).2).hw.sdFiles = v.hw.sdFiles
    ∧ (noteFlushSuccess (SystemState.createRecoveryPoint env v).2).sys.totalWrites
        = v.sys.totalWrites
    ∧ (env.spiffsOpen v.hw.spiffsOpenCalls = true →
        (noteFlushSuccess (SystemState.createRecoveryPoint env v).2).sys = v.sys
        ∧ fsRead (noteFlushSuccess (SystemState.createRecoveryPoint env v).2).hw.spiffsFiles
            RECOVERY_FILE
          = some (String.join ((recoveryLines v.sys (millis v)).map (fun l => l ++ "\r\n"))))
    ∧ (env.spiffsOpen v.hw.spiffsOpenCalls = false →
        fsRead (noteFlushSuccess (SystemState.createRecoveryPoint env v).2).hw.spiffsFiles
            RECOVERY_FILE
          = fsRead v.hw.spiffsFiles RECOVERY_FILE) := by
  have hs := createRecoveryPoint_same env v
  refine ⟨?_, ?_, ?_, ?_, ?_, ?_, ?_, ?_⟩
  · simp [noteFlushSuccess, hs.log]
  · simp [noteFlushSuccess, hs.ghost]
  · simp [noteFlushSuccess, hs.now]
  · simp [noteFlushSuccess, hs.sdInit]
  · simp [noteFlushSuccess, createRecoveryPoint_sdFiles]
  · simp [noteFlushSuccess, createRecoveryPoint_totalWrites]
  · intro hS
    obtain ⟨_, hr, hsys⟩ := createRecoveryPoint_ok env v hS
    exact ⟨by simp only [noteFlushSuccess, hsys], by simp only [noteFlushSuccess, hr]⟩
  · intro hS
    obtain ⟨_, hr⟩ := createRecoveryPoint_refused env v hS
    simp only [noteFlushSuccess, hr]

/-- The state machine after the appends of a successful flush of `n` records. -/
theorem flush_true_facts (env : Env) (w : World) (hb : w.log.dataBuffer ≠ [])
    (h : (DataLogger.flushBufferToSD env w).1 = true) :
    (DataLogger.flushBufferToSD env w).2.log
        = { w.log with dataBuffer := [], bufferFlushCount := (w.log.bufferFlushCount + 1) % U32,
                       lastBufferFlush := millis w }
    ∧ (DataLogger.flushBufferToSD env w).2.ghost
        = { w.ghost with flushAttempts := w.ghost.flushAttempts + 1 }
    ∧ (DataLogger.flushBufferToSD env w).2.hw.now = w.hw.now
    ∧ (DataLogger.flushBufferToSD env w).2.sd.sdInitialized = w.sd.sdInitialized
    ∧ fileContent (DataLogger.flushBufferToSD env w).2.hw.sdFiles w.log.currentLogFile
        = appendLines (fileContent w.hw.sdFiles w.log.currentLogFile) w.log.dataBuffer
    ∧ (DataLogger.flushBufferToSD env w).2.sys.totalWrites
        = (w.sys.totalWrites + w.log.dataBuffer.length) % U32
    ∧ (env.spiffsOpen w.hw.spiffsOpenCalls = true →
        (DataLogger.flushBufferToSD env w).2.sys
            = { w.sys with totalWrites := (w.sys.totalWrites + w.log.dataBuffer.length) % U32,
                           lastGoodWriteTime := millis w }
        ∧ fsRead (DataLogger.flushBufferToSD env w).2.hw.spiffsFiles RECOVERY_FILE
            = some (String.join ((recoveryLines
                { w.sys with totalWrites := (w.sys.totalWrites + w.log.dataBuffer.length) % U32,
                             lastGoodWriteTime := millis w } (millis w)).map
                (fun l => l ++ "\r\n"))))
    ∧ (env.spiffsOpen w.hw.spiffsOpenCalls = false →
        fsRead (DataLogger.flushBufferToSD env w).2.hw.spiffsFiles RECOVERY_FILE
          = fsRead w.hw.spiffsFiles RECOVERY_FILE) := by
  obtain ⟨_, _, hL⟩ := (flush_true_iff env w hb).1 h
  obtain ⟨e, c⟩ := flushLoop_ok env _ _ w hL
  have hn : w.log.dataBuffer.length ≠ 0 := by
    intro h0; exact hb (List.length_eq_zero.mp h0)
  rw [flush_true_eq env w hb h]
  generalize (DataLogger.flushLoop env w.log.currentLogFile w.log.dataBuffer w).2 = L at e c
  obtain ⟨f1, f2, f3, f4, f5, f6, f7, f8⟩ := finishFlush_facts env (DataLogger.markFlushed L)
  have hLlog : L.log = w.log := by rw [e]; rfl
  have hLghost : L.ghost = w.ghost := by rw [e]; rfl
  have hLnow : L.hw.now = w.hw.now := by rw [e]; rfl
  have hLinit : L.sd.sdInitialized = w.sd.sdInitialized := by rw [e]; rfl
  have hLsys : L.sys = { w.sys with totalWrites := (w.sys.totalWrites + w.log.dataBuffer.length) % U32, lastGoodWriteTime := millis w } := by
    rw [e]; simp [afterAppends, afterIncrements, hn]
  have hLcalls : L.hw.spiffsOpenCalls = w.hw.spiffsOpenCalls := by rw [e]; rfl
  have hLspiffs : L.hw.spiffsFiles = w.hw.spiffsFiles := by rw [e]; rfl
  have hLmillis : millis L = millis w := by simp [millis, hLnow]
  have hMlog : (DataLogger.markFlushed L).log = { w.log with dataBuffer := [], bufferFlushCount := (w.log.bufferFlushCount + 1) % U32, lastBufferFlush := millis w } := by
    simp [DataLogger.markFlushed, hLlog, hLmillis]
  have hMmillis : millis (DataLogger.markFlushed L) = millis w := hLmillis
  have hMsys : (DataLogger.markFlushed L).sys = { w.sys with totalWrites := (w.sys.totalWrites + w.log.dataBuffer.length) % U32, lastGoodWriteTime := millis w } := hLsys
  refine ⟨?_, ?_, ?_, ?_, ?_, ?_, ?_, ?_⟩
  · rw [f1, hMlog]
  · rw [f2]; show ({ L.ghost with flushAttempts := L.ghost.flushAttempts + 1 } : Ghost) = _
    rw [hLghost]
  · rw [f3]; exact hLnow
  · rw [f4]; exact hLinit
  · rw [f5]; exact c
  · rw [f6, hMsys]
  · intro hS
    obtain ⟨g1, g2⟩ := f7 (by rw [← hLcalls] at hS; exact hS)
    exact ⟨by rw [g1, hMsys], by rw [g2, hMsys, hMmillis]⟩
  · intro hS
    rw [f8 (by rw [← hLcalls] at hS; exact hS)]
    show fsRead L.hw.spiffsFiles RECOVERY_FILE = _
    rw [hLspiffs]

theorem join_recoveryLines (s : SystemState) (timestamp : Nat) :
    String.join ((recoveryLines s timestamp).map (fun l => l ++ "\r\n"))
      = recoveryText s.lastGoodWriteTime s.currentLogFile s.totalWrites timestamp := by
  simp only [recoveryLines, recoveryText, String.join, List.map, List.foldl, String.empty_append]

theorem forceFlush_eq (env : Env) (w : World) (hb : w.log.dataBuffer ≠ []) :
    DataLogger.forceFlushBuffer env w
      = if (DataLogger.flushBufferToSD env w).1 then (true, (DataLogger.flushBufferToSD env w).2)
        else (false, SystemState.incrementFailedWrites (DataLogger.flushBufferToSD env w).2) := by
  unfold DataLogger.forceFlushBuffer DataLogger.flushCounted
  simp only [hb, if_false]
  cases (DataLogger.flushBufferToSD env w).1 <;> simp

/-! ### Frames of the remaining calls -/

theorem SameEngine.toSameBuffer {w v : World} (h : SameEngine w v) : SameBuffer w v :=
  ⟨by rw [h.log], by rw [h.log], h.ghost⟩

theorem SameBuffer.unchanged (w : World) : SameBuffer w w := ⟨rfl, rfl, rfl⟩

theorem SameBuffer.andThen {a b c : World} (h1 : SameBuffer a b) (h2 : SameBuffer b c) :
    SameBuffer a c :=
  ⟨h2.buffer.trans h1.buffer, h2.maxSize.trans h1.maxSize, h2.ghost.trans h1.ghost⟩

theorem SameBuffer.bounded {w v : World} (h : SameBuffer w v) (f0 : Nat)
    (hw : bufferBounded f0 w) : bufferBounded f0 v := by
  unfold bufferBounded capacity at hw ⊢
  rw [h.buffer, h.maxSize, h.ghost]
  exact hw

theorem transitionTo_buffer (env : Env) (t : Int) (w : World) :
    SameBuffer w (SystemState.transitionTo env t w).2 := by
  unfold SystemState.transitionTo
  split
  · exact SameBuffer.unchanged w
  · have h := saveState_same env { w with sys := { w.sys with currentStatus := t } }
    exact ⟨by rw [h.log], by rw [h.log], h.ghost⟩

theorem setCurrentLogFile_same (env : Env) (f : String) (w : World) :
    SameEngine w (SystemState.setCurrentLogFile env f w) := by
  have h := saveState_same env { w with sys := { w.sys with currentLogFile := f } }
  exact ⟨h.log, h.ghost, h.now, h.sdInit, h.failed, h.status⟩

theorem incrementFailedWrites_buffer (w : World) :
    SameBuffer w (SystemState.incrementFailedWrites w) := ⟨rfl, rfl, rfl⟩

theorem setLoggingActive_same (b : Bool) (w : World) :
    SameEngine w (SystemState.setLoggingActive b w) := ⟨rfl, rfl, rfl, rfl, rfl, rfl⟩

theorem sdOpenWrite_same (env : Env) (f : String) (w : World) :
    SameEngine w (sdOpenWrite env f w).2 := by
  unfold sdOpenWrite
  simp only []
  split <;> exact ⟨rfl, rfl, rfl, rfl, rfl, rfl⟩

theorem sdOpenRead_same (env : Env) (f : String) (w : World) :
    SameEngine w (sdOpenRead env f w).2 := by
  unfold sdOpenRead
  simp only []
  split <;> exact ⟨rfl, rfl, rfl, rfl, rfl, rfl⟩

theorem writeData_same (env : Env) (d f : String) (w : World) :
    SameEngine w (SDManager.writeData env d f w).2 := by
  unfold SDManager.writeData
  simp only []
  have h1 := isMounted_same env w
  have h2 := sdOpenWrite_same env f (SDManager.isMounted env w).2
  have h3 := filePrint_same env f d (sdOpenWrite env f (SDManager.isMounted env w).2).2
  split
  · exact h1.trans (setLastError_same _ _)
  · split
    · exact (h1.trans h2).trans ((setLastError_same _ _).trans (logError_same env _ _))
    · split
      · exact ((h1.trans h2).trans h3).trans ((setLastError_same _ _).trans (logError_same env _ _))
      · exact ((h1.trans h2).trans h3).trans ⟨rfl, rfl, rfl, rfl, rfl, rfl⟩

theorem sdCreateNewLogFile_same (env : Env) (w : World) :
    SameEngine w (SDManager.createNewLogFile env w).2 := by
  unfold SDManager.createNewLogFile
  simp only []
  split
  · exact (writeData_same env _ _ w).trans (setLastError_same _ _)
  · exact writeData_same env _ _ w

theorem cleanupOldFiles_same (env : Env) (n : Int) (w : World) :
    SameEngine w (SDManager.cleanupOldFiles env n w).2 := by
  unfold SDManager.cleanupOldFiles
  simp only []
  split <;> exact isMounted_same env w

theorem isSystemReady_same (env : Env) (w : World) :
    SameEngine w (DataLogger.isSystemReady env w).2 := by
  unfold DataLogger.isSystemReady
  simp only []
  split
  · exact SameEngine.refl w
  · split
    · exact isMounted_same env w
    · split <;> exact isMounted_same env w

theorem createNewLogFile_buffer (env : Env) (w : World) :
    SameBuffer w (DataLogger.createNewLogFile env w).2 := by
  unfold DataLogger.createNewLogFile
  simp only []
  have h1 := (sdCreateNewLogFile_same env w).toSameBuffer
  split
  · exact h1.andThen (logError_same env _ _).toSameBuffer
  · refine h1.andThen (SameBuffer.andThen (b := { (SDManager.createNewLogFile env w).2 with
        log := { (SDManager.createNewLogFile env w).2.log with
          currentLogFile := (SDManager.createNewLogFile env w).1.2, fileOpen := true } }) ⟨rfl, rfl, rfl⟩ ?_)
    exact ((setCurrentLogFile_same env _ _).trans (setLoggingActive_same _ _)).toSameBuffer

theorem closeCurrentFile_buffer (env : Env) (w : World) :
    SameBuffer w (DataLogger.closeCurrentFile env w).2 := by
  unfold DataLogger.closeCurrentFile
  split
  · exact SameBuffer.unchanged w
  · exact SameBuffer.andThen (b := { w with log := { w.log with fileOpen := false, currentLogFile := "" } })
      ⟨rfl, rfl, rfl⟩ (setCurrentLogFile_same env _ _).toSameBuffer

theorem validateLogFile_same (env : Env) (f : String) (w : World) :
    SameEngine w (DataLogger.validateLogFile env f w).2 := by
  unfold DataLogger.validateLogFile
  simp only []
  split <;> exact sdOpenRead_same env f w

theorem attemptResumeLogging_buffer (env : Env) (w : World) :
    SameBuffer w (DataLogger.attemptResumeLogging env w).2 := by
  unfold DataLogger.attemptResumeLogging
  simp only []
  have h1 := (isMounted_same env w).toSameBuffer
  have h2 := (validateLogFile_same env w.sys.currentLogFile (SDManager.isMounted env w).2).toSameBuffer
  split
  · exact SameBuffer.unchanged w
  · split
    · exact h1
    · split
      · exact h1
      · split
        · exact h1.andThen h2
        · exact (h1.andThen h2).andThen ⟨rfl, rfl, rfl⟩

theorem resetStatistics_buffer (w : World) : SameBuffer w (DataLogger.resetStatistics w) :=
  ⟨rfl, rfl, rfl⟩

theorem advanceClock_buffer (dt : Nat) (w : World) : SameBuffer w (advanceClock dt w) :=
  ⟨rfl, rfl, rfl⟩

/-! ### The bound on the buffer -/

/-- A counted flush either succeeds and leaves an empty buffer (or the empty
buffer it found), or fails, keeps the buffer and notes one more failure. -/
theorem flushCounted_buffer (env : Env) (w : World) :
    (DataLogger.flushCounted env w).2.log.maxBufferSize = w.log.maxBufferSize
    ∧ (((DataLogger.flushCounted env w).1 = true
          ∧ (DataLogger.flushCounted env w).2.log.dataBuffer = []
          ∧ (DataLogger.flushCounted env w).2.ghost.flushFailures = w.ghost.flushFailures)
       ∨ ((DataLogger.flushCounted env w).1 = false
          ∧ (DataLogger.flushCounted env w).2.log.dataBuffer = w.log.dataBuffer
          ∧ (DataLogger.flushCounted env w).2.ghost.flushFailures = w.ghost.flushFailures + 1)) := by
  unfold DataLogger.flushCounted
  simp only []
  by_cases hb : w.log.dataBuffer = []
  · rw [flush_nil env w hb]
    simp [hb]
  · cases ht : (DataLogger.flushBufferToSD env w).1 with
    | true =>
      obtain ⟨f1, f2, _⟩ := flush_true_facts env w hb ht
      simp [f1, f2]
    | false =>
      obtain ⟨f1, f2, _⟩ := flush_false env w ht
      simp [f1, f2, SystemState.incrementFailedWrites]

theorem flushCounted_bounded (env : Env) (w : World) (f0 : Nat) (hcap : 1 ≤ capacity w)
    (h0 : f0 ≤ w.ghost.flushFailures)
    (h1 : w.log.dataBuffer.length + f0 ≤ capacity w + w.ghost.flushFailures) :
    bufferBounded f0 (DataLogger.flushCounted env w).2
    ∧ capacity (DataLogger.flushCounted env w).2 = capacity w := by
  obtain ⟨hm, hc⟩ := flushCounted_buffer env w
  have hcap2 : capacity (DataLogger.flushCounted env w).2 = capacity w := by
    unfold capacity; rw [hm]
  refine ⟨?_, hcap2⟩
  unfold bufferBounded
  rw [hcap2]
  rcases hc with ⟨_, hb, hf⟩ | ⟨_, hb, hf⟩
  · rw [hb, hf]; simp only [List.length_nil]; omega
  · rw [hb, hf]; omega

theorem bufferBounded.weaken {f0 : Nat} {w : World} (h : bufferBounded f0 w) :
    f0 ≤ w.ghost.flushFailures
    ∧ w.log.dataBuffer.length + f0 ≤ capacity w + w.ghost.flushFailures :=
  ⟨h.1, Nat.le_of_lt h.2⟩

theorem forceFlushBuffer_bounded (env : Env) (w : World) (f0 : Nat) (hcap : 1 ≤ capacity w)
    (h : bufferBounded f0 w) :
    bufferBounded f0 (DataLogger.forceFlushBuffer env w).2
    ∧ capacity (DataLogger.forceFlushBuffer env w).2 = capacity w := by
  unfold DataLogger.forceFlushBuffer
  split
  · exact ⟨h, rfl⟩
  · exact flushCounted_bounded env w f0 hcap h.weaken.1 h.weaken.2

theorem SameBuffer.capacity_eq {w v : World} (h : SameBuffer w v) : capacity v = capacity w := by
  unfold capacity; rw [h.maxSize]

theorem update_bounded (env : Env) (w : World) (f0 : Nat) (hcap : 1 ≤ capacity w)
    (h : bufferBounded f0 w) :
    bufferBounded f0 (DataLogger.update env w).2
    ∧ capacity (DataLogger.update env w).2 = capacity w := by
  have key : ∀ x : Bool × World, bufferBounded f0 x.2 → capacity x.2 = capacity w →
      bufferBounded f0 (if !x.1 then (false, x.2)
        else if !(DataLogger.isSystemReady env x.2).1 then
          (false, (SystemState.transitionTo env SystemStatus.ERROR.toInt
            (DataLogger.isSystemReady env x.2).2).2)
        else (true, (DataLogger.isSystemReady env x.2).2)).2
      ∧ capacity (if !x.1 then (false, x.2)
        else if !(DataLogger.isSystemReady env x.2).1 then
          (false, (SystemState.transitionTo env SystemStatus.ERROR.toInt
            (DataLogger.isSystemReady env x.2).2).2)
        else (true, (DataLogger.isSystemReady env x.2).2)).2 = capacity w := by
    intro x hx hc
    have hr := (isSystemReady_same env x.2).toSameBuffer
    have ht := hr.andThen (transitionTo_buffer env SystemStatus.ERROR.toInt
      (DataLogger.isSystemReady env x.2).2)
    split
    · exact ⟨hx, hc⟩
    · split
      · exact ⟨ht.bounded f0 hx, by rw [ht.capacity_eq, hc]⟩
      · exact ⟨hr.bounded f0 hx, by rw [hr.capacity_eq, hc]⟩
  unfold DataLogger.update
  simp only []
  apply key
  · split
    · split
      · exact (flushCounted_bounded env w f0 hcap h.weaken.1 h.weaken.2).1
      · exact h
    · exact h
  · split
    · split
      · exact (flushCounted_bounded env w f0 hcap h.weaken.1 h.weaken.2).2
      · rfl
    · rfl

theorem switchLogFile_bounded (env : Env) (w : World) (f0 : Nat) (hcap : 1 ≤ capacity w)
    (h : bufferBounded f0 w) :
    bufferBounded f0 (DataLogger.switchLogFile env w).2
    ∧ capacity (DataLogger.switchLogFile env w).2 = capacity w := by
  obtain ⟨hf, hc⟩ := forceFlushBuffer_bounded env w f0 hcap h
  have hs := (closeCurrentFile_buffer env (DataLogger.forceFlushBuffer env w).2).andThen
    (createNewLogFile_buffer env _)
  unfold DataLogger.switchLogFile
  simp only []
  split
  · exact ⟨hf, hc⟩
  · split
    · exact ⟨hs.bounded f0 hf, by rw [hs.capacity_eq, hc]⟩
    · exact ⟨hs.bounded f0 hf, by rw [hs.capacity_eq, hc]⟩

theorem performMaintenance_bounded (env : Env) (w : World) (f0 : Nat) (hcap : 1 ≤ capacity w)
    (h : bufferBounded f0 w) :
    bufferBounded f0 (DataLogger.performMaintenance env w).2
    ∧ capacity (DataLogger.performMaintenance env w).2 = capacity w := by
  obtain ⟨hf, hc⟩ := forceFlushBuffer_bounded env w f0 hcap h
  have hsw := switchLogFile_bounded env (DataLogger.forceFlushBuffer env w).2 f0 (by rw [hc]; exact hcap) hf
  have tail : ∀ s : World, bufferBounded f0 s → capacity s = capacity w →
      bufferBounded f0
        (if 10 < (if (SDManager.isMounted env s).1 then
              (SDManager.cleanupOldFiles env 10 (SDManager.isMounted env s).2).2
            else (SDManager.isMounted env s).2).log.bufferOverflows then
          DataLogger.resetStatistics (if (SDManager.isMounted env s).1 then
              (SDManager.cleanupOldFiles env 10 (SDManager.isMounted env s).2).2
            else (SDManager.isMounted env s).2)
        else (if (SDManager.isMounted env s).1 then
              (SDManager.cleanupOldFiles env 10 (SDManager.isMounted env s).2).2
            else (SDManager.isMounted env s).2))
      ∧ capacity
        (if 10 < (if (SDManager.isMounted env s).1 then
              (SDManager.cleanupOldFiles env 10 (SDManager.isMounted env s).2).2
            else (SDManager.isMounted env s).2).log.bufferOverflows then
          DataLogger.resetStatistics (if (SDManager.isMounted env s).1 then
              (SDManager.cleanupOldFiles env 10 (SDManager.isMounted env s).2).2
            else (SDManager.isMounted env s).2)
        else (if (SDManager.isMounted env s).1 then
              (SDManager.cleanupOldFiles env 10 (SDManager.isMounted env s).2).2
            else (SDManager.isMounted env s).2)) = capacity w := by
    intro s hs hcs
    have hm := (isMounted_same env s).toSameBuffer
    have hcl := hm.andThen (cleanupOldFiles_same env 10 (SDManager.isMounted env s).2).toSameBuffer
    have hc' : SameBuffer s (if (SDManager.isMounted env s).1 then
        (SDManager.cleanupOldFiles env 10 (SDManager.isMounted env s).2).2
        else (SDManager.isMounted env s).2) := by
      split
      · exact hcl
      · exact hm
    generalize (if (SDManager.isMounted env s).1 then
        (SDManager.cleanupOldFiles env 10 (SDManager.isMounted env s).2).2
        else (SDManager.isMounted env s).2) = c at hc' ⊢
    split
    · have hr := hc'.andThen (resetStatistics_buffer c)
      exact ⟨hr.bounded f0 hs, by rw [hr.capacity_eq, hcs]⟩
    · exact ⟨hc'.bounded f0 hs, by rw [hc'.capacity_eq, hcs]⟩
  unfold DataLogger.performMaintenance
  simp only []
  apply tail
  · split
    · exact hsw.1
    · exact hf
  · split
    · rw [hsw.2, hc]
    · exact hc

/-! ### `logData` -/

/-- The part of `logData` behind the push: the overflow flush and the timed flush. -/
theorem logData_accepted (env : Env) (d : String) (w : World)
    (hready : (DataLogger.isSystemReady env w).1 = true)
    (hint : ¬ subU32 (millis w) w.log.lastLogTime < w.log.logInterval) :
    DataLogger.logData env d w
      = (if !(if capacity w ≤ w.log.dataBuffer.length + 1 then
                DataLogger.flushCounted env (DataLogger.countOverflow
                  (DataLogger.pushRecord d (DataLogger.isSystemReady env w).2))
              else (true, DataLogger.pushRecord d (DataLogger.isSystemReady env w).2)).1
          then (false, (if capacity w ≤ w.log.dataBuffer.length + 1 then
                DataLogger.flushCounted env (DataLogger.countOverflow
                  (DataLogger.pushRecord d (DataLogger.isSystemReady env w).2))
              else (true, DataLogger.pushRecord d (DataLogger.isSystemReady env w).2)).2)
        else if BUFFER_FLUSH_INTERVAL
            < subU32 (millis (if capacity w ≤ w.log.dataBuffer.length + 1 then
                DataLogger.flushCounted env (DataLogger.countOverflow
                  (DataLogger.pushRecord d (DataLogger.isSystemReady env w).2))
              else (true, DataLogger.pushRecord d (DataLogger.isSystemReady env w).2)).2)
              (if capacity w ≤ w.log.dataBuffer.length + 1 then
                DataLogger.flushCounted env (DataLogger.countOverflow
                  (DataLogger.pushRecord d (DataLogger.isSystemReady env w).2))
              else (true, DataLogger.pushRecord d (DataLogger.isSystemReady env w).2)).2.log.lastBufferFlush
          then DataLogger.flushCounted env
              (if capacity w ≤ w.log.dataBuffer.length + 1 then
                DataLogger.flushCounted env (DataLogger.countOverflow
                  (DataLogger.pushRecord d (DataLogger.isSystemReady env w).2))
              else (true, DataLogger.pushRecord d (DataLogger.isSystemReady env w).2)).2
        else (true, (if capacity w ≤ w.log.dataBuffer.length + 1 then
                DataLogger.flushCounted env (DataLogger.countOverflow
                  (DataLogger.pushRecord d (DataLogger.isSystemReady env w).2))
              else (true, DataLogger.pushRecord d (DataLogger.isSystemReady env w).2)).2)) := by
  have hs := isSystemReady_same env w
  have hm : millis (DataLogger.isSystemReady env w).2 = millis w := hs.millis_eq
  have hp1 : (DataLogger.pushRecord d (DataLogger.isSystemReady env w).2).log.maxBufferSize
      = w.log.maxBufferSize := by
    simp [DataLogger.pushRecord, noteRecordAccepted, hs.log]
  have hp2 : (DataLogger.pushRecord d (DataLogger.isSystemReady env w).2).log.dataBuffer.length
      = w.log.dataBuffer.length + 1 := by
    simp [DataLogger.pushRecord, noteRecordAccepted, hs.log]
  unfold DataLogger.logData
  simp only [hready, Bool.not_true, Bool.false_eq_true, if_false, hm, hs.log, hint, hp1, hp2,
    capacity]

theorem pushRecord_log (d : String) (w : World) :
    (DataLogger.pushRecord d w).log
      = { w.log with lastLogTime := millis w,
                     dataBuffer := w.log.dataBuffer ++ [storedRecord w d],
                     totalDataLogged := (w.log.totalDataLogged + (storedRecord w d).utf8ByteSize) % U32 } :=
  rfl

theorem pushRecord_ghost (d : String) (w : World) :
    (DataLogger.pushRecord d w).ghost
      = { w.ghost with recordsAccepted := w.ghost.recordsAccepted + 1 } := rfl

theorem storedRecord_same {w v : World} (h : SameEngine w v) (d : String) :
    storedRecord v d = storedRecord w d := by
  unfold storedRecord
  rw [h.log, h.millis_eq]

theorem subU32_self (a : Nat) : subU32 a a = 0 := by
  unfold subU32 U32
  have : a % 4294967296 < 4294967296 := Nat.mod_lt _ (by norm_num)
  omega

theorem logData_bounded (env : Env) (d : String) (w : World) (f0 : Nat) (hcap : 1 ≤ capacity w)
    (h : bufferBounded f0 w) :
    bufferBounded f0 (DataLogger.logData env d w).2
    ∧ capacity (DataLogger.logData env d w).2 = capacity w := by
  have hs := isSystemReady_same env w
  have hsb := hs.toSameBuffer
  -- the two flush stages behind the push keep the bound
  have stage : ∀ x : Bool × World, bufferBounded f0 x.2 → capacity x.2 = capacity w →
      bufferBounded f0 (if !x.1 then (false, x.2)
        else if BUFFER_FLUSH_INTERVAL < subU32 (millis x.2) x.2.log.lastBufferFlush then
          DataLogger.flushCounted env x.2
        else (true, x.2)).2
      ∧ capacity (if !x.1 then (false, x.2)
        else if BUFFER_FLUSH_INTERVAL < subU32 (millis x.2) x.2.log.lastBufferFlush then
          DataLogger.flushCounted env x.2
        else (true, x.2)).2 = capacity w := by
    intro x hx hc
    split
    · exact ⟨hx, hc⟩
    · split
      · have := flushCounted_bounded env x.2 f0 (by rw [hc]; exact hcap) hx.weaken.1 hx.weaken.2
        exact ⟨this.1, by rw [this.2, hc]⟩
      · exact ⟨hx, hc⟩
  by_cases hready : (DataLogger.isSystemReady env w).1 = true
  swap
  · have : DataLogger.logData env d w = (false, (DataLogger.isSystemReady env w).2) := by
      unfold DataLogger.logData
      simp [hready]
    rw [this]
    exact ⟨hsb.bounded f0 h, hsb.capacity_eq⟩
  by_cases hint : subU32 (millis w) w.log.lastLogTime < w.log.logInterval
  · have : DataLogger.logData env d w = (false, (DataLogger.isSystemReady env w).2) := by
      unfold DataLogger.logData
      simp [hready, hs.millis_eq, hs.log, hint]
    rw [this]
    exact ⟨hsb.bounded f0 h, hsb.capacity_eq⟩
  rw [logData_accepted env d w hready hint]
  generalize (DataLogger.isSystemReady env w).2 = R at hs hsb
  have hPlen : (DataLogger.pushRecord d R).log.dataBuffer.length = w.log.dataBuffer.length + 1 := by
    simp [pushRecord_log, hs.log]
  have hPcap : capacity (DataLogger.pushRecord d R) = capacity w := by
    simp [capacity, pushRecord_log, hs.log]
  have hPff : (DataLogger.pushRecord d R).ghost.flushFailures = w.ghost.flushFailures := by
    simp [pushRecord_ghost, hs.ghost]
  apply stage
  · split
    · have := flushCounted_bounded env (DataLogger.countOverflow (DataLogger.pushRecord d R)) f0
        (by show 1 ≤ capacity (DataLogger.pushRecord d R); rw [hPcap]; exact hcap)
        (by show f0 ≤ (DataLogger.pushRecord d R).ghost.flushFailures; rw [hPff]; exact h.1)
        (by show (DataLogger.pushRecord d R).log.dataBuffer.length + f0
              ≤ capacity (DataLogger.pushRecord d R) + (DataLogger.pushRecord d R).ghost.flushFailures
            rw [hPlen, hPcap, hPff]; have := h.2; omega)
      exact this.1
    · rename_i hroom
      unfold bufferBounded
      rw [hPlen, hPcap, hPff]
      have := h.1
      omega
  · split
    · have := flushCounted_bounded env (DataLogger.countOverflow (DataLogger.pushRecord d R)) f0
        (by show 1 ≤ capacity (DataLogger.pushRecord d R); rw [hPcap]; exact hcap)
        (by show f0 ≤ (DataLogger.pushRecord d R).ghost.flushFailures; rw [hPff]; exact h.1)
        (by show (DataLogger.pushRecord d R).log.dataBuffer.length + f0
              ≤ capacity (DataLogger.pushRecord d R) + (DataLogger.pushRecord d R).ghost.flushFailures
            rw [hPlen, hPcap, hPff]; have := h.2; omega)
      rw [this.2]
      exact hPcap
    · exact hPcap

theorem runOp_bounded (env : Env) (op : LogOp) (w : World) (f0 : Nat) (hcap : 1 ≤ capacity w)
    (h : bufferBounded f0 w) :
    bufferBounded f0 (op.run env w) ∧ capacity (op.run env w) = capacity w := by
  cases op with
  | logData d => exact logData_bounded env d w f0 hcap h
  | update => exact update_bounded env w f0 hcap h
  | forceFlushBuffer => exact forceFlushBuffer_bounded env w f0 hcap h
  | switchLogFile => exact switchLogFile_bounded env w f0 hcap h
  | performMaintenance => exact performMaintenance_bounded env w f0 hcap h
  | tick dt => exact ⟨(advanceClock_buffer dt w).bounded f0 h, (advanceClock_buffer dt w).capacity_eq⟩

theorem runOps_bounded (env : Env) (ops : List LogOp) (w : World) (f0 : Nat)
    (hcap : 1 ≤ capacity w) (h : bufferBounded f0 w) :
    bufferBounded f0 (runOps env ops w) ∧ capacity (runOps env ops w) = capacity w := by
  induction ops generalizing w with
  | nil => exact ⟨h, rfl⟩
  | cons op rest ih =>
    obtain ⟨h1, c1⟩ := runOp_bounded env op w f0 hcap h
    obtain ⟨h2, c2⟩ := ih (op.run env w) (by rw [c1]; exact hcap) h1
    exact ⟨h2, by rw [← c1, ← c2]; rfl⟩

theorem resumeOrCreate_buffer (env : Env) (w : World) :
    SameBuffer w (DataLogger.resumeOrCreate env w).2 := by
  have ha := attemptResumeLogging_buffer env w
  unfold DataLogger.resumeOrCreate
  simp only []
  split
  · split
    · exact ha.andThen (createNewLogFile_buffer env _)
    · exact ha
  · exact createNewLogFile_buffer env w

/-- A call of `initialize` leaves an empty buffer, whatever it returns, and keeps the capacity. -/
theorem initializeLogger_buffer (env : Env) (w : World) :
    (DataLogger.initializeLogger env w).2.log.dataBuffer = []
    ∧ (DataLogger.initializeLogger env w).2.log.maxBufferSize = w.log.maxBufferSize
    ∧ (DataLogger.initializeLogger env w).2.ghost = w.ghost := by
  have hr := resumeOrCreate_buffer env (DataLogger.initializeBuffer w).2
  have hb : SameBuffer (DataLogger.initializeBuffer w).2 (DataLogger.initializeLogger env w).2 := by
    unfold DataLogger.initializeLogger
    simp only []
    split
    · exact SameBuffer.unchanged _
    · split
      · exact hr
      · exact hr.andThen ⟨rfl, rfl, rfl⟩
  exact ⟨hb.buffer, hb.maxSize, hb.ghost⟩

/-- An accepted record that leaves room in the buffer, before the flush interval
has run out: the record is pushed and nothing else happens. -/
theorem logData_room (env : Env) (d : String) (w : World)
    (hready : (DataLogger.isSystemReady env w).1 = true)
    (hint : ¬ subU32 (millis w) w.log.lastLogTime < w.log.logInterval)
    (hroom : w.log.dataBuffer.length + 1 < capacity w)
    (hnt : ¬ BUFFER_FLUSH_INTERVAL < subU32 (millis w) w.log.lastBufferFlush) :
    DataLogger.logData env d w
      = (true, DataLogger.pushRecord d (DataLogger.isSystemReady env w).2) := by
  have hs := isSystemReady_same env w
  rw [logData_accepted env d w hready hint]
  have hno : ¬ capacity w ≤ w.log.dataBuffer.length + 1 := by omega
  have hm : millis (DataLogger.pushRecord d (DataLogger.isSystemReady env w).2) = millis w :=
    hs.millis_eq
  have hl : (DataLogger.pushRecord d (DataLogger.isSystemReady env w).2).log.lastBufferFlush
      = w.log.lastBufferFlush := by
    rw [pushRecord_log, hs.log]
  simp only [hno, if_false, Bool.not_true, Bool.false_eq_true, hm, hl, hnt]

theorem logRun_buffer (env : Env) (run : List (Nat × String)) (w : World)
    (hroom : w.log.dataBuffer.length + run.length < capacity w)
    (hacc : acceptedRun env run w = true) :
    (logRun env run w).log.dataBuffer
      = w.log.dataBuffer ++ expectedRecords w.log.enableTimestamps w.hw.now run := by
  induction run generalizing w with
  | nil => simp [logRun, expectedRecords]
  | cons step rest ih =>
    obtain ⟨dt, d⟩ := step
    simp only [acceptedRun, Bool.and_eq_true, Bool.not_eq_true', decide_eq_false_iff_not] at hacc
    obtain ⟨⟨⟨hready, hint⟩, hnt⟩, hrest⟩ := hacc
    simp only [List.length_cons] at hroom
    have hs := isSystemReady_same env (advanceClock dt w)
    have hstep := logData_room env d (advanceClock dt w) hready hint
      (by show w.log.dataBuffer.length + 1 < capacity w; omega) hnt
    rw [hstep] at hrest
    simp only [logRun]
    rw [hstep]
    generalize (DataLogger.isSystemReady env (advanceClock dt w)).2 = R at hs hrest
    have hPbuf : (DataLogger.pushRecord d R).log.dataBuffer
        = w.log.dataBuffer ++ [storedRecord (advanceClock dt w) d] := by
      rw [pushRecord_log]
      simp only [hs.log, storedRecord_same hs]
      rfl
    have hPcap : capacity (DataLogger.pushRecord d R) = capacity w := by
      simp only [capacity, pushRecord_log, hs.log]
      rfl
    have hPts : (DataLogger.pushRecord d R).log.enableTimestamps = w.log.enableTimestamps := by
      simp only [pushRecord_log, hs.log]
      rfl
    have hPnow : (DataLogger.pushRecord d R).hw.now = w.hw.now + dt := by
      show R.hw.now = _
      rw [hs.now]
      rfl
    have := ih (DataLogger.pushRecord d R)
      (by rw [hPbuf, hPcap]; simp only [List.length_append, List.length_singleton]; omega) hrest
    rw [this, hPbuf, hPts, hPnow]
    simp [expectedRecords, storedRecord, millis, advanceClock]

theorem expectedRecords_length (stamps : Bool) (now : Nat) (run : List (Nat × String)) :
    (expectedRecords stamps now run).length = run.length := by
  induction run generalizing now with
  | nil => rfl
  | cons step rest ih =>
    obtain ⟨dt, d⟩ := step
    simp [expectedRecords, ih]

/-! ### The readiness predicate -/

/-- A call of `isMounted` changes nothing but the count of `SD.begin` calls. -/
theorem isMounted_world (env : Env) (w : World) :
    (SDManager.isMounted env w).2 = w
    ∨ (SDManager.isMounted env w).2
        = { w with hw := { w.hw with sdBeginCalls := w.hw.sdBeginCalls + 1 } } := by
  unfold SDManager.isMounted sdBegin
  split
  · exact Or.inr rfl
  · exact Or.inl rfl

/-- A call of `isSystemReady` changes nothing but the count of `SD.begin` calls. -/
theorem isSystemReady_world (env : Env) (w : World) :
    (DataLogger.isSystemReady env w).2 = w
    ∨ (DataLogger.isSystemReady env w).2
        = { w with hw := { w.hw with sdBeginCalls := w.hw.sdBeginCalls + 1 } } := by
  have hm := isMounted_world env w
  unfold DataLogger.isSystemReady
  simp only []
  split
  · exact Or.inl rfl
  · split
    · exact hm
    · split <;> exact hm

theorem isMounted_true_iff (env : Env) (w : World) :
    (SDManager.isMounted env w).1 = true
      ↔ (w.sd.sdInitialized = true ∧ env.sdBegin w.hw.sdBeginCalls = true) := by
  unfold SDManager.isMounted sdBegin
  cases h : w.sd.sdInitialized <;> simp

theorem isSystemReady_true_iff (env : Env) (w : World) :
    (DataLogger.isSystemReady env w).1 = true
      ↔ ((w.sys.currentStatus = SystemStatus.READY.toInt
            ∨ w.sys.currentStatus = SystemStatus.LOGGING.toInt
            ∨ w.sys.currentStatus = SystemStatus.RECOVERING.toInt)
          ∧ (SDManager.isMounted env w).1 = true
          ∧ w.log.currentLogFile ≠ "") := by
  have hl : (SDManager.isMounted env w).2.log = w.log := (isMounted_same env w).log
  unfold DataLogger.isSystemReady
  simp only [hl]
  by_cases hs : w.sys.currentStatus ≠ SystemStatus.READY.toInt
      ∧ w.sys.currentStatus ≠ SystemStatus.LOGGING.toInt
      ∧ w.sys.currentStatus ≠ SystemStatus.RECOVERING.toInt
  · rw [if_pos hs]
    constructor
    · intro h; simp at h
    · rintro ⟨h1 | h1 | h1, _, _⟩
      · exact absurd h1 hs.1
      · exact absurd h1 hs.2.1
      · exact absurd h1 hs.2.2
  · rw [if_neg hs]
    have hs' : w.sys.currentStatus = SystemStatus.READY.toInt
        ∨ w.sys.currentStatus = SystemStatus.LOGGING.toInt
        ∨ w.sys.currentStatus = SystemStatus.RECOVERING.toInt := by
      by_contra hc
      simp only [not_or] at hc
      exact hs hc
    cases hm : (SDManager.isMounted env w).1 <;> by_cases hf : w.log.currentLogFile = "" <;>
      simp [hf, hs']

/-! ### Creating and resuming log files -/

theorem logHeader_utf8ByteSize_ne_zero : LOG_HEADER.utf8ByteSize ≠ 0 := by decide

/-- The library outcomes under which `DataLogger::createNewLogFile` succeeds, and
what a success leaves: the generated name is the current file of the engine and
of the state machine, and the file holds the header and nothing else. -/
theorem createNewLogFile_result (env : Env) (v : World) :
    ((DataLogger.createNewLogFile env v).1 = true
      ↔ (v.sd.sdInitialized = true ∧ env.sdBegin v.hw.sdBeginCalls = true
          ∧ env.sdOpen v.hw.sdOpenCalls = true ∧ env.sdWrite v.hw.sdWriteCalls = true))
    ∧ ((DataLogger.createNewLogFile env v).1 = true →
        (DataLogger.createNewLogFile env v).2.log.currentLogFile
            = SDManager.generateTimestampedFilename v
        ∧ (DataLogger.createNewLogFile env v).2.log.fileOpen = true
        ∧ (DataLogger.createNewLogFile env v).2.sys.currentLogFile
            = SDManager.generateTimestampedFilename v
        ∧ fsRead (DataLogger.createNewLogFile env v).2.hw.sdFiles
            (SDManager.generateTimestampedFilename v) = some LOG_HEADER) := by
  have hz := logHeader_utf8ByteSize_ne_zero
  cases hI : v.sd.sdInitialized <;> cases hB : env.sdBegin v.hw.sdBeginCalls <;>
    cases hO : env.sdOpen v.hw.sdOpenCalls <;> cases hW : env.sdWrite v.hw.sdWriteCalls <;>
    simp [DataLogger.createNewLogFile, SDManager.createNewLogFile, SDManager.writeData,
      SDManager.isMounted, sdBegin, sdOpenWrite, filePrint, hI, hB, hO, hW, hz,
      SystemState.setLoggingActive, SystemState.setCurrentLogFile, saveState_sdFiles,
      saveState_sys, (saveState_same env _).log, fileContent_fsWrite_same, fsRead_fsWrite_same,
      SystemState.setLastGoodWriteTime, SystemState.incrementWrites]

/-! ### Mounting -/

/-- Writing the state file leaves the card side of the hardware, the clock and
the two managers alone. -/
theorem saveState_card (env : Env) (w : World) :
    (SystemState.saveState env w).hw.sdBeginCalls = w.hw.sdBeginCalls
    ∧ (SystemState.saveState env w).hw.delays = w.hw.delays
    ∧ (SystemState.saveState env w).hw.now = w.hw.now
    ∧ (SystemState.saveState env w).sd = w.sd := by
  unfold SystemState.saveState SystemState.saveStateToSPIFFS spiffsWriteLines
  simp only []
  split <;> exact ⟨rfl, rfl, rfl, rfl⟩

theorem logError_card (env : Env) (e : String) (w : World) :
    (SystemState.logError env e w).hw.sdBeginCalls = w.hw.sdBeginCalls
    ∧ (SystemState.logError env e w).hw.delays = w.hw.delays
    ∧ (SystemState.logError env e w).hw.now = w.hw.now
    ∧ (SystemState.logError env e w).sd = w.sd :=
  saveState_card env { w with sys := { w.sys with lastError := e } }

/-- The loop of `mount` when the library refuses the three attempts: attempt,
delay, attempt, delay, attempt. -/
theorem mountLoop_refused (env : Env) (v : World)
    (h0 : env.sdBegin v.hw.sdBeginCalls = false)
    (h1 : env.sdBegin (v.hw.sdBeginCalls + 1) = false)
    (h2 : env.sdBegin (v.hw.sdBeginCalls + 2) = false) :
    SDManager.mountLoop env MAX_MOUNT_ATTEMPTS v
      = (false, SDManager.refusedAttempt env (delay MOUNT_RETRY_DELAY
          (SDManager.refusedAttempt env (delay MOUNT_RETRY_DELAY
            (SDManager.refusedAttempt env v))))) := by
  simp [MAX_MOUNT_ATTEMPTS, SDManager.mountLoop, SDManager.refusedAttempt, sdBegin, delay, h0, h1, h2]

/-- The operational status is the same before and after the loop of `mount`. -/
theorem mountLoop_status (env : Env) (n : Nat) (v : World) :
    (SDManager.mountLoop env n v).2.sys.currentStatus = v.sys.currentStatus := by
  induction n generalizing v with
  | zero => rfl
  | succ k ih =>
    unfold SDManager.mountLoop
    simp only []
    split
    · rfl
    · rw [ih]
      split <;> rfl

/-! ### The persisted state record -/

theorem join_stateLines (s : SystemState) :
    String.join ((stateLines s).map (fun l => l ++ "\r\n")) = stateText s := by
  simp only [stateLines, stateText, String.join, List.map, List.foldl, String.empty_append]

/-- When SPIFFS opens the state file, `saveState` writes the nine fields of the
state machine; when it refuses, the state file is left as it was.  Nothing in
memory changes. -/
theorem saveState_record (env : Env) (w : World) :
    (SystemState.saveState env w).sys = w.sys
    ∧ (SystemState.saveState env w).sd = w.sd
    ∧ (SystemState.saveState env w).log = w.log
    ∧ (SystemState.saveState env w).ghost = w.ghost
    ∧ (env.spiffsOpen w.hw.spiffsOpenCalls = true →
        fsRead (SystemState.saveState env w).hw.spiffsFiles STATE_FILE = some (stateText w.sys))
    ∧ (env.spiffsOpen w.hw.spiffsOpenCalls = false →
        (SystemState.saveState env w).hw.spiffsFiles = w.hw.spiffsFiles) := by
  refine ⟨saveState_sys env w, (saveState_card env w).2.2.2, (saveState_same env w).log,
    (saveState_same env w).ghost, ?_, ?_⟩
  · intro h
    simp [SystemState.saveState, SystemState.saveStateToSPIFFS, spiffsWriteLines, h,
      fsRead_fsWrite_same, join_stateLines]
  · intro h
    simp [SystemState.saveState, SystemState.saveStateToSPIFFS, spiffsWriteLines, h]

/-! ### Transitions made by callers that do not read the result -/

/-- The status after a call of `transitionTo`, whatever it returns. -/
theorem transitionTo_status (env : Env) (t : Int) (w : World) :
    (SystemState.transitionTo env t w).2.sys.currentStatus
      = if SystemState.transitionRejected w.sys.currentStatus t then w.sys.currentStatus else t := by
  unfold SystemState.transitionTo
  split
  · rfl
  · show (SystemState.saveState env _).sys.currentStatus = t
    rw [saveState_sys]

theorem applyRecoveryLine_status (acc : SystemState × Bool) (line : List Char) :
    (SystemState.applyRecoveryLine acc line).1.currentStatus = acc.1.currentStatus := by
  unfold SystemState.applyRecoveryLine
  split
  · rfl
  · split
    · rfl
    · split
      · rfl
      · split <;> rfl

theorem foldl_applyRecoveryLine_status (lines : List (List Char)) (acc : SystemState × Bool) :
    (lines.foldl SystemState.applyRecoveryLine acc).1.currentStatus = acc.1.currentStatus := by
  induction lines generalizing acc with
  | nil => rfl
  | cons l ls ih => rw [List.foldl_cons, ih, applyRecoveryLine_status]

/-- When `attemptRecovery` returns true the status is RECOVERING only if it was
ERROR; any other status is left as it was. -/
theorem attemptRecovery_status (env : Env) (w : World)
    (h : (SystemState.attemptRecovery env w).1 = true) :
    (SystemState.attemptRecovery env w).2.sys.currentStatus
      = if w.sys.currentStatus = SystemStatus.ERROR.toInt then SystemStatus.RECOVERING.toInt
        else w.sys.currentStatus := by
  have hsys : (spiffsOpenRead env RECOVERY_FILE w).2.sys = w.sys := by
    unfold spiffsOpenRead
    simp only []
    split <;> rfl
  revert h
  unfold SystemState.attemptRecovery
  simp only []
  split
  · intro h; simp at h
  · rename_i content _
    split
    · intro _
      simp only []
      rw [transitionTo_status]
      simp only [foldl_applyRecoveryLine_status, hsys]
      by_cases he : w.sys.currentStatus = SystemStatus.ERROR.toInt
      · simp [he, SystemState.transitionRejected, SystemStatus.toInt]
      · simp [he, SystemState.transitionRejected, SystemStatus.toInt]
    · intro h; simp at h

/-! ### Storage start-up leaves the status alone -/

theorem sdMkdir_same (env : Env) (p : String) (w : World) : SameEngine w (sdMkdir env p w).2 := by
  unfold sdMkdir
  simp only []
  split <;> exact ⟨rfl, rfl, rfl, rfl, rfl, rfl⟩

theorem sdOpenRoot_same (env : Env) (w : World) : SameEngine w (sdOpenRoot env w).2 :=
  ⟨rfl, rfl, rfl, rfl, rfl, rfl⟩

theorem sdRemove_same (p : String) (w : World) : SameEngine w (sdRemove p w) :=
  ⟨rfl, rfl, rfl, rfl, rfl, rfl⟩

theorem createDirectory_same (env : Env) (p : String) (w : World) :
    SameEngine w (SDManager.createDirectory env p w).2 := by
  have h1 := isMounted_same env w
  have h2 := h1.trans (sdMkdir_same env p (SDManager.isMounted env w).2)
  unfold SDManager.createDirectory
  simp only []
  split
  · exact h1.trans (setLastError_same _ _)
  · split
    · exact h1
    · split
      · exact h2.trans ((setLastError_same _ _).trans (logError_same env _ _))
      · exact h2

theorem createDirectoryStructure_same (env : Env) (w : World) :
    SameEngine w (SDManager.createDirectoryStructure env w).2 :=
  ((createDirectory_same env LOG_DIR w).trans (createDirectory_same env BACKUP_DIR _)).trans
    (createDirectory_same env TEMP_DIR _)

theorem checkCardHealth_same (env : Env) (w : World) :
    SameEngine w (SDManager.checkCardHealth env w).2 := by
  have h1 := sdOpenRoot_same env w
  have h2 := h1.trans (sdOpenWrite_same env "/temp/test.tmp" (sdOpenRoot env w).2)
  have h3 := h2.trans (filePrint_same env "/temp/test.tmp" "TEST" _)
  have h4 := h3.trans (sdOpenRead_same env "/temp/test.tmp" _)
  unfold SDManager.checkCardHealth
  simp only []
  split
  · exact h1.trans (setLastError_same _ _)
  · split
    · exact h2.trans (setLastError_same _ _)
    · split
      · exact h4.trans (setLastError_same _ _)
      · split
        · exact (h4.trans (sdRemove_same _ _)).trans (setLastError_same _ _)
        · exact h4.trans (sdRemove_same _ _)

theorem writeTestFile_same (env : Env) (w : World) :
    SameEngine w (SDManager.writeTestFile env w).2 := by
  have h2 := sdOpenWrite_same env "/temp/sd_test.txt" w
  have h3 := h2.trans (filePrint_same env "/temp/sd_test.txt"
    (("SD Card Test - " ++ toString (millis w)) ++ "\r\n") _)
  have h4 := h3.trans (sdOpenRead_same env "/temp/sd_test.txt" _)
  unfold SDManager.writeTestFile filePrintln
  simp only []
  split
  · exact h2.trans (setLastError_same _ _)
  · split
    · exact h4.trans (setLastError_same _ _)
    · exact h4.trans (sdRemove_same _ _)

theorem verifyFileSystem_same (env : Env) (w : World) :
    SameEngine w (SDManager.verifyFileSystem env w).2 := by
  have h1 := isMounted_same env w
  have h2 := h1.trans (checkCardHealth_same env _)
  have h3 := h2.trans (writeTestFile_same env _)
  unfold SDManager.verifyFileSystem
  simp only []
  split
  · exact h1.trans (setLastError_same _ _)
  · split
    · exact h2.trans (setLastError_same _ _)
    · split
      · exact h3.trans (setLastError_same _ _)
      · exact h3

theorem mount_status (env : Env) (w : World) :
    (SDManager.mount env w).2.sys.currentStatus = w.sys.currentStatus := by
  have hst : (SDManager.mountLoop env MAX_MOUNT_ATTEMPTS (SDManager.isMounted env w).2).2.sys.currentStatus
      = w.sys.currentStatus := by
    rw [mountLoop_status, (isMounted_same env w).status]
  unfold SDManager.mount
  simp only []
  split
  · exact (isMounted_same env w).status
  · split
    · exact hst
    · simp only []
      rw [logError_sys]
      exact hst

/-- `SDManager::initialize` never changes the operational status. -/
theorem initializeManager_status (env : Env) (w : World) :
    (SDManager.initializeManager env w).2.sys.currentStatus = w.sys.currentStatus := by
  have h1 := mount_status env w
  have h2 := (createDirectoryStructure_same env (SDManager.mount env w).2).status
  have h3 := (verifyFileSystem_same env
    (SDManager.createDirectoryStructure env (SDManager.mount env w).2).2).status
  unfold SDManager.initializeManager
  simp only []
  split
  · exact h1
  · split
    · rw [h2, h1]
    · split
      · rw [h3, h2, h1]
      · rw [h3, h2, h1]

/-- When storage start-up fails at boot, the status is STORAGE_MOUNT_FAILED only
if the state machine came out of its own start-up in READY or LOGGING; every
other status is left as it was. -/
theorem initializeRobust_storage_failure (env : Env) (w : World)
    (hs : (SystemState.initializeState env w).1 = true)
    (hd : (SDManager.initializeManager env (SystemState.initializeState env w).2).1 = false) :
    (RobustLogger.initializeRobust env w).1 = false
    ∧ (RobustLogger.initializeRobust env w).2.sys.currentStatus
        = (if (SystemState.initializeState env w).2.sys.currentStatus = SystemStatus.READY.toInt
              ∨ (SystemState.initializeState env w).2.sys.currentStatus = SystemStatus.LOGGING.toInt
            then SystemStatus.SD_MOUNT_FAILED.toInt
            else (SystemState.initializeState env w).2.sys.currentStatus) := by
  have hst := initializeManager_status env (SystemState.initializeState env w).2
  unfold RobustLogger.initializeRobust
  simp only [hs, hd, Bool.not_true, Bool.not_false, Bool.false_eq_true, if_false, if_true]
  refine ⟨trivial, ?_⟩
  rw [transitionTo_status, hst]
  generalize (SystemState.initializeState env w).2.sys.currentStatus = x
  simp only [SystemState.transitionRejected, SystemStatus.toInt]
  by_cases h1 : x = 1
  · subst h1; simp
  · by_cases h2 : x = 2
    · subst h2; simp
    · simp [h1, h2]

/-! ### Start-up of the state machine without a readable state file -/

/-- When the state file is missing or SPIFFS refuses to open it, the loader
returns false and the state in memory is what it was. -/
theorem loadState_unreadable (env : Env) (w : World)
    (h : fsRead w.hw.spiffsFiles STATE_FILE = none ∨ env.spiffsOpen w.hw.spiffsOpenCalls = false) :
    (SystemState.loadStateFromSPIFFS env w).1 = false
    ∧ (SystemState.loadState env w).sys = w.sys
    ∧ millis (SystemState.loadState env w) = millis w := by
  rcases h with h | h
  · cases ho : env.spiffsOpen w.hw.spiffsOpenCalls <;>
      simp [SystemState.loadState, SystemState.loadStateFromSPIFFS, spiffsOpenRead, ho, h, millis]
  · simp [SystemState.loadState, SystemState.loadStateFromSPIFFS, spiffsOpenRead, h, millis]

/-! ### Outcomes of a single write -/

/-- `logError` makes no call on the card and does not move the clock. -/
theorem logError_calls (env : Env) (e : String) (v : World) :
    (SystemState.logError env e v).hw.sdOpenCalls = v.hw.sdOpenCalls
    ∧ (SystemState.logError env e v).hw.sdWriteCalls = v.hw.sdWriteCalls
    ∧ (SystemState.logError env e v).hw.now = v.hw.now := by
  refine ⟨?_, ?_, ?_⟩ <;>
    cases ho : env.spiffsOpen v.hw.spiffsOpenCalls <;>
    simp [SystemState.logError, SystemState.saveState, SystemState.saveStateToSPIFFS,
      spiffsWriteLines, ho]

/-- The two outcomes of `writeData`: what a success and what a failure leave behind. -/
theorem writeData_cases (env : Env) (d f : String) (w : World) :
    ((SDManager.writeData env d f w).1 = true →
        (SDManager.writeData env d f w).2.sys.totalWrites = (w.sys.totalWrites + 1) % U32
        ∧ (SDManager.writeData env d f w).2.sys.lastGoodWriteTime = millis w
        ∧ (SDManager.writeData env d f w).2.hw.sdOpenCalls = w.hw.sdOpenCalls + 1
        ∧ (SDManager.writeData env d f w).2.hw.sdWriteCalls = w.hw.sdWriteCalls + 1)
    ∧ ((SDManager.writeData env d f w).1 = false →
        (SDManager.writeData env d f w).2.sys.totalWrites = w.sys.totalWrites
        ∧ (SDManager.writeData env d f w).2.sys.lastGoodWriteTime = w.sys.lastGoodWriteTime
        ∧ (SDManager.writeData env d f w).2.hw.sdOpenCalls ≤ w.hw.sdOpenCalls + 1
        ∧ (SDManager.writeData env d f w).2.hw.sdWriteCalls ≤ w.hw.sdWriteCalls + 1)
    ∧ (SDManager.writeData env d f w).2.hw.now = w.hw.now := by
  cases hI : w.sd.sdInitialized <;> cases hB : env.sdBegin w.hw.sdBeginCalls <;>
    cases hO : env.sdOpen w.hw.sdOpenCalls <;> cases hW : env.sdWrite w.hw.sdWriteCalls <;>
    by_cases hz : d.utf8ByteSize = 0 <;>
    simp [SDManager.writeData, SDManager.isMounted, sdBegin, sdOpenWrite, filePrint,
      hI, hB, hO, hW, hz, logError_sys, logError_calls, SDManager.setLastError, millis,
      SystemState.setLastGoodWriteTime, SystemState.incrementWrites]

/-- The two outcomes of `appendData`: what a success and what a failure leave behind. -/
theorem appendData_cases (env : Env) (d f : String) (w : World) :
    ((SDManager.appendData env d f w).1 = true →
        (SDManager.appendData env d f w).2.sys.totalWrites = (w.sys.totalWrites + 1) % U32
        ∧ (SDManager.appendData env d f w).2.sys.lastGoodWriteTime = millis w
        ∧ (SDManager.appendData env d f w).2.hw.sdOpenCalls = w.hw.sdOpenCalls + 1
        ∧ (SDManager.appendData env d f w).2.hw.sdWriteCalls = w.hw.sdWriteCalls + 1)
    ∧ ((SDManager.appendData env d f w).1 = false →
        (SDManager.appendData env d f w).2.sys.totalWrites = w.sys.totalWrites
        ∧ (SDManager.appendData env d f w).2.sys.lastGoodWriteTime = w.sys.lastGoodWriteTime
        ∧ (SDManager.appendData env d f w).2.hw.sdOpenCalls ≤ w.hw.sdOpenCalls + 1
        ∧ (SDManager.appendData env d f w).2.hw.sdWriteCalls ≤ w.hw.sdWriteCalls + 1)
    ∧ (SDManager.appendData env d f w).2.hw.now = w.hw.now := by
  have hz := line_utf8ByteSize_ne_zero d
  cases hI : w.sd.sdInitialized <;> cases hB : env.sdBegin w.hw.sdBeginCalls <;>
    cases hO : env.sdOpen w.hw.sdOpenCalls <;> cases hW : env.sdWrite w.hw.sdWriteCalls <;>
    by_cases hE : fsExists w.hw.sdFiles f = true <;>
    simp [SDManager.appendData, SDManager.isMounted, sdBegin, sdOpenAppend, filePrintln, filePrint,
      hI, hB, hO, hW, hE, hz, logError_sys, logError_calls, SDManager.setLastError, millis,
      SystemState.setLastGoodWriteTime, SystemState.incrementWrites]

/-! ### Decimal text of a number -/

/-- The character of a digit value below ten is an ASCII digit with that value. -/
theorem digitChar_facts (m : Nat) (h : m < 10) :
    (Nat.digitChar m).isDigit = true ∧ (Nat.digitChar m).toNat - 48 = m
    ∧ (Nat.digitChar m).utf8Size = 1 := by
  interval_cases m <;> decide


/-- The digits that `Nat.toDigitsCore` puts before `ds`. -/
theorem toDigitsCore_parse (fuel : Nat) : ∀ (n : Nat) (ds : List Char), n < fuel →
    ∃ pre : List Char, Nat.toDigitsCore 10 fuel n ds = pre ++ ds
      ∧ pre ≠ []
      ∧ (∀ c ∈ pre, c.isDigit = true ∧ c.utf8Size = 1)
      ∧ ∀ (rest : List Char) (acc : Nat),
          parseDigits (pre ++ rest) acc = parseDigits rest (acc * 10 ^ pre.length + n) := by
  induction fuel with
  | zero => intro n ds h; omega
  | succ fuel ih =>
    intro n ds h
    obtain ⟨d1, d2, d3⟩ := digitChar_facts (n % 10) (Nat.mod_lt _ (by decide))
    by_cases h0 : n / 10 = 0
    · refine ⟨[Nat.digitChar (n % 10)], ?_, by simp, ?_, ?_⟩
      · simp [Nat.toDigitsCore, h0]
      · intro c hc
        simp at hc
        subst hc
        exact ⟨d1, d3⟩
      · intro rest acc
        have hn : n % 10 = n := Nat.mod_eq_of_lt (by omega)
        simp only [List.singleton_append, parseDigits, d1, if_true, d2, List.length_singleton,
          pow_one]
        rw [hn]
        rfl
    · obtain ⟨pre, e1, _, e3, e4⟩ := ih (n / 10) (Nat.digitChar (n % 10) :: ds) (by omega)
      refine ⟨pre ++ [Nat.digitChar (n % 10)], ?_, by simp, ?_, ?_⟩
      · simp [Nat.toDigitsCore, h0, e1]
      · intro c hc
        rcases List.mem_append.1 hc with hc | hc
        · exact e3 c hc
        · simp at hc
          subst hc
          exact ⟨d1, d3⟩
      · intro rest acc
        rw [List.append_assoc, e4]
        simp only [List.singleton_append, parseDigits, d1, if_true, d2, List.length_append,
          List.length_singleton]
        congr 1
        have := Nat.div_add_mod n 10
        rw [pow_succ]
        nlinarith [Nat.div_add_mod n 10]

/-- The characters of the decimal text of a natural number. -/
theorem natText_data (n : Nat) : (toString n).data = Nat.toDigits 10 n := rfl

/-- The decimal text of `n` is a non-empty run of ASCII digits which `parseDigits`
reads back as `n`. -/
theorem natText_spec (n : Nat) :
    (toString n).data ≠ []
    ∧ (∀ c ∈ (toString n).data, c.isDigit = true ∧ c.utf8Size = 1)
    ∧ ∀ (rest : List Char), parseDigits ((toString n).data ++ rest) 0 = parseDigits rest n := by
  obtain ⟨pre, e1, e2, e3, e4⟩ := toDigitsCore_parse (n + 1) n [] (by omega)
  have hd : (toString n).data = pre := by
    rw [natText_data]
    unfold Nat.toDigits
    rw [e1, List.append_nil]
  rw [hd]
  refine ⟨e2, e3, ?_⟩
  intro rest
  rw [e4]
  simp

/-- A text of one-byte characters has as many bytes as characters. -/
theorem utf8Len_of_ascii (cs : List Char) (h : ∀ c ∈ cs, c.utf8Size = 1) :
    String.utf8Len cs = cs.length := by
  induction cs with
  | nil => rfl
  | cons c cs ih =>
    have h1 := h c (List.mem_cons_self _ _)
    have h2 := ih (fun d hd => h d (List.mem_cons_of_mem _ hd))
    simp [String.utf8Len_cons, h1, h2]

/-- Byte length of a concatenation. -/
theorem utf8ByteSize_append (a b : String) :
    (a ++ b).utf8ByteSize = a.utf8ByteSize + b.utf8ByteSize := by
  obtain ⟨as⟩ := a
  obtain ⟨bs⟩ := b
  show String.utf8ByteSize ⟨as ++ bs⟩ = _
  simp [String.utf8ByteSize_mk, String.utf8Len_append]

/-- The decimal text of a number below `10 ^ e` has at most `e` characters, one byte each. -/
theorem natText_size (n e : Nat) (he : 0 < e) (h : n < 10 ^ e) :
    (toString n).length ≤ e ∧ (toString n).utf8ByteSize = (toString n).length := by
  refine ⟨Nat.repr_length n e he h, ?_⟩
  have := utf8Len_of_ascii (toString n).data (fun c hc => ((natText_spec n).2.1 c hc).2)
  exact this

/-- A generated file name has at most 25 characters (and bytes): the clock reads below
2^32, so the seconds have at most seven digits and the milliseconds at most three. -/
theorem generatedName_short (w : World) :
    (SDManager.generateTimestampedFilename w).length ≤ 25
    ∧ (SDManager.generateTimestampedFilename w).utf8ByteSize ≤ 25 := by
  have hm : millis w < 4294967296 := Nat.mod_lt _ (by decide)
  obtain ⟨a1, a2⟩ := natText_size (millis w / 1000) 7 (by decide) (by norm_num; omega)
  obtain ⟨b1, b2⟩ := natText_size (millis w % 1000) 3 (by decide) (by norm_num; omega)
  have h1 : LOG_DIR.length = 5 ∧ LOG_DIR.utf8ByteSize = 5 := by decide
  have h2 : "/log_".length = 5 ∧ "/log_".utf8ByteSize = 5 := by decide
  have h3 : "_".length = 1 ∧ "_".utf8ByteSize = 1 := by decide
  have h4 : ".csv".length = 4 ∧ ".csv".utf8ByteSize = 4 := by decide
  unfold SDManager.generateTimestampedFilename
  constructor
  · simp only [String.length_append]
    omega
  · simp only [utf8ByteSize_append]
    omega

/-! ### The current file across flushes and maintenance -/

/-- A flush leaves the current file of the engine as it is. -/
theorem flushCounted_file (env : Env) (w : World) :
    (DataLogger.flushCounted env w).2.log.currentLogFile = w.log.currentLogFile
    ∧ (DataLogger.flushCounted env w).2.log.fileOpen = w.log.fileOpen := by
  unfold DataLogger.flushCounted
  by_cases hb : w.log.dataBuffer = []
  · simp [flush_nil env w hb]
  · cases hf : (DataLogger.flushBufferToSD env w).1 with
    | false =>
      have := (flush_false env w hf).1
      simp [hf, SystemState.incrementFailedWrites, this]
    | true =>
      have := (flush_true_facts env w hb hf).1
      simp [hf, this]

/-- A forced flush leaves the current file of the engine as it is. -/
theorem forceFlushBuffer_file (env : Env) (w : World) :
    (DataLogger.forceFlushBuffer env w).2.log.currentLogFile = w.log.currentLogFile
    ∧ (DataLogger.forceFlushBuffer env w).2.log.fileOpen = w.log.fileOpen := by
  unfold DataLogger.forceFlushBuffer
  split
  · exact ⟨rfl, rfl⟩
  · exact flushCounted_file env w

/-- With a current name of at most 50 bytes, maintenance skips its rotation block. -/
theorem performMaintenance_short_name (env : Env) (v : World)
    (h : ¬ 50 < v.log.currentLogFile.utf8ByteSize) :
    DataLogger.performMaintenance env v = DataLogger.maintenanceWithoutSwitch env v := by
  have hshort : ¬ 50 < (DataLogger.forceFlushBuffer env v).2.log.currentLogFile.utf8ByteSize := by
    rw [(forceFlushBuffer_file env v).1]
    exact h
  unfold DataLogger.performMaintenance DataLogger.maintenanceWithoutSwitch
  simp only [if_neg hshort]

/-- Maintenance without rotation leaves the current file of the engine as it is. -/
theorem maintenanceWithoutSwitch_file (env : Env) (v : World) :
    (DataLogger.maintenanceWithoutSwitch env v).2.log.currentLogFile = v.log.currentLogFile
    ∧ (DataLogger.maintenanceWithoutSwitch env v).2.log.fileOpen = v.log.fileOpen := by
  have hm := (isMounted_same env (DataLogger.forceFlushBuffer env v).2).log
  have hc := (cleanupOldFiles_same env 10
    (SDManager.isMounted env (DataLogger.forceFlushBuffer env v).2).2).log
  obtain ⟨hf, hg⟩ := forceFlushBuffer_file env v
  unfold DataLogger.maintenanceWithoutSwitch
  simp only []
  constructor <;> split <;> split <;> simp [DataLogger.resetStatistics, hm, hc, hf, hg]

/-! ### Skipped lines of a state file -/

/-- Trimming only removes characters. -/
theorem trimChars_subset (cs : List Char) (c : Char) (h : c ∈ trimChars cs) : c ∈ cs := by
  unfold trimChars at h
  have h1 := List.mem_reverse.1 h
  have h2 := (List.dropWhile_sublist isSpaceChar).subset h1
  have h3 := List.mem_reverse.1 h2
  exact (List.dropWhile_sublist isSpaceChar).subset h3

/-- The key that `splitKeyValue` returns is the text before the first `=`. -/
theorem splitKeyValue_key (l : List Char) (k v : String) (h : splitKeyValue l = some (k, v)) :
    k = String.mk (l.takeWhile (fun c => c != '=')) := by
  unfold splitKeyValue at h
  split at h
  · simp at h
  · split at h
    · simp at h
    · simp at h
      exact h.1.symm

/-- A line without `=` has no key. -/
theorem splitKeyValue_none_of_no_eq (l : List Char) (h : '=' ∉ l) : splitKeyValue l = none := by
  unfold splitKeyValue
  have : l.dropWhile (fun c => c != '=') = [] := by
    rw [List.dropWhile_eq_nil_iff]
    intro c hc
    have : c ≠ '=' := fun e => h (e ▸ hc)
    simpa using this
  rw [this]

/-- A skipped line leaves the state as it is. -/
theorem applyStateLine_skipped (s : SystemState) (line : List Char) (h : skippedLine line = true) :
    SystemState.applyStateLine s line = s := by
  unfold skippedLine at h
  rw [Bool.or_eq_true] at h
  rcases h with h | h
  · have hno : '=' ∉ trimChars line := by
      intro hm
      have := trimChars_subset line '=' hm
      simp at h
      exact h this
    unfold SystemState.applyStateLine
    rw [splitKeyValue_none_of_no_eq _ hno]
  · unfold SystemState.applyStateLine
    cases hs : splitKeyValue (trimChars line) with
    | none => rfl
    | some kv =>
      obtain ⟨k, v⟩ := kv
      have hk := splitKeyValue_key _ k v hs
      have hkey : k = lineKey line := hk
      have hn : k ∉ STATE_KEYS := by
        rw [hkey]
        simpa using h
      simp only [STATE_KEYS, List.mem_cons, List.mem_singleton, List.not_mem_nil, or_false,
        not_or] at hn
      obtain ⟨n1, n2, n3, n4, n5, n6, n7, n8, n9⟩ := hn
      simp [n1, n2, n3, n4, n5, n6, n7, n8, n9]

/-- Loading the lines without the skipped ones gives the same state. -/
theorem foldl_filter_skipped (lines : List (List Char)) (s : SystemState) :
    (lines.filter (fun l => !skippedLine l)).foldl SystemState.applyStateLine s
      = lines.foldl SystemState.applyStateLine s := by
  induction lines generalizing s with
  | nil => rfl
  | cons l ls ih =>
    cases h : skippedLine l with
    | true => simp [List.filter, h, applyStateLine_skipped s l h, ih]
    | false => simp [List.filter, h, ih]

/-- Reading a line that is followed by a line feed. -/
theorem readLinesFrom_line (l rest cur : List Char) (h : Char.ofNat 10 ∉ l) :
    readLinesFrom (l ++ Char.ofNat 10 :: rest) cur
      = (cur.reverse ++ l) :: readLinesFrom rest [] := by
  induction l generalizing cur with
  | nil => simp [readLinesFrom]
  | cons c cs ih =>
    have hc : c ≠ Char.ofNat 10 := fun e => h (e ▸ List.mem_cons_self _ _)
    have hcs : Char.ofNat 10 ∉ cs := fun m => h (List.mem_cons_of_mem _ m)
    simp [readLinesFrom, hc, ih (c :: cur) hcs]

/-- Reading back a text written line by line. -/
theorem readLinesFrom_linesChars (lines : List (List Char))
    (h : ∀ l ∈ lines, Char.ofNat 10 ∉ l) :
    readLinesFrom (linesChars lines) [] = lines := by
  induction lines with
  | nil => rfl
  | cons l ls ih =>
    rw [linesChars, readLinesFrom_line l _ [] (h l (List.mem_cons_self _ _)),
      ih (fun m hm => h m (List.mem_cons_of_mem _ hm))]
    simp

/-- No line that the reading loop sees holds a line feed. -/
theorem readLinesFrom_no_lf (cs cur : List Char) (hcur : Char.ofNat 10 ∉ cur) :
    ∀ l ∈ readLinesFrom cs cur, Char.ofNat 10 ∉ l := by
  induction cs generalizing cur with
  | nil =>
    intro l hl
    unfold readLinesFrom at hl
    split at hl
    · simp at hl
    · simp at hl
      subst hl
      simpa using hcur
  | cons c cs ih =>
    intro l hl
    unfold readLinesFrom at hl
    split at hl
    · rcases List.mem_cons.1 hl with e | m
      · subst e
        simpa using hcur
      · exact ih [] (by simp) l m
    · rename_i hc
      exact ih (c :: cur) (by
        intro m
        rcases List.mem_cons.1 m with e | m
        · exact hc e.symm
        · exact hcur m) l hl

/-- The lines of the text without skipped lines are the kept lines. -/
theorem readLines_withoutSkippedLines (content : String) :
    readLines (withoutSkippedLines content)
      = (readLines content).filter (fun l => !skippedLine l) := by
  unfold withoutSkippedLines
  show readLinesFrom (linesChars _) [] = _
  apply readLinesFrom_linesChars
  intro l hl
  exact readLinesFrom_no_lf content.data [] (by simp) l (List.mem_filter.1 hl).1

/-! ### Round trip of the state file -/

/-- `dropWhile` leaves a list alone whose first element fails the test. -/
theorem dropWhile_of_head (p : Char → Bool) (l : List Char)
    (h : ∀ c, l.head? = some c → p c = false) : l.dropWhile p = l := by
  cases l with
  | nil => rfl
  | cons c cs => simp [List.dropWhile, h c rfl]

/-- Trimming the characters of a printed `key=value` line removes the carriage return at
its end and nothing else. -/
theorem trimChars_entry (key value : List Char)
    (hk : ∀ c, key.head? = some c → isSpaceChar c = false) (hne : key ≠ [])
    (hv : ∀ c, value.getLast? = some c → isSpaceChar c = false) :
    trimChars (key ++ '=' :: (value ++ [Char.ofNat 13])) = key ++ '=' :: value := by
  unfold trimChars
  have h1 : (key ++ '=' :: (value ++ [Char.ofNat 13])).dropWhile isSpaceChar
      = key ++ '=' :: (value ++ [Char.ofNat 13]) := by
    apply dropWhile_of_head
    intro c hc
    cases key with
    | nil => exact absurd rfl hne
    | cons k ks => exact hk c (by simpa using hc)
  rw [h1]
  have h2 : (key ++ '=' :: (value ++ [Char.ofNat 13])).reverse
      = Char.ofNat 13 :: (value.reverse ++ '=' :: key.reverse) := by
    simp
  rw [h2]
  have h3 : (Char.ofNat 13 :: (value.reverse ++ '=' :: key.reverse)).dropWhile isSpaceChar
      = value.reverse ++ '=' :: key.reverse := by
    have hcr : isSpaceChar (Char.ofNat 13) = true := by decide
    rw [List.dropWhile_cons, if_pos hcr]
    apply dropWhile_of_head
    intro c hc
    rcases List.eq_nil_or_concat value with hnil | ⟨init, lst, hcat⟩
    · subst hnil
      simp at hc
      subst hc
      decide
    · subst hcat
      simp at hc
      subst hc
      exact hv _ (by simp)
  rw [h3]
  simp

/-- The text before and from the first `=` of `key=value`. -/
theorem takeWhile_dropWhile_key (key value : List Char) (hk : '=' ∉ key) :
    (key ++ '=' :: value).takeWhile (fun c => c != '=') = key
    ∧ (key ++ '=' :: value).dropWhile (fun c => c != '=') = '=' :: value := by
  induction key with
  | nil => simp
  | cons c cs ih =>
    have hc : (c != '=') = true := by
      have : c ≠ '=' := fun e => hk (e ▸ List.mem_cons_self _ _)
      simpa using this
    have hcs : '=' ∉ cs := fun m => hk (List.mem_cons_of_mem _ m)
    obtain ⟨i1, i2⟩ := ih hcs
    constructor
    · rw [List.cons_append, List.takeWhile_cons, if_pos hc, i1]
    · rw [List.cons_append, List.dropWhile_cons, if_pos hc, i2]

/-- Splitting `key=value` gives the key and the value. -/
theorem splitKeyValue_entry (key value : List Char) (hne : key ≠ []) (hk : '=' ∉ key) :
    splitKeyValue (key ++ '=' :: value) = some (String.mk key, String.mk value) := by
  obtain ⟨ht, hd⟩ := takeWhile_dropWhile_key key value hk
  unfold splitKeyValue
  rw [hd]
  simp only [ht]
  rw [if_neg hne]

/-- What the loader makes of a line written by `println(key + "=" + value)`. -/
theorem stateLine_entry (key value : List Char)
    (hne : key ≠ []) (hk : '=' ∉ key)
    (hh : ∀ c, key.head? = some c → isSpaceChar c = false)
    (hv : ∀ c, value.getLast? = some c → isSpaceChar c = false) :
    splitKeyValue (trimChars (key ++ '=' :: (value ++ [Char.ofNat 13])))
      = some (String.mk key, String.mk value) := by
  rw [trimChars_entry key value hh hne hv, splitKeyValue_entry key value hne hk]

/-- The code of an ASCII digit. -/
theorem isDigit_range (c : Char) (h : c.isDigit = true) : 48 ≤ c.toNat ∧ c.toNat ≤ 57 := by
  unfold Char.isDigit at h
  simp only [Bool.and_eq_true, decide_eq_true_eq, ge_iff_le] at h
  unfold Char.toNat
  obtain ⟨h1, h2⟩ := h
  rw [UInt32.le_def] at h1 h2
  exact ⟨h1, h2⟩

/-- An ASCII digit is no white space, no sign, no `=` and no line feed. -/
theorem isDigit_plain (c : Char) (h : c.isDigit = true) :
    isSpaceChar c = false ∧ c ≠ '-' ∧ c ≠ '+' ∧ c ≠ '=' ∧ c ≠ Char.ofNat 10 := by
  obtain ⟨h1, h2⟩ := isDigit_range c h
  refine ⟨?_, ?_, ?_, ?_, ?_⟩
  · unfold isSpaceChar
    have : c ≠ ' ' := fun e => by rw [e] at h1; revert h1; decide
    simp [this]
    omega
  all_goals
    intro e
    rw [e] at h1 h2
    revert h1 h2
    decide

/-- `toInt` reads the decimal text of a number below 2^31 back as that number. -/
theorem toLong_natText (n : Nat) (h : n < 2147483648) : toLong (toString n) = (n : Int) := by
  obtain ⟨e1, e2, e3⟩ := natText_spec n
  have e4 := e3 []
  rw [List.append_nil] at e4
  unfold toLong
  generalize (toString n).data = ds at e1 e2 e4
  cases ds with
  | nil => exact absurd rfl e1
  | cons c cs =>
    obtain ⟨p1, p2, p3, _, _⟩ := isDigit_plain c (e2 c (List.mem_cons_self _ _)).1
    rw [List.dropWhile_cons, if_neg (by simp [p1])]
    split
    · rename_i heq
      exact absurd (List.cons.inj heq).1 p2
    · rename_i heq
      exact absurd (List.cons.inj heq).1 p3
    · rw [e4]
      simp only [parseDigits]
      omega

/-- A number below 2^31 survives printing, `toInt` and the assignment to `unsigned long`. -/
theorem toUnsignedLong_natText (n : Nat) (h : n < 2147483648) :
    toUnsignedLong (toLong (toString n)) = n := by
  rw [toLong_natText n h]
  unfold toUnsignedLong U32
  omega

/-- The decimal text of a non-negative integer. -/
theorem intText_nonneg (i : Int) (h0 : 0 ≤ i) : toString i = toString i.toNat := by
  obtain ⟨n, rfl⟩ := Int.eq_ofNat_of_zero_le h0
  rfl

/-- `toInt` reads the decimal text of an enumerator value back as that value. -/
theorem toLong_statusText (i : Int) (h0 : 0 ≤ i) (h6 : i ≤ 6) : toLong (toString i) = i := by
  rw [intText_nonneg i h0, toLong_natText _ (by omega)]
  omega

/-- The decimal text of a number holds no line feed and does not end in white space. -/
theorem natText_clean (n : Nat) :
    Char.ofNat 10 ∉ (toString n).data
    ∧ (∀ c, (toString n).data.getLast? = some c → isSpaceChar c = false) := by
  obtain ⟨_, e2, _⟩ := natText_spec n
  constructor
  · intro hm
    exact (isDigit_plain _ (e2 _ hm).1).2.2.2.2 rfl
  · intro c hc
    exact (isDigit_plain c (e2 c (List.mem_of_getLast?_eq_some hc)).1).1

/-- The text of a state file is its nine printed lines, a line feed behind each. -/
theorem stateText_data (s : SystemState) :
    (stateText s).data
      = linesChars
          [ entryLine "status" (toString s.currentStatus),
            entryLine "lastWriteTime" (toString s.lastGoodWriteTime),
            entryLine "startTime" (toString s.systemStartTime),
            entryLine "currentLogFile" s.currentLogFile,
            entryLine "sdMounted" (boolText s.sdCardMounted),
            entryLine "loggingActive" (boolText s.loggingActive),
            entryLine "totalWrites" (toString s.totalWrites),
            entryLine "failedWrites" (toString s.failedWrites),
            entryLine "lastError" s.lastError ] := by
  have hcr : Char.ofNat 13 = '\r' := rfl
  have hlf : Char.ofNat 10 = '\n' := rfl
  simp [stateText, linesChars, entryLine, String.data_append, hcr, hlf]

/-- The first character of an untrimmable text is no white space. -/
theorem head_of_dropWhile (l : List Char) (h : l.dropWhile isSpaceChar = l) :
    ∀ c, l.head? = some c → isSpaceChar c = false := by
  intro c hc
  have := List.head?_dropWhile_not isSpaceChar l
  rw [h, hc] at this
  exact this

/-- The loader on the line that `saveStateToSPIFFS` prints for `status`. -/
theorem applyStateLine_status (s : SystemState) (value : String)
    (hv : ∀ c, value.data.getLast? = some c → isSpaceChar c = false) :
    SystemState.applyStateLine s (entryLine "status" value) = { s with currentStatus := toLong value } := by
  have hsplit := stateLine_entry "status".data value.data (by decide) (by decide)
    (head_of_dropWhile _ (by decide)) hv
  unfold SystemState.applyStateLine entryLine
  rw [hsplit]
  simp

/-- The loader on the line that `saveStateToSPIFFS` prints for `lastWriteTime`. -/
theorem applyStateLine_lastWriteTime (s : SystemState) (value : String)
    (hv : ∀ c, value.data.getLast? = some c → isSpaceChar c = false) :
    SystemState.applyStateLine s (entryLine "lastWriteTime" value) = { s with lastGoodWriteTime := toUnsignedLong (toLong value) } := by
  have hsplit := stateLine_entry "lastWriteTime".data value.data (by decide) (by decide)
    (head_of_dropWhile _ (by decide)) hv
  unfold SystemState.applyStateLine entryLine
  rw [hsplit]
  simp

/-- The loader on the line that `saveStateToSPIFFS` prints for `startTime`. -/
theorem applyStateLine_startTime (s : SystemState) (value : String)
    (hv : ∀ c, value.data.getLast? = some c → isSpaceChar c = false) :
    SystemState.applyStateLine s (entryLine "startTime" value) = { s with systemStartTime := toUnsignedLong (toLong value) } := by
  have hsplit := stateLine_entry "startTime".data value.data (by decide) (by decide)
    (head_of_dropWhile _ (by decide)) hv
  unfold SystemState.applyStateLine entryLine
  rw [hsplit]
  simp

/-- The loader on the line that `saveStateToSPIFFS` prints for `currentLogFile`. -/
theorem applyStateLine_currentLogFile (s : SystemState) (value : String)
    (hv : ∀ c, value.data.getLast? = some c → isSpaceChar c = false) :
    SystemState.applyStateLine s (entryLine "currentLogFile" value) = { s with currentLogFile := value } := by
  have hsplit := stateLine_entry "currentLogFile".data value.data (by decide) (by decide)
    (head_of_dropWhile _ (by decide)) hv
  unfold SystemState.applyStateLine entryLine
  rw [hsplit]
  simp

/-- The loader on the line that `saveStateToSPIFFS` prints for `sdMounted`. -/
theorem applyStateLine_sdMounted (s : SystemState) (value : String)
    (hv : ∀ c, value.data.getLast? = some c → isSpaceChar c = false) :
    SystemState.applyStateLine s (entryLine "sdMounted" value) = { s with sdCardMounted := decide (value = "1") } := by
  have hsplit := stateLine_entry "sdMounted".data value.data (by decide) (by decide)
    (head_of_dropWhile _ (by decide)) hv
  unfold SystemState.applyStateLine entryLine
  rw [hsplit]
  simp

/-- The loader on the line that `saveStateToSPIFFS` prints for `loggingActive`. -/
theorem applyStateLine_loggingActive (s : SystemState) (value : String)
    (hv : ∀ c, value.data.getLast? = some c → isSpaceChar c = false) :
    SystemState.applyStateLine s (entryLine "loggingActive" value) = { s with loggingActive := decide (value = "1") } := by
  have hsplit := stateLine_entry "loggingActive".data value.data (by decide) (by decide)
    (head_of_dropWhile _ (by decide)) hv
  unfold SystemState.applyStateLine entryLine
  rw [hsplit]
  simp

/-- The loader on the line that `saveStateToSPIFFS` prints for `totalWrites`. -/
theorem applyStateLine_totalWrites (s : SystemState) (value : String)
    (hv : ∀ c, value.data.getLast? = some c → isSpaceChar c = false) :
    SystemState.applyStateLine s (entryLine "totalWrites" value) = { s with totalWrites := toUnsignedLong (toLong value) } := by
  have hsplit := stateLine_entry "totalWrites".data value.data (by decide) (by decide)
    (head_of_dropWhile _ (by decide)) hv
  unfold SystemState.applyStateLine entryLine
  rw [hsplit]
  simp

/-- The loader on the line that `saveStateToSPIFFS` prints for `failedWrites`. -/
theorem applyStateLine_failedWrites (s : SystemState) (value : String)
    (hv : ∀ c, value.data.getLast? = some c → isSpaceChar c = false) :
    SystemState.applyStateLine s (entryLine "failedWrites" value) = { s with failedWrites := toUnsignedLong (toLong value) } := by
  have hsplit := stateLine_entry "failedWrites".data value.data (by decide) (by decide)
    (head_of_dropWhile _ (by decide)) hv
  unfold SystemState.applyStateLine entryLine
  rw [hsplit]
  simp

/-- The loader on the line that `saveStateToSPIFFS` prints for `lastError`. -/
theorem applyStateLine_lastError (s : SystemState) (value : String)
    (hv : ∀ c, value.data.getLast? = some c → isSpaceChar c = false) :
    SystemState.applyStateLine s (entryLine "lastError" value) = { s with lastError := value } := by
  have hsplit := stateLine_entry "lastError".data value.data (by decide) (by decide)
    (head_of_dropWhile _ (by decide)) hv
  unfold SystemState.applyStateLine entryLine
  rw [hsplit]
  simp

/-- A text that trimming leaves alone does not end in white space. -/
theorem trimChars_fixed_last (cs : List Char) (h : trimChars cs = cs) :
    ∀ c, cs.getLast? = some c → isSpaceChar c = false := by
  intro c hc
  rw [← h] at hc
  unfold trimChars at hc
  rw [List.getLast?_reverse] at hc
  have := List.head?_dropWhile_not isSpaceChar (cs.dropWhile isSpaceChar).reverse
  rw [hc] at this
  exact this

/-- A printed line holds no line feed when its key and value hold none. -/
theorem entryLine_no_lf (key value : String) (hk : Char.ofNat 10 ∉ key.data)
    (hv : Char.ofNat 10 ∉ value.data) : Char.ofNat 10 ∉ entryLine key value := by
  unfold entryLine
  intro hm
  rcases List.mem_append.1 hm with h | h
  · exact hk h
  · rcases List.mem_cons.1 h with h | h
    · revert h; decide
    · rcases List.mem_append.1 h with h | h
      · exact hv h
      · simp at h

/-- The text of a flag holds no line feed, does not end in white space and compares
equal to `"1"` exactly for `true`. -/
theorem boolText_facts (b : Bool) :
    Char.ofNat 10 ∉ (boolText b).data
    ∧ (∀ c, (boolText b).data.getLast? = some c → isSpaceChar c = false)
    ∧ decide (boolText b = "1") = b := by
  cases b <;> decide

/-- The decimal text of an enumerator value holds no line feed and does not end in white space. -/
theorem statusText_clean (i : Int) (h0 : 0 ≤ i) (h6 : i ≤ 6) :
    Char.ofNat 10 ∉ (toString i).data
    ∧ (∀ c, (toString i).data.getLast? = some c → isSpaceChar c = false) := by
  have _h := h6
  rw [intText_nonneg i h0]
  exact natText_clean _

/-- Loading the text that `saveStateToSPIFFS` prints for `s` gives `s`, whatever
state was in memory. -/
theorem loadLines_stateText (s prior : SystemState) (h : RoundTripState s) :
    (readLines (stateText s)).foldl SystemState.applyStateLine prior = s := by
  obtain ⟨⟨st, hst⟩, h1, h2, h3, h4, ⟨f1, f2⟩, ⟨g1, g2⟩⟩ := h
  have hr0 : 0 ≤ s.currentStatus := by rw [hst]; cases st <;> decide
  have hr6 : s.currentStatus ≤ 6 := by rw [hst]; cases st <;> decide
  have hlines : readLines (stateText s)
      = [ entryLine "status" (toString s.currentStatus),
          entryLine "lastWriteTime" (toString s.lastGoodWriteTime),
          entryLine "startTime" (toString s.systemStartTime),
          entryLine "currentLogFile" s.currentLogFile,
          entryLine "sdMounted" (boolText s.sdCardMounted),
          entryLine "loggingActive" (boolText s.loggingActive),
          entryLine "totalWrites" (toString s.totalWrites),
          entryLine "failedWrites" (toString s.failedWrites),
          entryLine "lastError" s.lastError ] := by
    unfold readLines
    rw [stateText_data]
    apply readLinesFrom_linesChars
    intro l hl
    simp only [List.mem_cons, List.mem_singleton, List.not_mem_nil, or_false] at hl
    rcases hl with e | e | e | e | e | e | e | e | e <;> subst e
    · exact entryLine_no_lf _ _ (by decide) (statusText_clean _ hr0 hr6).1
    · exact entryLine_no_lf _ _ (by decide) (natText_clean _).1
    · exact entryLine_no_lf _ _ (by decide) (natText_clean _).1
    · exact entryLine_no_lf _ _ (by decide) f1
    · exact entryLine_no_lf _ _ (by decide) (boolText_facts _).1
    · exact entryLine_no_lf _ _ (by decide) (boolText_facts _).1
    · exact entryLine_no_lf _ _ (by decide) (natText_clean _).1
    · exact entryLine_no_lf _ _ (by decide) (natText_clean _).1
    · exact entryLine_no_lf _ _ (by decide) g1
  rw [hlines]
  rw [List.foldl_cons, applyStateLine_status _ _ (statusText_clean _ hr0 hr6).2]
  rw [List.foldl_cons, applyStateLine_lastWriteTime _ _ (natText_clean _).2]
  rw [List.foldl_cons, applyStateLine_startTime _ _ (natText_clean _).2]
  rw [List.foldl_cons, applyStateLine_currentLogFile _ _ (trimChars_fixed_last _ f2)]
  rw [List.foldl_cons, applyStateLine_sdMounted _ _ (boolText_facts _).2.1]
  rw [List.foldl_cons, applyStateLine_loggingActive _ _ (boolText_facts _).2.1]
  rw [List.foldl_cons, applyStateLine_totalWrites _ _ (natText_clean _).2]
  rw [List.foldl_cons, applyStateLine_failedWrites _ _ (natText_clean _).2]
  rw [List.foldl_cons, applyStateLine_lastError _ _ (trimChars_fixed_last _ g2)]
  have a1 := toLong_statusText _ hr0 hr6
  have a2 := toUnsignedLong_natText _ h1
  have a3 := toUnsignedLong_natText _ h2
  have a4 := toUnsignedLong_natText _ h3
  have a5 := toUnsignedLong_natText _ h4
  have b1 := (boolText_facts s.sdCardMounted).2.2
  have b2 := (boolText_facts s.loggingActive).2.2
  simp only [List.foldl_nil, a1, a2, a3, a4, a5, b1, b2]

/-! ### Header of a created file -/

/-- The first line of a text that starts with the header is the header line. -/
theorem firstLine_header (rest : String) :
    firstLine (LOG_HEADER ++ rest) = "timestamp,flow_rate,temperature,pressure" := by
  have hlf : Char.ofNat 10 = '\n' := rfl
  unfold firstLine LOG_HEADER
  simp [String.data_append, List.takeWhile, hlf]

/-- What `SDManager::createNewLogFile` leaves when it returns true. -/
theorem sdCreateNewLogFile_ok (env : Env) (w : World)
    (h : (SDManager.createNewLogFile env w).1.1 = true) :
    (SDManager.createNewLogFile env w).1.2 = SDManager.generateTimestampedFilename w
    ∧ fsRead (SDManager.createNewLogFile env w).2.hw.sdFiles
        (SDManager.generateTimestampedFilename w) = some LOG_HEADER := by
  have hz := logHeader_utf8ByteSize_ne_zero
  cases hI : w.sd.sdInitialized <;> cases hB : env.sdBegin w.hw.sdBeginCalls <;>
    cases hO : env.sdOpen w.hw.sdOpenCalls <;> cases hW : env.sdWrite w.hw.sdWriteCalls <;>
    simp [SDManager.createNewLogFile, SDManager.writeData, SDManager.isMounted, sdBegin,
      sdOpenWrite, filePrint, hI, hB, hO, hW, hz, fileContent_fsWrite_same, fsRead_fsWrite_same,
      SystemState.setLastGoodWriteTime, SystemState.incrementWrites] at h ⊢

/-- On a file that starts with the header, `validateLogFile` returns what the
open for reading returns. -/
theorem validateLogFile_header (env : Env) (name rest : String) (v : World)
    (h : fsRead v.hw.sdFiles name = some (LOG_HEADER ++ rest)) :
    (DataLogger.validateLogFile env name v).1 = env.sdOpen v.hw.sdOpenCalls := by
  have h1 : containsText "timestamp,flow_rate,temperature,pressure" "timestamp" = true := by decide
  cases ho : env.sdOpen v.hw.sdOpenCalls <;>
    simp [DataLogger.validateLogFile, sdOpenRead, ho, h, firstLine_header, h1]

/-! ### Calls of the logging engine -/

/-- A step that leaves the buffer and the instrumentation alone drains nothing. -/
theorem drainedOnlyByFlush.of_same {w v : World} (h : SameBuffer w v) : drainedOnlyByFlush w v := by
  unfold drainedOnlyByFlush flushSucceeded
  rw [h.buffer, h.ghost]
  omega

/-- Two steps that drain only by flushes make one such step. -/
theorem drainedOnlyByFlush.thenDrained {a b c : World} (h1 : drainedOnlyByFlush a b)
    (h2 : drainedOnlyByFlush b c) : drainedOnlyByFlush a c := by
  unfold drainedOnlyByFlush flushSucceeded at *
  omega

/-- A flush drains the buffer only when it succeeds. -/
theorem flushBufferToSD_drained (env : Env) (w : World) :
    drainedOnlyByFlush w (DataLogger.flushBufferToSD env w).2 := by
  by_cases hb : w.log.dataBuffer = []
  · rw [flush_nil env w hb]
    exact drainedOnlyByFlush.of_same (SameBuffer.unchanged w)
  · cases hf : (DataLogger.flushBufferToSD env w).1 with
    | false =>
      obtain ⟨h1, h2, _⟩ := flush_false env w hf
      unfold drainedOnlyByFlush flushSucceeded
      rw [h1, h2]
      simp
      omega
    | true =>
      obtain ⟨h1, h2, _⟩ := flush_true_facts env w hb hf
      unfold drainedOnlyByFlush flushSucceeded
      rw [h1, h2]
      simp

/-- A counted flush drains the buffer only when it succeeds. -/
theorem flushCounted_drained (env : Env) (w : World) :
    drainedOnlyByFlush w (DataLogger.flushCounted env w).2 := by
  have h := flushBufferToSD_drained env w
  unfold DataLogger.flushCounted
  simp only []
  split
  · exact h.thenDrained (drainedOnlyByFlush.of_same (incrementFailedWrites_buffer _))
  · exact h

/-- `forceFlushBuffer` drains the buffer only by a successful flush. -/
theorem forceFlushBuffer_drained (env : Env) (w : World) :
    drainedOnlyByFlush w (DataLogger.forceFlushBuffer env w).2 := by
  unfold DataLogger.forceFlushBuffer
  split
  · exact drainedOnlyByFlush.of_same (SameBuffer.unchanged w)
  · exact flushCounted_drained env w

/-- Accepting a record drains nothing. -/
theorem pushRecord_drained (d : String) (w : World) :
    drainedOnlyByFlush w (DataLogger.countOverflow (DataLogger.pushRecord d w))
    ∧ drainedOnlyByFlush w (DataLogger.pushRecord d w) := by
  unfold drainedOnlyByFlush flushSucceeded
  simp [DataLogger.countOverflow, DataLogger.pushRecord, noteRecordAccepted]

/-- `logData` drains the buffer only by a successful flush. -/
theorem logData_drained (env : Env) (d : String) (w : World) :
    drainedOnlyByFlush w (DataLogger.logData env d w).2 := by
  have hr := drainedOnlyByFlush.of_same (isSystemReady_same env w).toSameBuffer
  have hp := pushRecord_drained d (DataLogger.isSystemReady env w).2
  have hc := flushCounted_drained env
    (DataLogger.countOverflow (DataLogger.pushRecord d (DataLogger.isSystemReady env w).2))
  unfold DataLogger.logData
  simp only []
  split
  · exact hr
  · split
    · exact hr
    · split
      · rename_i hfull
        split
        · exact hr.thenDrained (hp.1.thenDrained hc)
        · split
          · exact hr.thenDrained ((hp.1.thenDrained hc).thenDrained (flushCounted_drained env _))
          · exact hr.thenDrained (hp.1.thenDrained hc)
      · split
        · exact hr.thenDrained hp.2
        · split
          · exact hr.thenDrained (hp.2.thenDrained (flushCounted_drained env _))
          · exact hr.thenDrained hp.2

/-- The flush block of `update` drains the buffer only by a successful flush. -/
theorem updateFlush_drained (env : Env) (w : World) :
    drainedOnlyByFlush w (DataLogger.updateFlush env w).2 := by
  unfold DataLogger.updateFlush
  split
  · split
    · exact flushCounted_drained env w
    · exact drainedOnlyByFlush.of_same (SameBuffer.unchanged w)
  · exact drainedOnlyByFlush.of_same (SameBuffer.unchanged w)

/-- `update` is its flush block followed by the health check. -/
theorem update_eq (env : Env) (w : World) :
    DataLogger.update env w
      = if !(DataLogger.updateFlush env w).1 then (false, (DataLogger.updateFlush env w).2)
        else if !(DataLogger.isSystemReady env (DataLogger.updateFlush env w).2).1 then
          (false, (SystemState.transitionTo env SystemStatus.ERROR.toInt
            (DataLogger.isSystemReady env (DataLogger.updateFlush env w).2).2).2)
        else (true, (DataLogger.isSystemReady env (DataLogger.updateFlush env w).2).2) := rfl

/-- `update` drains the buffer only by a successful flush. -/
theorem update_drained (env : Env) (w : World) :
    drainedOnlyByFlush w (DataLogger.update env w).2 := by
  have hf := updateFlush_drained env w
  have hr := drainedOnlyByFlush.of_same
    (isSystemReady_same env (DataLogger.updateFlush env w).2).toSameBuffer
  rw [update_eq]
  split
  · exact hf
  · split
    · exact hf.thenDrained (hr.thenDrained (drainedOnlyByFlush.of_same (transitionTo_buffer env _ _)))
    · exact hf.thenDrained hr

/-- `switchLogFile` drains the buffer only by a successful flush. -/
theorem switchLogFile_drained (env : Env) (w : World) :
    drainedOnlyByFlush w (DataLogger.switchLogFile env w).2 := by
  have hf := forceFlushBuffer_drained env w
  have hc := drainedOnlyByFlush.of_same (closeCurrentFile_buffer env (DataLogger.forceFlushBuffer env w).2)
  have hn := drainedOnlyByFlush.of_same (createNewLogFile_buffer env
    (DataLogger.closeCurrentFile env (DataLogger.forceFlushBuffer env w).2).2)
  unfold DataLogger.switchLogFile
  simp only []
  split
  · exact hf
  · split <;> exact hf.thenDrained (hc.thenDrained hn)

/-- `shutdown` drains the buffer only by a successful flush. -/
theorem shutdown_drained (env : Env) (w : World) :
    drainedOnlyByFlush w (DataLogger.shutdown env w).2 := by
  have hf := forceFlushBuffer_drained env w
  have hc := drainedOnlyByFlush.of_same (closeCurrentFile_buffer env (DataLogger.forceFlushBuffer env w).2)
  have hp := drainedOnlyByFlush.of_same (createRecoveryPoint_same env
    (DataLogger.closeCurrentFile env (DataLogger.forceFlushBuffer env w).2).2).toSameBuffer
  have hl := drainedOnlyByFlush.of_same (setLoggingActive_same false
    (DataLogger.createRecoveryPoint env
      (DataLogger.closeCurrentFile env (DataLogger.forceFlushBuffer env w).2).2).2).toSameBuffer
  exact hf.thenDrained (hc.thenDrained (hp.thenDrained hl))

/-- `DataLogger::attemptRecovery` leaves the buffer alone. -/
theorem attemptRecovery_buffer (env : Env) (w : World) :
    SameBuffer w (DataLogger.attemptRecovery env w).2 := by
  have ha := attemptResumeLogging_buffer env w
  have hn := createNewLogFile_buffer env (DataLogger.attemptResumeLogging env w).2
  unfold DataLogger.attemptRecovery
  simp only []
  split
  · exact ha
  · split <;> exact ha.andThen hn

/-- `performMaintenance` drains the buffer only by a successful flush. -/
theorem performMaintenance_drained (env : Env) (w : World) :
    drainedOnlyByFlush w (DataLogger.performMaintenance env w).2 := by
  have hf := forceFlushBuffer_drained env w
  have key : ∀ s : World, drainedOnlyByFlush w s →
      drainedOnlyByFlush w
        (if 10 < (if (SDManager.isMounted env s).1 then
              (SDManager.cleanupOldFiles env 10 (SDManager.isMounted env s).2).2
            else (SDManager.isMounted env s).2).log.bufferOverflows then
          DataLogger.resetStatistics
            (if (SDManager.isMounted env s).1 then
              (SDManager.cleanupOldFiles env 10 (SDManager.isMounted env s).2).2
            else (SDManager.isMounted env s).2)
        else
          (if (SDManager.isMounted env s).1 then
            (SDManager.cleanupOldFiles env 10 (SDManager.isMounted env s).2).2
          else (SDManager.isMounted env s).2)) := by
    intro s hs
    have hm := drainedOnlyByFlush.of_same (isMounted_same env s).toSameBuffer
    have hc := drainedOnlyByFlush.of_same
      (cleanupOldFiles_same env 10 (SDManager.isMounted env s).2).toSameBuffer
    have hclean : drainedOnlyByFlush w
        (if (SDManager.isMounted env s).1 then
          (SDManager.cleanupOldFiles env 10 (SDManager.isMounted env s).2).2
        else (SDManager.isMounted env s).2) := by
      split
      · exact hs.thenDrained (hm.thenDrained hc)
      · exact hs.thenDrained hm
    generalize (if (SDManager.isMounted env s).1 then
          (SDManager.cleanupOldFiles env 10 (SDManager.isMounted env s).2).2
        else (SDManager.isMounted env s).2) = c at hclean ⊢
    split
    · exact hclean.thenDrained (drainedOnlyByFlush.of_same (resetStatistics_buffer _))
    · exact hclean
  unfold DataLogger.performMaintenance
  simp only []
  split
  · exact key _ (hf.thenDrained (switchLogFile_drained env _))
  · exact key _ hf

/-- `loadState` leaves the buffer alone. -/
theorem loadState_buffer (env : Env) (w : World) : SameBuffer w (SystemState.loadState env w) := by
  unfold SystemState.loadState SystemState.loadStateFromSPIFFS spiffsOpenRead
  simp only []
  split <;> split <;> exact ⟨rfl, rfl, rfl⟩

/-- Reading one file for verification leaves the engine alone. -/
theorem verifyFile_same (env : Env) (acc : Bool × World) (f : String) :
    SameEngine acc.2 (SDManager.verifyFile env acc f).2 := by
  have h := sdOpenRead_same env f acc.2
  unfold SDManager.verifyFile
  simp only []
  split <;> exact h

/-- Reading the files of a directory for verification leaves the engine alone. -/
theorem foldl_verifyFile_same (env : Env) (fs : List String) (acc : Bool × World) :
    SameEngine acc.2 (fs.foldl (SDManager.verifyFile env) acc).2 := by
  induction fs generalizing acc with
  | nil => exact SameEngine.refl _
  | cons f fs ih => exact (verifyFile_same env acc f).trans (ih _)

/-- Removing files leaves the engine alone. -/
theorem foldl_sdRemove_same (fs : List String) (w : World) :
    SameEngine w (fs.foldl (fun v p => sdRemove p v) w) := by
  induction fs generalizing w with
  | nil => exact SameEngine.refl _
  | cons f fs ih => exact (sdRemove_same f w).trans (ih _)

/-- Opening a directory leaves the engine alone. -/
theorem sdOpenDir_same (env : Env) (d : String) (w : World) : SameEngine w (sdOpenDir env d w).2 :=
  ⟨rfl, rfl, rfl, rfl, rfl, rfl⟩

/-- `verifyAllFiles` leaves the engine alone. -/
theorem verifyAllFiles_same (env : Env) (w : World) :
    SameEngine w (SDManager.verifyAllFiles env w).2 := by
  have h1 := isMounted_same env w
  have h2 := h1.trans (sdOpenDir_same env LOG_DIR (SDManager.isMounted env w).2)
  unfold SDManager.verifyAllFiles
  simp only []
  split
  · exact h1
  · split
    · exact h2.trans (foldl_verifyFile_same env _ (true, _))
    · exact h2

/-- `SDManager::performMaintenance` leaves the engine alone. -/
theorem sdPerformMaintenance_same (env : Env) (w : World) :
    SameEngine w (SDManager.performMaintenance env w).2 := by
  have h1 := isMounted_same env w
  have h2 := h1.trans (sdOpenDir_same env TEMP_DIR (SDManager.isMounted env w).2)
  unfold SDManager.performMaintenance
  simp only []
  split
  · exact h1
  · split
    · exact (h2.trans (foldl_sdRemove_same _ _)).trans (verifyAllFiles_same env _)
    · exact h2.trans (verifyAllFiles_same env _)

/-- `clearRecoveryData` leaves the buffer alone. -/
theorem clearRecoveryData_buffer (env : Env) (w : World) :
    SameBuffer w (DataLogger.clearRecoveryData env w).2 := by
  have h1 := loadState_buffer env w
  have h2 := h1.andThen (isMounted_same env (SystemState.loadState env w)).toSameBuffer
  unfold DataLogger.clearRecoveryData
  simp only []
  split
  · exact h2.andThen (sdPerformMaintenance_same env _).toSameBuffer
  · exact h2

/-- Every call other than `initialize` removes pending records only through a
successful flush. -/
theorem engineCall_drained (env : Env) (call : EngineCall) (w : World)
    (h : call ≠ EngineCall.initializeLogger) :
    drainedOnlyByFlush w (call.run env w).2 := by
  cases call with
  | initializeLogger => exact absurd rfl h
  | logData d => exact logData_drained env d w
  | update => exact update_drained env w
  | shutdown => exact shutdown_drained env w
  | setLogInterval i => exact drainedOnlyByFlush.of_same ⟨rfl, rfl, rfl⟩
  | setAutoResume b => exact drainedOnlyByFlush.of_same ⟨rfl, rfl, rfl⟩
  | setEnableTimestamps b => exact drainedOnlyByFlush.of_same ⟨rfl, rfl, rfl⟩
  | setMaxBufferSize n =>
    unfold drainedOnlyByFlush flushSucceeded
    simp [EngineCall.run, DataLogger.setMaxBufferSize]
  | switchLogFile => exact switchLogFile_drained env w
  | closeCurrentFile => exact drainedOnlyByFlush.of_same (closeCurrentFile_buffer env w)
  | forceFlushBuffer => exact forceFlushBuffer_drained env w
  | createRecoveryPoint =>
    exact drainedOnlyByFlush.of_same (createRecoveryPoint_same env w).toSameBuffer
  | attemptRecovery => exact drainedOnlyByFlush.of_same (attemptRecovery_buffer env w)
  | clearRecoveryData => exact drainedOnlyByFlush.of_same (clearRecoveryData_buffer env w)
  | isSystemReady => exact drainedOnlyByFlush.of_same (isSystemReady_same env w).toSameBuffer
  | performMaintenance => exact performMaintenance_drained env w
  | resetStatistics => exact drainedOnlyByFlush.of_same (resetStatistics_buffer w)

/-! ### The current file of the engine -/

/-- A step that leaves the engine alone leaves the status alone. -/
theorem sameStatus.of_engine {w v : World} (h : SameEngine w v) : sameStatus w v := h.status

/-- Two steps that leave the status alone make one such step. -/
theorem sameStatus.thenStatus {a b c : World} (h1 : sameStatus a b) (h2 : sameStatus b c) :
    sameStatus a c := by
  unfold sameStatus at *
  exact h2.trans h1

/-- A flush leaves the status alone. -/
theorem flushBufferToSD_status (env : Env) (w : World) :
    sameStatus w (DataLogger.flushBufferToSD env w).2 := by
  by_cases hb : w.log.dataBuffer = []
  · rw [flush_nil env w hb]
    rfl
  · cases hf : (DataLogger.flushBufferToSD env w).1 with
    | false => exact (flush_false env w hf).2.2.2.2.2
    | true =>
      rw [flush_true_eq env w hb hf]
      have h1 := (flushLoop_same env w.log.currentLogFile w.log.dataBuffer w).status
      have h2 := (createRecoveryPoint_same env (DataLogger.markFlushed
        (DataLogger.flushLoop env w.log.currentLogFile w.log.dataBuffer w).2)).status
      unfold sameStatus
      show (SystemState.createRecoveryPoint env _).2.sys.currentStatus = _
      rw [h2]
      exact h1

/-- A counted flush leaves the status alone. -/
theorem flushCounted_status (env : Env) (w : World) :
    sameStatus w (DataLogger.flushCounted env w).2 := by
  have h := flushBufferToSD_status env w
  unfold DataLogger.flushCounted
  simp only []
  split
  · exact h
  · exact h

/-- `forceFlushBuffer` leaves the status alone. -/
theorem forceFlushBuffer_status (env : Env) (w : World) :
    sameStatus w (DataLogger.forceFlushBuffer env w).2 := by
  unfold DataLogger.forceFlushBuffer
  split
  · rfl
  · exact flushCounted_status env w

/-- `logData` leaves the status alone. -/
theorem logData_status (env : Env) (d : String) (w : World) :
    sameStatus w (DataLogger.logData env d w).2 := by
  have hr : sameStatus w (DataLogger.isSystemReady env w).2 := (isSystemReady_same env w).status
  have hp : sameStatus w (DataLogger.pushRecord d (DataLogger.isSystemReady env w).2) := hr
  have hc : sameStatus w
      (DataLogger.countOverflow (DataLogger.pushRecord d (DataLogger.isSystemReady env w).2)) := hr
  have hfc := fun v => flushCounted_status env v
  unfold DataLogger.logData
  simp only []
  split
  · exact hr
  · split
    · exact hr
    · split
      · split
        · exact hc.thenStatus (hfc _)
        · split
          · exact (hc.thenStatus (hfc _)).thenStatus (hfc _)
          · exact hc.thenStatus (hfc _)
      · split
        · exact hp
        · split
          · exact hp.thenStatus (hfc _)
          · exact hp

/-- The flush block of `update` leaves the status alone. -/
theorem updateFlush_status (env : Env) (w : World) :
    sameStatus w (DataLogger.updateFlush env w).2 := by
  unfold DataLogger.updateFlush
  split
  · split
    · exact flushCounted_status env w
    · rfl
  · rfl

/-- `DataLogger::createNewLogFile` leaves the status alone. -/
theorem dlCreateNewLogFile_status (env : Env) (w : World) :
    sameStatus w (DataLogger.createNewLogFile env w).2 := by
  have hs : sameStatus w (SDManager.createNewLogFile env w).2 :=
    (sdCreateNewLogFile_same env w).status
  unfold DataLogger.createNewLogFile
  simp only []
  split
  · exact hs.thenStatus (logError_same env _ _).status
  · exact hs.thenStatus ((setCurrentLogFile_same env _ _).trans (setLoggingActive_same true _)).status

/-- `closeCurrentFile` leaves the status alone. -/
theorem closeCurrentFile_status (env : Env) (w : World) :
    sameStatus w (DataLogger.closeCurrentFile env w).2 := by
  unfold DataLogger.closeCurrentFile
  split
  · rfl
  · exact (setCurrentLogFile_same env "" _).status

/-- `attemptResumeLogging` leaves the status alone. -/
theorem attemptResumeLogging_status (env : Env) (w : World) :
    sameStatus w (DataLogger.attemptResumeLogging env w).2 := by
  have hm : sameStatus w (SDManager.isMounted env w).2 := (isMounted_same env w).status
  have hv : sameStatus w
      (DataLogger.validateLogFile env w.sys.currentLogFile (SDManager.isMounted env w).2).2 :=
    hm.thenStatus (validateLogFile_same env _ _).status
  unfold DataLogger.attemptResumeLogging
  simp only []
  split
  · rfl
  · split
    · exact hm
    · split
      · exact hm
      · split
        · exact hv
        · exact hv

/-- `switchLogFile` leaves the status alone. -/
theorem switchLogFile_status (env : Env) (w : World) :
    sameStatus w (DataLogger.switchLogFile env w).2 := by
  have hf := forceFlushBuffer_status env w
  have hc := hf.thenStatus (closeCurrentFile_status env _)
  have hn := hc.thenStatus (dlCreateNewLogFile_status env _)
  unfold DataLogger.switchLogFile
  simp only []
  split
  · exact hf
  · split <;> exact hn

/-- `DataLogger::attemptRecovery` leaves the status alone. -/
theorem dlAttemptRecovery_status (env : Env) (w : World) :
    sameStatus w (DataLogger.attemptRecovery env w).2 := by
  have ha := attemptResumeLogging_status env w
  have hn := ha.thenStatus (dlCreateNewLogFile_status env _)
  unfold DataLogger.attemptRecovery
  simp only []
  split
  · exact ha
  · split <;> exact hn

/-- After the rotation block, maintenance leaves the status alone. -/
theorem maintenanceTail_status (env : Env) (s : World) :
    sameStatus s
      (if 10 < (if (SDManager.isMounted env s).1 then
            (SDManager.cleanupOldFiles env 10 (SDManager.isMounted env s).2).2
          else (SDManager.isMounted env s).2).log.bufferOverflows then
        DataLogger.resetStatistics
          (if (SDManager.isMounted env s).1 then
            (SDManager.cleanupOldFiles env 10 (SDManager.isMounted env s).2).2
          else (SDManager.isMounted env s).2)
      else
        (if (SDManager.isMounted env s).1 then
          (SDManager.cleanupOldFiles env 10 (SDManager.isMounted env s).2).2
        else (SDManager.isMounted env s).2)) := by
  have hm : sameStatus s (SDManager.isMounted env s).2 := (isMounted_same env s).status
  have hc : sameStatus (SDManager.isMounted env s).2
      (SDManager.cleanupOldFiles env 10 (SDManager.isMounted env s).2).2 :=
    (cleanupOldFiles_same env 10 _).status
  have hclean : sameStatus s
      (if (SDManager.isMounted env s).1 then
        (SDManager.cleanupOldFiles env 10 (SDManager.isMounted env s).2).2
      else (SDManager.isMounted env s).2) := by
    split
    · exact hm.thenStatus hc
    · exact hm
  generalize (if (SDManager.isMounted env s).1 then
        (SDManager.cleanupOldFiles env 10 (SDManager.isMounted env s).2).2
      else (SDManager.isMounted env s).2) = c at hclean ⊢
  split
  · exact hclean
  · exact hclean

/-- `performMaintenance` leaves the status alone. -/
theorem performMaintenance_status (env : Env) (w : World) :
    sameStatus w (DataLogger.performMaintenance env w).2 := by
  have hf := forceFlushBuffer_status env w
  unfold DataLogger.performMaintenance
  simp only []
  split
  · exact (hf.thenStatus (switchLogFile_status env _)).thenStatus (maintenanceTail_status env _)
  · exact hf.thenStatus (maintenanceTail_status env _)

/-- The health check of `update`: when the flush block did not fail and the
engine is not ready, `update` returns false with the status ERROR; in every
case the status afterwards is the former one or ERROR. -/
theorem update_status (env : Env) (w : World) :
    ((DataLogger.updateFlush env w).1 = true →
      (DataLogger.isSystemReady env (DataLogger.updateFlush env w).2).1 = false →
        (DataLogger.update env w).1 = false
        ∧ (DataLogger.update env w).2.sys.currentStatus = SystemStatus.ERROR.toInt)
    ∧ ((DataLogger.update env w).2.sys.currentStatus = w.sys.currentStatus
        ∨ (DataLogger.update env w).2.sys.currentStatus = SystemStatus.ERROR.toInt) := by
  have hf := updateFlush_status env w
  have hr : sameStatus w (DataLogger.isSystemReady env (DataLogger.updateFlush env w).2).2 :=
    hf.thenStatus (isSystemReady_same env _).status
  have ht : (SystemState.transitionTo env SystemStatus.ERROR.toInt
      (DataLogger.isSystemReady env (DataLogger.updateFlush env w).2).2).2.sys.currentStatus
        = SystemStatus.ERROR.toInt := by
    rw [transitionTo_status]
    simp [SystemState.transitionRejected, SystemStatus.toInt]
  rw [update_eq]
  constructor
  · intro h1 h2
    simp [h1, h2, ht]
  · split
    · exact Or.inl hf
    · split
      · exact Or.inr ht
      · exact Or.inl hr

/-- Each of the six operations keeps the status ERROR. -/
theorem engineCall_keeps_error (env : Env) (call : EngineCall) (w : World)
    (hc : call.isLoggingOperation = true)
    (he : w.sys.currentStatus = SystemStatus.ERROR.toInt) :
    (call.run env w).2.sys.currentStatus = SystemStatus.ERROR.toInt := by
  cases call with
  | logData d => exact (logData_status env d w).trans he
  | update =>
    rcases (update_status env w).2 with h | h
    · exact h.trans he
    · exact h
  | forceFlushBuffer => exact (forceFlushBuffer_status env w).trans he
  | switchLogFile => exact (switchLogFile_status env w).trans he
  | attemptRecovery => exact (dlAttemptRecovery_status env w).trans he
  | performMaintenance => exact (performMaintenance_status env w).trans he
  | _ => simp [EngineCall.isLoggingOperation] at hc

/-- A run of the six operations keeps the status ERROR. -/
theorem runSteps_keeps_error (env : Env) (steps : List EngineStep) (w : World)
    (hs : ∀ s ∈ steps, s.isLoggingStep = true)
    (he : w.sys.currentStatus = SystemStatus.ERROR.toInt) :
    (runSteps env steps w).sys.currentStatus = SystemStatus.ERROR.toInt := by
  induction steps generalizing w with
  | nil => exact he
  | cons s rest ih =>
    have h1 : (s.run env w).sys.currentStatus = SystemStatus.ERROR.toInt := by
      have hs1 := hs s (List.mem_cons_self _ _)
      cases s with
      | call c => exact engineCall_keeps_error env c w hs1 he
      | tick dt => exact he
    exact ih (s.run env w) (fun t ht => hs t (List.mem_cons_of_mem _ ht)) h1

/-- With the status ERROR, `logData` returns false. -/
theorem logData_in_error (env : Env) (d : String) (w : World)
    (he : w.sys.currentStatus = SystemStatus.ERROR.toInt) :
    (DataLogger.logData env d w).1 = false := by
  have hr : (DataLogger.isSystemReady env w).1 = false := by
    unfold DataLogger.isSystemReady
    rw [he]
    simp [SystemStatus.toInt]
  unfold DataLogger.logData
  simp [hr]

/-! ### Shutdown and the following start -/

/-- A step that leaves the state machine as it was keeps the stored file name. -/
theorem sameName.of_sys {w v : World} (h : v.sys = w.sys) : sameName w v := by
  unfold sameName
  rw [h]

/-- `logError` keeps the stored file name. -/
theorem logError_name (env : Env) (e : String) (w : World) :
    sameName w (SystemState.logError env e w) := by
  unfold sameName
  rw [logError_sys]

/-- One second on the 32-bit clock. -/
theorem subU32_second (w : World) : subU32 (millis (advanceClock 1000 w)) (millis w) = 1000 := by
  simp only [subU32, millis, advanceClock, U32]
  omega

/-- On a board that never fails, an engine of capacity one that is ready accepts the
record offered one second later, flushes it at once and is ready again; the overflow
counter and the flush counter have each been raised once. -/
theorem logData_capacityOne (d : String) (w : World) (h : readyCapacityOne w) :
    (DataLogger.logData reliableEnv d (advanceClock 1000 w)).1 = true
    ∧ readyCapacityOne (DataLogger.logData reliableEnv d (advanceClock 1000 w)).2
    ∧ (DataLogger.logData reliableEnv d (advanceClock 1000 w)).2.log.bufferOverflows
        = (w.log.bufferOverflows + 1) % U32
    ∧ (DataLogger.logData reliableEnv d (advanceClock 1000 w)).2.log.bufferFlushCount
        = (w.log.bufferFlushCount + 1) % U32 := by
  obtain ⟨hst, hinit, hname, hopen, hbuf, hcap, hint, hlast, _⟩ := h
  have hready : (DataLogger.isSystemReady reliableEnv (advanceClock 1000 w)).1 = true :=
    (isSystemReady_true_iff reliableEnv _).2
      ⟨hst, (isMounted_true_iff reliableEnv _).2 ⟨hinit, rfl⟩, hname⟩
  have hsec := subU32_second w
  have hacc : ¬ subU32 (millis (advanceClock 1000 w)) (advanceClock 1000 w).log.lastLogTime
      < (advanceClock 1000 w).log.logInterval := by
    show ¬ subU32 (millis (advanceClock 1000 w)) w.log.lastLogTime < w.log.logInterval
    rw [hlast, hsec]
    omega
  have hstatus := logData_status reliableEnv d (advanceClock 1000 w)
  have hs := isSystemReady_same reliableEnv (advanceClock 1000 w)
  have hfull : capacity (advanceClock 1000 w) ≤ (advanceClock 1000 w).log.dataBuffer.length + 1 := by
    show capacity w ≤ w.log.dataBuffer.length + 1
    rw [hcap, hbuf]
    exact Nat.le_refl _
  rw [logData_accepted reliableEnv d _ hready hacc]
  rw [logData_accepted reliableEnv d _ hready hacc] at hstatus
  simp only [hfull, if_true] at hstatus ⊢
  generalize hR : (DataLogger.isSystemReady reliableEnv (advanceClock 1000 w)).2 = R at hs hstatus ⊢
  have hRlog : R.log = w.log := hs.log
  have hb : (DataLogger.countOverflow (DataLogger.pushRecord d R)).log.dataBuffer ≠ [] := by
    simp [DataLogger.countOverflow, pushRecord_log]
  have hRinit : (DataLogger.countOverflow (DataLogger.pushRecord d R)).sd.sdInitialized = true := by
    show R.sd.sdInitialized = true
    rw [hs.sdInit]
    exact hinit
  have hL := flushLoop_true_of_env reliableEnv
    (DataLogger.countOverflow (DataLogger.pushRecord d R)).log.currentLogFile
    (DataLogger.countOverflow (DataLogger.pushRecord d R)).log.dataBuffer
    (DataLogger.countOverflow (DataLogger.pushRecord d R)) hRinit
    (fun _ _ => rfl) (fun _ _ => rfl) (fun _ _ => rfl)
  have hPlog : (DataLogger.countOverflow (DataLogger.pushRecord d R)).log
      = { (DataLogger.pushRecord d R).log with
          bufferOverflows := ((DataLogger.pushRecord d R).log.bufferOverflows + 1) % U32 } := rfl
  have ht : (DataLogger.flushBufferToSD reliableEnv
      (DataLogger.countOverflow (DataLogger.pushRecord d R))).1 = true := by
    refine (flush_true_iff reliableEnv _ hb).2 ⟨?_, ?_, hL⟩
    · rw [hPlog, pushRecord_log, hRlog]; exact hopen
    · rw [hPlog, pushRecord_log, hRlog]; exact hname
  obtain ⟨f1, _, f3, f4, _⟩ := flush_true_facts reliableEnv _ hb ht
  have hm : millis (DataLogger.flushBufferToSD reliableEnv
      (DataLogger.countOverflow (DataLogger.pushRecord d R))).2
        = millis (DataLogger.countOverflow (DataLogger.pushRecord d R)) := by
    simp only [millis, f3]
  have hlastFlush : (DataLogger.flushBufferToSD reliableEnv
      (DataLogger.countOverflow (DataLogger.pushRecord d R))).2.log.lastBufferFlush
        = millis (DataLogger.countOverflow (DataLogger.pushRecord d R)) := by rw [f1]
  have hno : ¬ BUFFER_FLUSH_INTERVAL < 0 := by decide
  unfold DataLogger.flushCounted at hstatus ⊢
  simp only [Bool.not_true, Bool.false_eq_true, if_false, ht, hm, hlastFlush, subU32_self, hno]
    at hstatus ⊢
  refine ⟨trivial, ⟨?_, ?_, ?_, ?_, ?_, ?_, ?_, ?_, ?_⟩, ?_, ?_⟩
  · unfold sameStatus at hstatus
    rw [hstatus]
    exact hst
  · rw [f4]; exact hRinit
  · rw [f1, hPlog, pushRecord_log, hRlog]; exact hname
  · rw [f1, hPlog, pushRecord_log, hRlog]; exact hopen
  · rw [f1]
  · show intToSize _ = 1
    rw [f1, hPlog, pushRecord_log, hRlog]; exact hcap
  · rw [f1, hPlog, pushRecord_log, hRlog]; exact hint
  · rw [hm, f1, hPlog, pushRecord_log]
    rfl
  · rw [hm, f1]
  · rw [f1, hPlog, pushRecord_log, hRlog]
  · rw [f1, hPlog, pushRecord_log, hRlog]

/-- On a board that never fails, `n` records offered one per second to a ready engine of
capacity one leave it ready, with the overflow counter and the flush counter each raised
`n` times. -/
theorem logRun_capacityOne (d : String) (n : Nat) (w : World) (h : readyCapacityOne w) :
    readyCapacityOne (logRun reliableEnv (List.replicate n (1000, d)) w)
    ∧ (logRun reliableEnv (List.replicate n (1000, d)) w).log.bufferOverflows
        = afterIncrements n w.log.bufferOverflows
    ∧ (logRun reliableEnv (List.replicate n (1000, d)) w).log.bufferFlushCount
        = afterIncrements n w.log.bufferFlushCount := by
  induction n generalizing w with
  | zero => exact ⟨h, rfl, rfl⟩
  | succ m ih =>
    obtain ⟨_, s2, s3, s4⟩ := logData_capacityOne d w h
    obtain ⟨i1, i2, i3⟩ := ih _ s2
    have e : logRun reliableEnv (List.replicate (m + 1) (1000, d)) w
        = logRun reliableEnv (List.replicate m (1000, d))
            (DataLogger.logData reliableEnv d (advanceClock 1000 w)).2 := rfl
    rw [e]
    refine ⟨i1, ?_, ?_⟩
    · rw [i2, s3, Nat.add_comm m 1]
      exact afterIncrements_succ m _
    · rw [i3, s4, Nat.add_comm m 1]
      exact afterIncrements_succ m _

/-- The engine after `initialize` with capacity one is ready for its first record. -/
theorem capacityOne_ready :
    readyCapacityOne (DataLogger.initializeLogger reliableEnv capacityOneWorld).2 :=
  ⟨by decide, by decide, by decide, by decide, by decide, by decide, by decide, by decide,
   by decide⟩

/-- The counters along a run of the engine with capacity one, from `initialize` on a
board that never fails: after `n` records logged one per second the overflow counter and
the flush counter both hold `n` modulo 2^32.  So the value 4294967295 is reached after
that many records, and the record after it brings both counters to 0. -/
theorem counters_after_records (n : Nat) :
    (logRun reliableEnv (List.replicate n (1000, "a"))
        (DataLogger.initializeLogger reliableEnv capacityOneWorld).2).log.bufferOverflows = n % U32
    ∧ (logRun reliableEnv (List.replicate n (1000, "a"))
        (DataLogger.initializeLogger reliableEnv capacityOneWorld).2).log.bufferFlushCount = n % U32 := by
  obtain ⟨_, r2, r3⟩ := logRun_capacityOne "a" n _ capacityOne_ready
  have h0 : (DataLogger.initializeLogger reliableEnv capacityOneWorld).2.log.bufferOverflows = 0 := by
    decide
  have h1 : (DataLogger.initializeLogger reliableEnv capacityOneWorld).2.log.bufferFlushCount = 0 := by
    decide
  have ha : afterIncrements n 0 = n % U32 := by
    unfold afterIncrements
    split
    · next h => rw [h]; rfl
    · rw [Nat.zero_add]
  rw [r2, r3, h0, h1, ha]
  exact ⟨rfl, rfl⟩

/-! ## Properties of the specification -/

/-- C1: for a machine whose current status is `c`, `transitionTo t` returns true exactly
when the pair `(c, t)` is in the transition table, whatever the other fields, the
hardware state and the library behaviour are. -/
theorem C1_transition_table (env : Env) (w : World) (c t : SystemStatus)
    (hc : w.sys.currentStatus = c.toInt) :
    (SystemState.transitionTo env t.toInt w).1 = true ↔ tableAllows c t := by
  unfold SystemState.transitionTo
  rw [hc]
  cases c <;> cases t <;> simp [SystemState.transitionRejected, SystemStatus.toInt, tableAllows]

/-- C1 applied: from ERROR the target RECOVERING is accepted. -/
theorem C1_transition_table_witness :
    ((SystemState.transitionTo reliableEnv SystemStatus.RECOVERING.toInt
        { mountedReadyWorld with sys := { mountedReadyWorld.sys with currentStatus := SystemStatus.ERROR.toInt } }).1
      = true ↔ tableAllows .ERROR .RECOVERING) :=
  C1_transition_table reliableEnv _ .ERROR .RECOVERING rfl

/-- C2: when `transitionTo` returns false the whole world, in particular every field of the
state machine and the persisted state file, is what it was before the call. -/
theorem C2_rejected_transition_changes_nothing (env : Env) (w : World) (t : Int)
    (h : (SystemState.transitionTo env t w).1 = false) :
    (SystemState.transitionTo env t w).2 = w
    ∧ fsRead (SystemState.transitionTo env t w).2.hw.spiffsFiles STATE_FILE = fsRead w.hw.spiffsFiles STATE_FILE
    ∧ (SystemState.transitionTo env t w).2.hw.spiffsOpenCalls = w.hw.spiffsOpenCalls := by
  unfold SystemState.transitionTo at h ⊢
  split at h
  · rename_i hr
    simp [hr]
  · simp at h

/-- C2 applied: READY to RECOVERING is rejected and nothing changes. -/
theorem C2_rejected_transition_witness :
    (SystemState.transitionTo reliableEnv SystemStatus.RECOVERING.toInt mountedReadyWorld).1 = false
    ∧ (SystemState.transitionTo reliableEnv SystemStatus.RECOVERING.toInt mountedReadyWorld).2 = mountedReadyWorld :=
  ⟨by decide,
   (C2_rejected_transition_changes_nothing reliableEnv mountedReadyWorld SystemStatus.RECOVERING.toInt
      (by decide)).1⟩

/-- C3: a flush that returns failure leaves the pending-record buffer element for element
as it was, and does not change the flush counter or the last-flush time; the same holds
for `forceFlushBuffer`, which then fails as well. -/
theorem C3_failed_flush_keeps_buffer (env : Env) (w : World)
    (h : (DataLogger.flushBufferToSD env w).1 = false) :
    (DataLogger.flushBufferToSD env w).2.log.dataBuffer = w.log.dataBuffer
    ∧ (DataLogger.flushBufferToSD env w).2.log.bufferFlushCount = w.log.bufferFlushCount
    ∧ (DataLogger.flushBufferToSD env w).2.log.lastBufferFlush = w.log.lastBufferFlush
    ∧ (DataLogger.forceFlushBuffer env w).1 = false
    ∧ (DataLogger.forceFlushBuffer env w).2.log.dataBuffer = w.log.dataBuffer
    ∧ (DataLogger.forceFlushBuffer env w).2.log.bufferFlushCount = w.log.bufferFlushCount
    ∧ (DataLogger.forceFlushBuffer env w).2.log.lastBufferFlush = w.log.lastBufferFlush := by
  have hb : w.log.dataBuffer ≠ [] := by
    intro h0
    rw [flush_nil env w h0] at h
    simp at h
  obtain ⟨hl, _, _, _⟩ := flush_false env w h
  rw [forceFlush_eq env w hb]
  simp [h, hl, SystemState.incrementFailedWrites]

/-- C3 applied: two pending records and a card on which the file cannot be opened. -/
theorem C3_failed_flush_witness :
    (DataLogger.flushBufferToSD openFailsEnv pendingWorld).1 = false
    ∧ (DataLogger.flushBufferToSD openFailsEnv pendingWorld).2.log.dataBuffer = ["1000,a", "2000,b"] :=
  ⟨by decide, (C3_failed_flush_keeps_buffer openFailsEnv pendingWorld (by decide)).1⟩

/-- C4 (as amended): for a non-empty buffer and an open current file, when every library
call of every append succeeds, the flush returns true, the file holds its former content
followed by the buffered records, one line each in buffer order, the buffer is empty, the
flush counter is one higher modulo 2^32 (exactly one higher unless it was 4294967295, from
where it wraps to 0) and the last-flush time is the current time.  The recovery point is
then written through SPIFFS: when SPIFFS opens the file it holds the time of the last
write, the state machine's file name, the write counter (raised by the number of records,
modulo 2^32) and the current time; when SPIFFS refuses, the recovery point file stays as
it was and the flush still returns true. -/
theorem C4_successful_flush (env : Env) (w : World)
    (hb : w.log.dataBuffer ≠ [])
    (hopen : w.log.fileOpen = true) (hfile : w.log.currentLogFile ≠ "")
    (hI : w.sd.sdInitialized = true)
    (hB : ∀ i, i < w.log.dataBuffer.length → env.sdBegin (w.hw.sdBeginCalls + i) = true)
    (hO : ∀ i, i < w.log.dataBuffer.length → env.sdOpen (w.hw.sdOpenCalls + i) = true)
    (hW : ∀ i, i < w.log.dataBuffer.length → env.sdWrite (w.hw.sdWriteCalls + i) = true) :
    (DataLogger.flushBufferToSD env w).1 = true
    ∧ fileContent (DataLogger.flushBufferToSD env w).2.hw.sdFiles w.log.currentLogFile
        = appendLines (fileContent w.hw.sdFiles w.log.currentLogFile) w.log.dataBuffer
    ∧ (DataLogger.flushBufferToSD env w).2.log.dataBuffer = []
    ∧ (DataLogger.flushBufferToSD env w).2.log.bufferFlushCount
        = (w.log.bufferFlushCount + 1) % U32
    ∧ (w.log.bufferFlushCount + 1 < U32 →
        (DataLogger.flushBufferToSD env w).2.log.bufferFlushCount = w.log.bufferFlushCount + 1)
    ∧ (DataLogger.flushBufferToSD env w).2.log.lastBufferFlush = millis w
    ∧ (env.spiffsOpen w.hw.spiffsOpenCalls = true →
        fsRead (DataLogger.flushBufferToSD env w).2.hw.spiffsFiles RECOVERY_FILE
          = some (recoveryText (millis w) w.sys.currentLogFile
              ((w.sys.totalWrites + w.log.dataBuffer.length) % U32) (millis w)))
    ∧ (env.spiffsOpen w.hw.spiffsOpenCalls = false →
        fsRead (DataLogger.flushBufferToSD env w).2.hw.spiffsFiles RECOVERY_FILE
          = fsRead w.hw.spiffsFiles RECOVERY_FILE) := by
  have hL := flushLoop_true_of_env env w.log.currentLogFile w.log.dataBuffer w hI hB hO hW
  have ht : (DataLogger.flushBufferToSD env w).1 = true :=
    (flush_true_iff env w hb).2 ⟨hopen, hfile, hL⟩
  obtain ⟨f1, _, _, _, f5, _, f7, f8⟩ := flush_true_facts env w hb ht
  refine ⟨ht, f5, by rw [f1], by rw [f1], ?_, by rw [f1], ?_, f8⟩
  · intro hlt
    rw [f1]
    exact Nat.mod_eq_of_lt hlt
  · intro hS
    rw [(f7 hS).2, join_recoveryLines]

/-- C4 applied: two pending records on a board that never fails. -/
theorem C4_successful_flush_witness :
    (DataLogger.flushBufferToSD reliableEnv pendingWorld).1 = true
    ∧ fileContent (DataLogger.flushBufferToSD reliableEnv pendingWorld).2.hw.sdFiles "/logs/log_0_0.csv"
        = "timestamp,flow_rate,temperature,pressure\n1000,a\r\n2000,b\r\n"
    ∧ (DataLogger.flushBufferToSD reliableEnv pendingWorld).2.log.bufferFlushCount = 1 :=
  ⟨(C4_successful_flush reliableEnv pendingWorld (by decide) (by decide) (by decide) (by decide)
      (fun _ _ => rfl) (fun _ _ => rfl) (fun _ _ => rfl)).1,
   by decide,
   (C4_successful_flush reliableEnv pendingWorld (by decide) (by decide) (by decide) (by decide)
      (fun _ _ => rfl) (fun _ _ => rfl) (fun _ _ => rfl)).2.2.2.2.1 (by decide)⟩

/-- C4 as stated fails in two ways.  With SPIFFS refusing to open files every append
succeeds, the flush returns true and the log file holds both records, yet no recovery
point exists.  And the flush counter is an `unsigned long`: on a board that never fails, a
successful flush at the counter value 4294967295 leaves the counter at 0, not one higher. -/
theorem C4_counterexample_no_recovery_point :
    pendingWorld.log.dataBuffer = ["1000,a", "2000,b"]
    ∧ pendingWorld.log.fileOpen = true
    ∧ (DataLogger.flushBufferToSD spiffsDownEnv pendingWorld).1 = true
    ∧ fileContent (DataLogger.flushBufferToSD spiffsDownEnv pendingWorld).2.hw.sdFiles "/logs/log_0_0.csv"
        = "timestamp,flow_rate,temperature,pressure\n1000,a\r\n2000,b\r\n"
    ∧ (DataLogger.flushBufferToSD spiffsDownEnv pendingWorld).2.log.dataBuffer = []
    ∧ fsRead (DataLogger.flushBufferToSD spiffsDownEnv pendingWorld).2.hw.spiffsFiles RECOVERY_FILE
        = none
    ∧ flushesAtMaxWorld.log.bufferFlushCount = 4294967295
    ∧ (DataLogger.flushBufferToSD reliableEnv flushesAtMaxWorld).1 = true
    ∧ (DataLogger.flushBufferToSD reliableEnv flushesAtMaxWorld).2.log.bufferFlushCount = 0 := by
  decide

/-- C5 (as amended): after a forced flush of a non-empty buffer succeeds the buffer size is
0 and the state machine's `totalWrites` has grown by the number of flushed records modulo
2^32 (by exactly that number when the sum stays below 2^32).  When SPIFFS opens the
recovery point file, the `totalWrites` stored there is that counter of successful card
writes (header writes included); when SPIFFS refuses, the recovery point file stays as it
was. -/
theorem C5_forced_flush_recovery_point (env : Env) (w : World)
    (hb : w.log.dataBuffer ≠ [])
    (h : (DataLogger.forceFlushBuffer env w).1 = true) :
    (DataLogger.forceFlushBuffer env w).2.log.dataBuffer.length = 0
    ∧ (DataLogger.forceFlushBuffer env w).2.sys.totalWrites
        = (w.sys.totalWrites + w.log.dataBuffer.length) % U32
    ∧ (w.sys.totalWrites + w.log.dataBuffer.length < U32 →
        (DataLogger.forceFlushBuffer env w).2.sys.totalWrites
          = w.sys.totalWrites + w.log.dataBuffer.length)
    ∧ (env.spiffsOpen w.hw.spiffsOpenCalls = true →
        fsRead (DataLogger.forceFlushBuffer env w).2.hw.spiffsFiles RECOVERY_FILE
          = some (recoveryText (millis w) w.sys.currentLogFile
              (DataLogger.forceFlushBuffer env w).2.sys.totalWrites (millis w)))
    ∧ (env.spiffsOpen w.hw.spiffsOpenCalls = false →
        fsRead (DataLogger.forceFlushBuffer env w).2.hw.spiffsFiles RECOVERY_FILE
          = fsRead w.hw.spiffsFiles RECOVERY_FILE) := by
  rw [forceFlush_eq env w hb] at h ⊢
  cases ht : (DataLogger.flushBufferToSD env w).1 with
  | false => simp [ht] at h
  | true =>
    simp only [if_true]
    obtain ⟨f1, _, _, _, _, f6, f7, f8⟩ := flush_true_facts env w hb ht
    refine ⟨by rw [f1]; rfl, f6, fun hlt => f6.trans (Nat.mod_eq_of_lt hlt), ?_, f8⟩
    intro hS
    rw [(f7 hS).2, join_recoveryLines, f6]

/-- C5 applied: the forced flush of the one pending record of `afterOneRecord`. -/
theorem C5_forced_flush_witness :
    (DataLogger.forceFlushBuffer reliableEnv afterOneRecord).2.log.dataBuffer.length = 0
    ∧ (DataLogger.forceFlushBuffer reliableEnv afterOneRecord).2.sys.totalWrites = 2
    ∧ fsRead (DataLogger.forceFlushBuffer reliableEnv afterOneRecord).2.hw.spiffsFiles RECOVERY_FILE
        = some "lastWriteTime=1000\r\ncurrentLogFile=/logs/log_0_0.csv\r\ntotalWrites=2\r\ntimestamp=1000\r\n" :=
  ⟨(C5_forced_flush_recovery_point reliableEnv afterOneRecord (by decide) (by decide)).1,
   ((C5_forced_flush_recovery_point reliableEnv afterOneRecord (by decide) (by decide)).2.2.1
      (by decide)).trans (by decide),
   ((C5_forced_flush_recovery_point reliableEnv afterOneRecord (by decide) (by decide)).2.2.2.1
      rfl).trans (by decide)⟩

/-- C5 as stated fails: after `initialize` and one accepted record, the forced flush
succeeds and empties the buffer, and the recovery point stores `totalWrites=2` (the header
write and the record), while `logData` accepted one record and the engine's own total,
`totalDataLogged`, is the 6 bytes of that record.  The stored counter is an
`unsigned long`: from 4294967295, loaded from a state file, the forced flush of two
records stores `totalWrites=1`. -/
theorem C5_counterexample_total_writes :
    (DataLogger.initializeLogger reliableEnv mountedReadyWorld).1 = true
    ∧ afterOneRecord.log.dataBuffer = ["1000,x"]
    ∧ afterOneRecord.ghost.recordsAccepted = 1
    ∧ (DataLogger.forceFlushBuffer reliableEnv afterOneRecord).1 = true
    ∧ (DataLogger.forceFlushBuffer reliableEnv afterOneRecord).2.log.dataBuffer.length = 0
    ∧ fsRead (DataLogger.forceFlushBuffer reliableEnv afterOneRecord).2.hw.spiffsFiles RECOVERY_FILE
        = some "lastWriteTime=1000\r\ncurrentLogFile=/logs/log_0_0.csv\r\ntotalWrites=2\r\ntimestamp=1000\r\n"
    ∧ (DataLogger.forceFlushBuffer reliableEnv afterOneRecord).2.ghost.recordsAccepted = 1
    ∧ (DataLogger.forceFlushBuffer reliableEnv afterOneRecord).2.log.totalDataLogged = 6
    ∧ countersAtMaxWorld.sys.totalWrites = 4294967295
    ∧ countersAtMaxWorld.log.dataBuffer = ["1000,a", "2000,b"]
    ∧ (DataLogger.forceFlushBuffer reliableEnv countersAtMaxWorld).1 = true
    ∧ fsRead (DataLogger.forceFlushBuffer reliableEnv countersAtMaxWorld).2.hw.spiffsFiles RECOVERY_FILE
        = some "lastWriteTime=2000\r\ncurrentLogFile=/logs/log_0_0.csv\r\ntotalWrites=1\r\ntimestamp=2000\r\n" := by
  decide

/-- C10: with an empty buffer `flushBufferToSD` and `forceFlushBuffer` return true and
leave the whole world as it was, whatever the status, the mount state and the file are. -/
theorem C10_empty_flush_is_noop (env : Env) (w : World) (h : w.log.dataBuffer = []) :
    DataLogger.flushBufferToSD env w = (true, w)
    ∧ DataLogger.forceFlushBuffer env w = (true, w) := by
  simp [DataLogger.flushBufferToSD, DataLogger.forceFlushBuffer, h]

/-- C10 applied: no file open, card not mounted, status ERROR. -/
theorem C10_empty_flush_witness :
    DataLogger.flushBufferToSD openFailsEnv
        { powerOnWorld with sys := { powerOnWorld.sys with currentStatus := SystemStatus.ERROR.toInt } }
      = (true, { powerOnWorld with sys := { powerOnWorld.sys with currentStatus := SystemStatus.ERROR.toInt } })
    ∧ DataLogger.forceFlushBuffer openFailsEnv
        { powerOnWorld with sys := { powerOnWorld.sys with currentStatus := SystemStatus.ERROR.toInt } }
      = (true, { powerOnWorld with sys := { powerOnWorld.sys with currentStatus := SystemStatus.ERROR.toInt } }) :=
  C10_empty_flush_is_noop openFailsEnv _ rfl

/-- C9: when a flush of the buffer fails at record `k+1` after the first `k` appends
succeeded, the buffer is kept whole, and when the next flush succeeds the log file holds
its former content, then the first `k` records, then all records of the buffer: the first
`k` records are in the file twice and every record at least once. -/
theorem C9_retry_duplicates_written_records (env : Env) (w : World) (k : Nat)
    (hk : k < w.log.dataBuffer.length)
    (hopen : w.log.fileOpen = true) (hfile : w.log.currentLogFile ≠ "")
    (hfirst : (DataLogger.flushLoop env w.log.currentLogFile (w.log.dataBuffer.take k) w).1 = true)
    (hfail : (SDManager.appendData env (w.log.dataBuffer.get ⟨k, hk⟩) w.log.currentLogFile
        (DataLogger.flushLoop env w.log.currentLogFile (w.log.dataBuffer.take k) w).2).1 = false)
    (hretry : (DataLogger.flushBufferToSD env (DataLogger.flushBufferToSD env w).2).1 = true) :
    (DataLogger.flushBufferToSD env w).1 = false
    ∧ (DataLogger.flushBufferToSD env w).2.log.dataBuffer = w.log.dataBuffer
    ∧ fileContent (DataLogger.flushBufferToSD env w).2.hw.sdFiles w.log.currentLogFile
        = appendLines (fileContent w.hw.sdFiles w.log.currentLogFile) (w.log.dataBuffer.take k)
    ∧ fileContent (DataLogger.flushBufferToSD env (DataLogger.flushBufferToSD env w).2).2.hw.sdFiles
          w.log.currentLogFile
        = appendLines (fileContent w.hw.sdFiles w.log.currentLogFile)
            (w.log.dataBuffer.take k ++ w.log.dataBuffer) := by
  have hb : w.log.dataBuffer ≠ [] := by
    intro h0; rw [h0] at hk; simp at hk
  have hsplit : w.log.dataBuffer
      = w.log.dataBuffer.take k ++ w.log.dataBuffer.get ⟨k, hk⟩ :: w.log.dataBuffer.drop (k + 1) := by
    rw [List.get_eq_getElem, ← List.drop_eq_getElem_cons hk, List.take_append_drop]
  have hloop : DataLogger.flushLoop env w.log.currentLogFile w.log.dataBuffer w
      = (false, SystemState.logError env ("Failed to append data to: " ++ w.log.currentLogFile)
          (SDManager.appendData env (w.log.dataBuffer.get ⟨k, hk⟩) w.log.currentLogFile
            (DataLogger.flushLoop env w.log.currentLogFile (w.log.dataBuffer.take k) w).2).2) := by
    conv_lhs => rw [hsplit]
    rw [flushLoop_append, hfirst, if_pos rfl, flushLoop_cons, hfail]
    rfl
  have h1 : (DataLogger.flushBufferToSD env w).1 = false := by
    cases ht : (DataLogger.flushBufferToSD env w).1 with
    | false => rfl
    | true =>
      have := ((flush_true_iff env w hb).1 ht).2.2
      rw [hloop] at this
      simp at this
  obtain ⟨hl, _, _, _⟩ := flush_false env w h1
  have hc1 : fileContent (DataLogger.flushBufferToSD env w).2.hw.sdFiles w.log.currentLogFile
      = appendLines (fileContent w.hw.sdFiles w.log.currentLogFile) (w.log.dataBuffer.take k) := by
    have he : (DataLogger.flushBufferToSD env w).2
        = noteFlushFailure (DataLogger.flushLoop env w.log.currentLogFile w.log.dataBuffer w).2 := by
      unfold DataLogger.flushBufferToSD
      simp [hb, hopen, hfile, hloop]
    rw [he, hloop]
    show fileContent (SystemState.logError env _ _).hw.sdFiles _ = _
    rw [logError_sdFiles, appendData_fail_content env _ _ _ hfail]
    exact (flushLoop_ok env _ _ w hfirst).2
  have hb2 : (DataLogger.flushBufferToSD env w).2.log.dataBuffer ≠ [] := by rw [hl]; exact hb
  obtain ⟨_, _, _, _, f5, _, _, _⟩ := flush_true_facts env _ hb2 hretry
  rw [hl] at f5
  refine ⟨h1, by rw [hl], hc1, ?_⟩
  rw [f5, hc1, appendLines_append]

/-- C9 applied: the second `println` fails, so the first flush writes one of the two pending
records; the retry writes both, and the first record is in the file twice. -/
theorem C9_retry_duplicates_witness :
    (DataLogger.flushBufferToSD secondWriteFailsEnv pendingWorld).1 = false
    ∧ fileContent (DataLogger.flushBufferToSD secondWriteFailsEnv
          (DataLogger.flushBufferToSD secondWriteFailsEnv pendingWorld).2).2.hw.sdFiles "/logs/log_0_0.csv"
        = "timestamp,flow_rate,temperature,pressure\n1000,a\r\n1000,a\r\n2000,b\r\n" :=
  ⟨(C9_retry_duplicates_written_records secondWriteFailsEnv pendingWorld 1 (by decide) (by decide)
      (by decide) (by decide) (by decide) (by decide)).1,
   by decide⟩

/-- C8 (as amended): an accepted `logData` call that brings the buffer to its capacity
raises the overflow counter by one modulo 2^32 (by exactly one unless the counter was
4294967295, from where it wraps to 0) and makes exactly one flush over a non-empty buffer,
whether that flush succeeds (the call returns true, the buffer is empty) or fails (the
call returns false, the buffer keeps the new record and the failed-write counter is one
higher modulo 2^32). -/
theorem C8_overflow_counted_once (env : Env) (d : String) (w : World)
    (hready : (DataLogger.isSystemReady env w).1 = true)
    (hint : ¬ subU32 (millis w) w.log.lastLogTime < w.log.logInterval)
    (hcap : capacity w ≤ w.log.dataBuffer.length + 1) :
    (DataLogger.logData env d w).2.log.bufferOverflows = (w.log.bufferOverflows + 1) % U32
    ∧ (w.log.bufferOverflows + 1 < U32 →
        (DataLogger.logData env d w).2.log.bufferOverflows = w.log.bufferOverflows + 1)
    ∧ (DataLogger.logData env d w).2.ghost.flushAttempts = w.ghost.flushAttempts + 1
    ∧ (DataLogger.logData env d w).2.ghost.recordsAccepted = w.ghost.recordsAccepted + 1
    ∧ ((DataLogger.logData env d w).1 = true → (DataLogger.logData env d w).2.log.dataBuffer = [])
    ∧ ((DataLogger.logData env d w).1 = false →
        (DataLogger.logData env d w).2.log.dataBuffer = w.log.dataBuffer ++ [storedRecord w d]
        ∧ (DataLogger.logData env d w).2.sys.failedWrites = (w.sys.failedWrites + 1) % U32
        ∧ (DataLogger.logData env d w).2.ghost.flushFailures = w.ghost.flushFailures + 1) := by
  have key : ∀ x : Nat, x = (w.log.bufferOverflows + 1) % U32 →
      w.log.bufferOverflows + 1 < U32 → x = w.log.bufferOverflows + 1 :=
    fun x hx hlt => hx.trans (Nat.mod_eq_of_lt hlt)
  have hs := isSystemReady_same env w
  rw [logData_accepted env d w hready hint]
  simp only [hcap, if_true]
  generalize hR : (DataLogger.isSystemReady env w).2 = R at hs
  have hb : (DataLogger.countOverflow (DataLogger.pushRecord d R)).log.dataBuffer ≠ [] := by
    simp [DataLogger.countOverflow, pushRecord_log]
  unfold DataLogger.flushCounted
  simp only []
  cases ht : (DataLogger.flushBufferToSD env (DataLogger.countOverflow (DataLogger.pushRecord d R))).1 with
  | true =>
    obtain ⟨f1, f2, f3, _⟩ := flush_true_facts env _ hb ht
    have hm : millis (DataLogger.flushBufferToSD env
        (DataLogger.countOverflow (DataLogger.pushRecord d R))).2
          = millis (DataLogger.countOverflow (DataLogger.pushRecord d R)) := by
      simp only [millis, f3]
    have hlast : (DataLogger.flushBufferToSD env
        (DataLogger.countOverflow (DataLogger.pushRecord d R))).2.log.lastBufferFlush
          = millis (DataLogger.countOverflow (DataLogger.pushRecord d R)) := by rw [f1]
    have hno : ¬ BUFFER_FLUSH_INTERVAL < 0 := by decide
    simp only [Bool.not_true, Bool.false_eq_true, if_false, ht, hm, hlast, subU32_self, hno]
    refine ⟨?_, ?_, ?_, ?_, ?_, ?_⟩
    · rw [f1]; simp [DataLogger.countOverflow, pushRecord_log, hs.log]
    · refine key _ ?_
      rw [f1]; simp [DataLogger.countOverflow, pushRecord_log, hs.log]
    · rw [f2]; simp [DataLogger.countOverflow, pushRecord_ghost, hs.ghost]
    · rw [f2]; simp [DataLogger.countOverflow, pushRecord_ghost, hs.ghost]
    · intro _; rw [f1]
    · intro h; simp at h
  | false =>
    obtain ⟨f1, f2, _, _, f5, _⟩ := flush_false env _ ht
    have hsys : (DataLogger.flushBufferToSD env
        (DataLogger.countOverflow (DataLogger.pushRecord d R))).2.sys.failedWrites
          = w.sys.failedWrites := by
      rw [f5]
      show R.sys.failedWrites = _
      exact hs.failed
    simp only [Bool.not_false, if_true, ht]
    refine ⟨?_, ?_, ?_, ?_, ?_, ?_⟩
    · show (DataLogger.flushBufferToSD env _).2.log.bufferOverflows = _
      rw [f1]; simp [DataLogger.countOverflow, pushRecord_log, hs.log]
    · refine key _ ?_
      show (DataLogger.flushBufferToSD env _).2.log.bufferOverflows = _
      rw [f1]; simp [DataLogger.countOverflow, pushRecord_log, hs.log]
    · show (DataLogger.flushBufferToSD env _).2.ghost.flushAttempts = _
      rw [f2]; simp [DataLogger.countOverflow, pushRecord_ghost, hs.ghost]
    · show (DataLogger.flushBufferToSD env _).2.ghost.recordsAccepted = _
      rw [f2]; simp [DataLogger.countOverflow, pushRecord_ghost, hs.ghost]
    · intro h; simp at h
    · intro _
      refine ⟨?_, ?_, ?_⟩
      · show (DataLogger.flushBufferToSD env _).2.log.dataBuffer = _
        rw [f1]; simp [DataLogger.countOverflow, pushRecord_log, hs.log, storedRecord_same hs]
      · show ((DataLogger.flushBufferToSD env _).2.sys.failedWrites + 1) % U32 = _
        rw [hsys]
      · show (DataLogger.flushBufferToSD env _).2.ghost.flushFailures = _
        rw [f2]; simp [DataLogger.countOverflow, pushRecord_ghost, hs.ghost]

/-- C8 applied: capacity 1 and a card on which the log file cannot be reopened.  The first
record overflows the buffer, the one flush fails, the overflow is counted. -/
theorem C8_overflow_counted_witness :
    (DataLogger.logData firstOpenOnlyEnv "a"
        (advanceClock 1000 (DataLogger.initializeLogger firstOpenOnlyEnv capacityOneWorld).2)).1 = false
    ∧ (DataLogger.logData firstOpenOnlyEnv "a"
        (advanceClock 1000 (DataLogger.initializeLogger firstOpenOnlyEnv capacityOneWorld).2)).2.log.bufferOverflows
      = 0 + 1 :=
  ⟨by decide,
   (C8_overflow_counted_once firstOpenOnlyEnv "a"
      (advanceClock 1000 (DataLogger.initializeLogger firstOpenOnlyEnv capacityOneWorld).2)
      (by decide) (by decide) (by decide)).2.1 (by decide)⟩

/-- C8 as stated fails: the overflow counter is an `unsigned long`.  With capacity 1 and
the counter at 4294967295, an accepted `logData` call on a board that never fails fills
the buffer, makes its one flush, returns true, and leaves the counter at 0, not one
higher. -/
theorem C8_counterexample_overflow_counter_wraps :
    overflowsAtMaxWorld.log.bufferOverflows = 4294967295
    ∧ capacity overflowsAtMaxWorld = 1
    ∧ overflowsAtMaxWorld.log.dataBuffer = []
    ∧ (DataLogger.logData reliableEnv "a" overflowsAtMaxWorld).1 = true
    ∧ (DataLogger.logData reliableEnv "a" overflowsAtMaxWorld).2.ghost.recordsAccepted
        = overflowsAtMaxWorld.ghost.recordsAccepted + 1
    ∧ (DataLogger.logData reliableEnv "a" overflowsAtMaxWorld).2.ghost.flushAttempts
        = overflowsAtMaxWorld.ghost.flushAttempts + 1
    ∧ (DataLogger.logData reliableEnv "a" overflowsAtMaxWorld).2.log.bufferOverflows = 0 := by
  decide

/-- C6 as stated fails: with capacity 1 and a card on which the log file cannot be reopened,
`initialize` succeeds, the flush forced by the first accepted record fails, and after the
second accepted record the buffer holds two records. -/
theorem C6_counterexample_buffer_exceeds_capacity :
    (DataLogger.initializeLogger firstOpenOnlyEnv capacityOneWorld).1 = true
    ∧ capacity (DataLogger.initializeLogger firstOpenOnlyEnv capacityOneWorld).2 = 1
    ∧ (runOps firstOpenOnlyEnv [.tick 1000, .logData "a", .tick 1000, .logData "b"]
        (DataLogger.initializeLogger firstOpenOnlyEnv capacityOneWorld).2).log.dataBuffer
      = ["1000,a", "2000,b"]
    ∧ ¬ (runOps firstOpenOnlyEnv [.tick 1000, .logData "a", .tick 1000, .logData "b"]
        (DataLogger.initializeLogger firstOpenOnlyEnv capacityOneWorld).2).log.dataBuffer.length
          ≤ capacity (DataLogger.initializeLogger firstOpenOnlyEnv capacityOneWorld).2 := by
  decide

/-- C6 (as amended): in every state reached from a call of `initialize` with capacity at least 1 by
`logData`, `update`, `forceFlushBuffer`, `switchLogFile`, `performMaintenance` and the
passing of time, the capacity is unchanged and the buffer holds fewer records than the
capacity plus the number of flushes that failed since `initialize`; so as long as no flush
has failed the buffer size is below the capacity. -/
theorem C6_buffer_bound (env : Env) (w0 : World) (ops : List LogOp)
    (hcap : 1 ≤ capacity w0) :
    capacity (runOps env ops (DataLogger.initializeLogger env w0).2) = capacity w0
    ∧ (DataLogger.initializeLogger env w0).2.ghost.flushFailures
        ≤ (runOps env ops (DataLogger.initializeLogger env w0).2).ghost.flushFailures
    ∧ (runOps env ops (DataLogger.initializeLogger env w0).2).log.dataBuffer.length
          + (DataLogger.initializeLogger env w0).2.ghost.flushFailures
        < capacity w0 + (runOps env ops (DataLogger.initializeLogger env w0).2).ghost.flushFailures
    ∧ ((runOps env ops (DataLogger.initializeLogger env w0).2).ghost.flushFailures
          = (DataLogger.initializeLogger env w0).2.ghost.flushFailures →
        (runOps env ops (DataLogger.initializeLogger env w0).2).log.dataBuffer.length < capacity w0) := by
  obtain ⟨hb, hm, _⟩ := initializeLogger_buffer env w0
  have hc1 : capacity (DataLogger.initializeLogger env w0).2 = capacity w0 := by
    unfold capacity; rw [hm]
  have h1 : bufferBounded (DataLogger.initializeLogger env w0).2.ghost.flushFailures
      (DataLogger.initializeLogger env w0).2 := by
    unfold bufferBounded
    rw [hb, hc1]
    simp only [List.length_nil]
    omega
  obtain ⟨h2, c2⟩ := runOps_bounded env ops _ _ (by rw [hc1]; exact hcap) h1
  rw [hc1] at c2
  unfold bufferBounded at h2
  rw [c2] at h2
  refine ⟨c2, h2.1, h2.2, ?_⟩
  intro he
  have := h2.2
  omega

/-- C6 applied: after `initialize` on a board that never fails, one accepted record. -/
theorem C6_buffer_bound_witness :
    capacity (runOps reliableEnv [.tick 1000, .logData "x"]
        (DataLogger.initializeLogger reliableEnv mountedReadyWorld).2) = 1000
    ∧ (runOps reliableEnv [.tick 1000, .logData "x"]
        (DataLogger.initializeLogger reliableEnv mountedReadyWorld).2).log.dataBuffer.length = 1 :=
  ⟨(C6_buffer_bound reliableEnv mountedReadyWorld [.tick 1000, .logData "x"] (by decide)).1,
   by decide⟩

/-- C7: starting from an empty buffer, after a run of `N` calls of `logData`, with `N` below
the capacity, each of which finds the engine ready, arrives when the minimum interval has
elapsed and comes before the flush interval has run out, the buffer holds exactly the `N`
stored records (each text behind the clock reading of its call when time stamps are
enabled) in call order. -/
theorem C7_accepted_records_are_buffered (env : Env) (run : List (Nat × String)) (w : World)
    (hempty : w.log.dataBuffer = [])
    (hN : run.length < capacity w)
    (hacc : acceptedRun env run w = true) :
    (logRun env run w).log.dataBuffer = expectedRecords w.log.enableTimestamps w.hw.now run
    ∧ (logRun env run w).log.dataBuffer.length = run.length := by
  have h := logRun_buffer env run w (by rw [hempty]; simpa using hN) hacc
  rw [hempty, List.nil_append] at h
  exact ⟨h, by rw [h, expectedRecords_length]⟩

/-- C7 applied: three records logged after `initialize`, at 1000, 2000 and 3500 ms. -/
theorem C7_accepted_records_witness :
    (logRun reliableEnv [(1000, "a"), (1000, "b"), (1500, "c")]
        (DataLogger.initializeLogger reliableEnv mountedReadyWorld).2).log.dataBuffer
      = ["1000,a", "2000,b", "3500,c"] :=
  (C7_accepted_records_are_buffered reliableEnv [(1000, "a"), (1000, "b"), (1500, "c")]
      (DataLogger.initializeLogger reliableEnv mountedReadyWorld).2
      (by decide) (by decide) (by decide)).1.trans (by decide)

/-- C11: `isSystemReady` returns true exactly when the status is READY, LOGGING or
RECOVERING, the call of `isMounted` made at that moment returns true (the initialised flag
is set and the library call `SD.begin` succeeds now), and the current file name is not
empty.  The call stores nothing: it leaves the state machine, the storage manager and the
engine as they were, so every call computes the answer from the current values. -/
theorem C11_readiness_predicate (env : Env) (w : World) :
    ((DataLogger.isSystemReady env w).1 = true
      ↔ ((w.sys.currentStatus = SystemStatus.READY.toInt
            ∨ w.sys.currentStatus = SystemStatus.LOGGING.toInt
            ∨ w.sys.currentStatus = SystemStatus.RECOVERING.toInt)
          ∧ (SDManager.isMounted env w).1 = true
          ∧ w.log.currentLogFile ≠ ""))
    ∧ ((SDManager.isMounted env w).1 = true
      ↔ (w.sd.sdInitialized = true ∧ env.sdBegin w.hw.sdBeginCalls = true))
    ∧ (DataLogger.isSystemReady env w).2.sys = w.sys
    ∧ (DataLogger.isSystemReady env w).2.sd = w.sd
    ∧ (DataLogger.isSystemReady env w).2.log = w.log := by
  refine ⟨isSystemReady_true_iff env w, isMounted_true_iff env w, ?_, ?_, ?_⟩ <;>
    rcases isSystemReady_world env w with h | h <;> rw [h]

/-- C12: a `logData` call that finds the engine not ready, or that arrives before the
minimum interval has elapsed, returns false and leaves the engine (buffer, byte total,
last-log time, overflow and flush counters), the state machine (failed-write counter, last
error), the storage manager, the card files and the SPIFFS files as they were. -/
theorem C12_rejected_logData_changes_nothing (env : Env) (d : String) (w : World)
    (h : (DataLogger.isSystemReady env w).1 = false
      ∨ subU32 (millis w) w.log.lastLogTime < w.log.logInterval) :
    (DataLogger.logData env d w).1 = false
    ∧ (DataLogger.logData env d w).2.log = w.log
    ∧ (DataLogger.logData env d w).2.sys = w.sys
    ∧ (DataLogger.logData env d w).2.sd = w.sd
    ∧ (DataLogger.logData env d w).2.ghost = w.ghost
    ∧ (DataLogger.logData env d w).2.hw.sdFiles = w.hw.sdFiles
    ∧ (DataLogger.logData env d w).2.hw.spiffsFiles = w.hw.spiffsFiles := by
  have hs := isSystemReady_same env w
  have hw := isSystemReady_world env w
  have hrej : DataLogger.logData env d w = (false, (DataLogger.isSystemReady env w).2) := by
    unfold DataLogger.logData
    cases hr : (DataLogger.isSystemReady env w).1 with
    | false => simp [hr]
    | true =>
      rcases h with h | h
      · rw [hr] at h; simp at h
      · simp [hr, hs.millis_eq, hs.log, h]
  rw [hrej]
  refine ⟨rfl, ?_, ?_, ?_, ?_, ?_, ?_⟩ <;> rcases hw with hw | hw <;> simp only [hw]

/-- C12 applied: a call 400 ms after `initialize`, with the minimum interval at 1000 ms. -/
theorem C12_rejected_logData_witness :
    (DataLogger.logData reliableEnv "x"
        (advanceClock 400 (DataLogger.initializeLogger reliableEnv mountedReadyWorld).2)).1 = false
    ∧ (DataLogger.logData reliableEnv "x"
        (advanceClock 400 (DataLogger.initializeLogger reliableEnv mountedReadyWorld).2)).2.log.dataBuffer = [] :=
  ⟨(C12_rejected_logData_changes_nothing reliableEnv "x"
      (advanceClock 400 (DataLogger.initializeLogger reliableEnv mountedReadyWorld).2)
      (Or.inr (by decide))).1,
   by decide⟩

/-- C13 (as amended): auto-resume is enabled, the card is mounted, the state machine holds
a non-empty file name `F`, the file `F` exists and the library opens it for reading.  If
the first line of `F` contains "timestamp" or "flow_rate", `initialize` succeeds with `F`
as current file, and it creates no file and writes nothing to the card.  If the first line
contains neither, `initialize` goes on to `createNewLogFile`: it succeeds exactly when the
library calls of that creation succeed, and then the current file is the newly generated
name, a file that holds the header only. -/
theorem C13_resume_or_create (env : Env) (w : World) (content : String)
    (hauto : w.log.autoResume = true)
    (hname : w.sys.currentLogFile ≠ "")
    (hinit : w.sd.sdInitialized = true)
    (hbegin : env.sdBegin w.hw.sdBeginCalls = true)
    (hexists : fsRead w.hw.sdFiles w.sys.currentLogFile = some content)
    (hopen : env.sdOpen w.hw.sdOpenCalls = true) :
    ((containsText (firstLine content) "timestamp" = true
        ∨ containsText (firstLine content) "flow_rate" = true) →
      (DataLogger.initializeLogger env w).1 = true
      ∧ (DataLogger.initializeLogger env w).2.log.currentLogFile = w.sys.currentLogFile
      ∧ (DataLogger.initializeLogger env w).2.log.fileOpen = true
      ∧ (DataLogger.initializeLogger env w).2.hw.sdFiles = w.hw.sdFiles
      ∧ (DataLogger.initializeLogger env w).2.hw.sdDirs = w.hw.sdDirs
      ∧ (DataLogger.initializeLogger env w).2.hw.sdWriteCalls = w.hw.sdWriteCalls
      ∧ (DataLogger.initializeLogger env w).2.sys.totalWrites = w.sys.totalWrites)
    ∧ ((containsText (firstLine content) "timestamp" = false
        ∧ containsText (firstLine content) "flow_rate" = false) →
      ((DataLogger.initializeLogger env w).1 = true
        ↔ (env.sdBegin (w.hw.sdBeginCalls + 1) = true ∧ env.sdOpen (w.hw.sdOpenCalls + 1) = true
            ∧ env.sdWrite w.hw.sdWriteCalls = true))
      ∧ ((DataLogger.initializeLogger env w).1 = true →
          (DataLogger.initializeLogger env w).2.log.currentLogFile
              = SDManager.generateTimestampedFilename w
          ∧ (DataLogger.initializeLogger env w).2.log.fileOpen = true
          ∧ fsRead (DataLogger.initializeLogger env w).2.hw.sdFiles
              (SDManager.generateTimestampedFilename w) = some LOG_HEADER)) := by
  have hex : fsExists w.hw.sdFiles w.sys.currentLogFile = true := by
    simp [fsExists, hexists]
  constructor
  · intro hgood
    have hv : (containsText (firstLine content) "timestamp"
        || containsText (firstLine content) "flow_rate") = true := by
      rcases hgood with h | h <;> simp [h]
    simp [DataLogger.initializeLogger, DataLogger.initializeBuffer, DataLogger.resumeOrCreate,
      DataLogger.attemptResumeLogging, DataLogger.validateLogFile, SDManager.isMounted, sdBegin,
      sdExists, sdOpenRead, SystemState.setLoggingActive, hauto, hname, hinit, hbegin, hexists,
      hopen, hex, hv]
  · rintro ⟨h1, h2⟩
    have hresume : DataLogger.resumeOrCreate env (DataLogger.initializeBuffer w).2
        = DataLogger.createNewLogFile env
            { w with
              log := { w.log with dataBuffer := [] },
              hw := { w.hw with sdBeginCalls := w.hw.sdBeginCalls + 1,
                                sdOpenCalls := w.hw.sdOpenCalls + 1 } } := by
      simp [DataLogger.initializeBuffer, DataLogger.resumeOrCreate,
        DataLogger.attemptResumeLogging, DataLogger.validateLogFile, SDManager.isMounted, sdBegin,
        sdExists, sdOpenRead, hauto, hname, hinit, hbegin, hexists, hopen, hex, h1, h2]
    obtain ⟨hiff, hok⟩ := createNewLogFile_result env
      { w with
        log := { w.log with dataBuffer := [] },
        hw := { w.hw with sdBeginCalls := w.hw.sdBeginCalls + 1,
                          sdOpenCalls := w.hw.sdOpenCalls + 1 } }
    have hinitEq : (DataLogger.initializeLogger env w).1
        = (DataLogger.createNewLogFile env
            { w with
              log := { w.log with dataBuffer := [] },
              hw := { w.hw with sdBeginCalls := w.hw.sdBeginCalls + 1,
                                sdOpenCalls := w.hw.sdOpenCalls + 1 } }).1 := by
      unfold DataLogger.initializeLogger
      simp only [hresume]
      cases (DataLogger.createNewLogFile env _).1 <;> simp [DataLogger.initializeBuffer]
    constructor
    · rw [hinitEq, hiff]
      simp [hinit]
    · intro hsucc
      rw [hinitEq] at hsucc
      obtain ⟨g1, g2, _, g4⟩ := hok hsucc
      have hw2 : (DataLogger.initializeLogger env w).2.log.currentLogFile
            = (DataLogger.createNewLogFile env
              { w with
                log := { w.log with dataBuffer := [] },
                hw := { w.hw with sdBeginCalls := w.hw.sdBeginCalls + 1,
                                  sdOpenCalls := w.hw.sdOpenCalls + 1 } }).2.log.currentLogFile
          ∧ (DataLogger.initializeLogger env w).2.log.fileOpen
            = (DataLogger.createNewLogFile env
              { w with
                log := { w.log with dataBuffer := [] },
                hw := { w.hw with sdBeginCalls := w.hw.sdBeginCalls + 1,
                                  sdOpenCalls := w.hw.sdOpenCalls + 1 } }).2.log.fileOpen
          ∧ (DataLogger.initializeLogger env w).2.hw.sdFiles
            = (DataLogger.createNewLogFile env
              { w with
                log := { w.log with dataBuffer := [] },
                hw := { w.hw with sdBeginCalls := w.hw.sdBeginCalls + 1,
                                  sdOpenCalls := w.hw.sdOpenCalls + 1 } }).2.hw.sdFiles := by
        unfold DataLogger.initializeLogger
        simp only [hresume]
        simp [DataLogger.initializeBuffer, hsucc]
      rw [hw2.1, hw2.2.1, hw2.2.2, g1, g2]
      exact ⟨rfl, rfl, g4⟩

/-- C13 applied: the file of the earlier run starts with the header and is resumed. -/
theorem C13_resume_witness :
    (DataLogger.initializeLogger reliableEnv resumableWorld).1 = true
    ∧ (DataLogger.initializeLogger reliableEnv resumableWorld).2.log.currentLogFile = "/logs/old.csv" :=
  ⟨((C13_resume_or_create reliableEnv resumableWorld
        "timestamp,flow_rate,temperature,pressure\n5,1\r\n"
        (by decide) (by decide) (by decide) (by decide) (by decide) (by decide)).1
      (Or.inl (by decide))).1,
   by decide⟩

/-- C13 as stated fails: auto-resume is enabled, the card is mounted, the file `F` of the
state machine exists and its first line is the header, but the library fails to open it for
reading.  `initialize` then creates a new file, writes its header to the card and makes it
the current file; `F` is not resumed. -/
theorem C13_counterexample_unreadable_file :
    resumableWorld.log.autoResume = true
    ∧ (SDManager.isMounted firstOpenFailsEnv resumableWorld).1 = true
    ∧ resumableWorld.sys.currentLogFile = "/logs/old.csv"
    ∧ fsRead resumableWorld.hw.sdFiles "/logs/old.csv"
        = some "timestamp,flow_rate,temperature,pressure\n5,1\r\n"
    ∧ containsText (firstLine "timestamp,flow_rate,temperature,pressure\n5,1\r\n") "timestamp" = true
    ∧ (DataLogger.initializeLogger firstOpenFailsEnv resumableWorld).1 = true
    ∧ (DataLogger.initializeLogger firstOpenFailsEnv resumableWorld).2.log.currentLogFile
        = "/logs/log_7_0.csv"
    ∧ (DataLogger.initializeLogger firstOpenFailsEnv resumableWorld).2.hw.sdWriteCalls = 1
    ∧ fsRead (DataLogger.initializeLogger firstOpenFailsEnv resumableWorld).2.hw.sdFiles
        "/logs/log_7_0.csv" = some "timestamp,flow_rate,temperature,pressure\n" := by
  decide

/-- C14 (as amended): when the library refuses every `SD.begin`, `mount` returns false
after exactly three attempts in its retry loop, made in the order attempt, delay of
5000 ms, attempt, delay of 5000 ms, attempt; before the loop the check `isMounted` makes
one more `SD.begin` call when the initialised flag was set.  Afterwards `isMounted` returns
false without asking the library. -/
theorem C14_mount_refused (env : Env) (w : World)
    (href : ∀ i, env.sdBegin (w.hw.sdBeginCalls + i) = false) :
    (SDManager.mount env w).1 = false
    ∧ SDManager.mountLoop env MAX_MOUNT_ATTEMPTS (SDManager.isMounted env w).2
        = (false, SDManager.refusedAttempt env (delay MOUNT_RETRY_DELAY
            (SDManager.refusedAttempt env (delay MOUNT_RETRY_DELAY
              (SDManager.refusedAttempt env (SDManager.isMounted env w).2)))))
    ∧ (SDManager.mount env w).2.hw.sdBeginCalls
        = w.hw.sdBeginCalls + (if w.sd.sdInitialized then 1 else 0) + MAX_MOUNT_ATTEMPTS
    ∧ (SDManager.mount env w).2.hw.delays = MOUNT_RETRY_DELAY :: MOUNT_RETRY_DELAY :: w.hw.delays
    ∧ (SDManager.mount env w).2.hw.now = w.hw.now + 2 * MOUNT_RETRY_DELAY
    ∧ SDManager.isMounted env (SDManager.mount env w).2 = (false, (SDManager.mount env w).2) := by
  have hm : (SDManager.isMounted env w).1 = false := by
    have := href 0
    cases hI : w.sd.sdInitialized <;> simp_all [SDManager.isMounted, sdBegin]
  have hcalls : (SDManager.isMounted env w).2.hw.sdBeginCalls
      = w.hw.sdBeginCalls + (if w.sd.sdInitialized then 1 else 0) := by
    cases hI : w.sd.sdInitialized <;> simp [SDManager.isMounted, sdBegin, hI]
  have hdel : (SDManager.isMounted env w).2.hw.delays = w.hw.delays
      ∧ (SDManager.isMounted env w).2.hw.now = w.hw.now := by
    cases hI : w.sd.sdInitialized <;> simp [SDManager.isMounted, sdBegin, hI]
  have hloop := mountLoop_refused env (SDManager.isMounted env w).2
    (by rw [hcalls]; split
        · exact href 1
        · exact href 0)
    (by rw [hcalls]; split
        · exact href 2
        · exact href 1)
    (by rw [hcalls]; split
        · exact href 3
        · exact href 2)
  have hmount : SDManager.mount env w
      = (false, SystemState.logError env MOUNT_FAILED_TEXT
          (SDManager.setLastError MOUNT_FAILED_TEXT
            (SystemState.setSDCardMounted false
              { (SDManager.mountLoop env MAX_MOUNT_ATTEMPTS (SDManager.isMounted env w).2).2 with
                sd := { (SDManager.mountLoop env MAX_MOUNT_ATTEMPTS
                          (SDManager.isMounted env w).2).2.sd with sdInitialized := false } }))) := by
    unfold SDManager.mount
    simp only [hm, Bool.false_eq_true, if_false]
    rw [hloop]
    simp
  obtain ⟨c1, c2, c3, c4⟩ := logError_card env MOUNT_FAILED_TEXT
    (SDManager.setLastError MOUNT_FAILED_TEXT
      (SystemState.setSDCardMounted false
        { (SDManager.mountLoop env MAX_MOUNT_ATTEMPTS (SDManager.isMounted env w).2).2 with
          sd := { (SDManager.mountLoop env MAX_MOUNT_ATTEMPTS
                    (SDManager.isMounted env w).2).2.sd with sdInitialized := false } }))
  refine ⟨by rw [hmount], hloop, ?_, ?_, ?_, ?_⟩
  · rw [hmount]
    simp only []
    rw [c1, hloop]
    simp [SDManager.setLastError, SystemState.setSDCardMounted, SDManager.refusedAttempt, sdBegin,
      delay, hcalls, MAX_MOUNT_ATTEMPTS]
  · rw [hmount]
    simp only []
    rw [c2, hloop]
    simp [SDManager.setLastError, SystemState.setSDCardMounted, SDManager.refusedAttempt, sdBegin,
      delay, hdel.1]
  · rw [hmount]
    simp only []
    rw [c3, hloop]
    simp [SDManager.setLastError, SystemState.setSDCardMounted, SDManager.refusedAttempt, sdBegin,
      delay, hdel.2]
    omega
  · have hsd : (SDManager.mount env w).2.sd.sdInitialized = false := by
      rw [hmount]
      simp only []
      rw [c4]
      rfl
    unfold SDManager.isMounted
    simp [hsd]

/-- C14 applied: a board just powered on, with no card that answers. -/
theorem C14_mount_refused_witness :
    (SDManager.mount noCardEnv powerOnWorld).1 = false
    ∧ (SDManager.mount noCardEnv powerOnWorld).2.hw.sdBeginCalls = 3
    ∧ (SDManager.mount noCardEnv powerOnWorld).2.hw.delays = [5000, 5000] :=
  ⟨(C14_mount_refused noCardEnv powerOnWorld (fun _ => rfl)).1, by decide, by decide⟩

/-- C14 as stated fails for a storage manager whose initialised flag is set: with the
library refusing every `SD.begin`, `mount` makes four calls of it, one in the check
`isMounted` and three in the retry loop. -/
theorem C14_counterexample_four_backend_calls :
    cardPulledWorld.sd.sdInitialized = true
    ∧ cardPulledWorld.hw.sdBeginCalls = 0
    ∧ (SDManager.mount noCardEnv cardPulledWorld).1 = false
    ∧ (SDManager.mount noCardEnv cardPulledWorld).2.hw.sdBeginCalls = 4
    ∧ (SDManager.mount noCardEnv cardPulledWorld).2.hw.delays = [5000, 5000] := by
  decide

/-- C15: when `mount` returns false, which it does only after its attempts are exhausted,
the storage manager's last error is the non-empty text "Failed to mount SD card after 3
attempts", the state machine has been told that the card is not mounted (and has logged the
same error), and the operational status is what it was before the call. -/
theorem C15_mount_failure_leaves_status (env : Env) (w : World)
    (h : (SDManager.mount env w).1 = false) :
    (SDManager.mount env w).2.sd.lastError = "Failed to mount SD card after 3 attempts"
    ∧ (SDManager.mount env w).2.sd.lastError ≠ ""
    ∧ (SDManager.mount env w).2.sd.sdInitialized = false
    ∧ (SDManager.mount env w).2.sys.sdCardMounted = false
    ∧ (SDManager.mount env w).2.sys.lastError = "Failed to mount SD card after 3 attempts"
    ∧ (SDManager.mount env w).2.sys.currentStatus = w.sys.currentStatus := by
  have hst : (SDManager.mountLoop env MAX_MOUNT_ATTEMPTS (SDManager.isMounted env w).2).2.sys.currentStatus
      = w.sys.currentStatus := by
    rw [mountLoop_status, (isMounted_same env w).status]
  have htext : MOUNT_FAILED_TEXT = "Failed to mount SD card after 3 attempts" := by decide
  revert h
  unfold SDManager.mount
  simp only []
  split
  · intro h; simp at h
  · split
    · intro h; simp at h
    · intro _
      simp only []
      rw [logError_sys, (logError_card env _ _).2.2.2]
      simp [SDManager.setLastError, SystemState.setSDCardMounted, hst, htext]

/-- C15 applied: a board just powered on, with no card that answers. -/
theorem C15_mount_failure_witness :
    (SDManager.mount noCardEnv powerOnWorld).2.sd.lastError = "Failed to mount SD card after 3 attempts"
    ∧ (SDManager.mount noCardEnv powerOnWorld).2.sys.currentStatus = SystemStatus.INITIALIZING.toInt :=
  ⟨(C15_mount_failure_leaves_status noCardEnv powerOnWorld (by decide)).1, by decide⟩

/-- C17 (as amended): `incrementWrites` and `incrementFailedWrites` raise their counter by
one modulo 2^32 (by exactly one unless the counter was 4294967295, from where it wraps to
0) and touch nothing else, in particular not the persisted state record: the record keeps
the counters of the last `saveState`.  The new value reaches the record with the next
`saveState` (made by `transitionTo`, `setCurrentLogFile` or `logError`) that SPIFFS
accepts. -/
theorem C17_counters_change_memory_only (env : Env) (w : World) :
    (SystemState.incrementWrites w).sys
        = { w.sys with totalWrites := (w.sys.totalWrites + 1) % U32 }
    ∧ (SystemState.incrementFailedWrites w).sys
        = { w.sys with failedWrites := (w.sys.failedWrites + 1) % U32 }
    ∧ (w.sys.totalWrites + 1 < U32 →
        (SystemState.incrementWrites w).sys.totalWrites = w.sys.totalWrites + 1)
    ∧ (w.sys.failedWrites + 1 < U32 →
        (SystemState.incrementFailedWrites w).sys.failedWrites = w.sys.failedWrites + 1)
    ∧ (SystemState.incrementWrites w).hw = w.hw
    ∧ (SystemState.incrementFailedWrites w).hw = w.hw
    ∧ (env.spiffsOpen w.hw.spiffsOpenCalls = true →
        fsRead (SystemState.saveState env (SystemState.incrementWrites w)).hw.spiffsFiles STATE_FILE
            = some (stateText { w.sys with totalWrites := (w.sys.totalWrites + 1) % U32 })
        ∧ fsRead (SystemState.saveState env (SystemState.incrementFailedWrites w)).hw.spiffsFiles
              STATE_FILE
            = some (stateText { w.sys with failedWrites := (w.sys.failedWrites + 1) % U32 })) := by
  refine ⟨rfl, rfl, fun h => Nat.mod_eq_of_lt h, fun h => Nat.mod_eq_of_lt h, rfl, rfl, ?_⟩
  intro h
  exact ⟨(saveState_record env (SystemState.incrementWrites w)).2.2.2.2.1 h,
    (saveState_record env (SystemState.incrementFailedWrites w)).2.2.2.2.1 h⟩

/-- C17 applied: on a board just powered on, the `saveState` that follows
`incrementWrites` writes `totalWrites=1`. -/
theorem C17_counters_witness :
    (SystemState.incrementWrites powerOnWorld).sys.totalWrites = 1
    ∧ fsRead (SystemState.saveState reliableEnv (SystemState.incrementWrites powerOnWorld)).hw.spiffsFiles
        STATE_FILE
      = some "status=0\r\nlastWriteTime=0\r\nstartTime=0\r\ncurrentLogFile=\r\nsdMounted=0\r\nloggingActive=0\r\ntotalWrites=1\r\nfailedWrites=0\r\nlastError=\r\n" :=
  ⟨(C17_counters_change_memory_only reliableEnv powerOnWorld).2.2.1 (by decide),
   (((C17_counters_change_memory_only reliableEnv powerOnWorld).2.2.2.2.2.2 (by decide)).1).trans
     (by decide)⟩

/-- C17 as stated fails in two ways.  After a `saveState` the record equals the state in
memory; after `incrementWrites` and `incrementFailedWrites` the counters in memory are 1
while the record still says `totalWrites=0` and `failedWrites=0`.  And the counters are
`unsigned long`: with both at 4294967295, as `loadState` leaves them for a state file that
stores `-1`, each increment leaves its counter at 0, smaller than before. -/
theorem C17_counterexample_stale_record :
    fsRead (SystemState.saveState reliableEnv powerOnWorld).hw.spiffsFiles STATE_FILE
        = some (stateText (SystemState.saveState reliableEnv powerOnWorld).sys)
    ∧ (SystemState.incrementFailedWrites (SystemState.incrementWrites
        (SystemState.saveState reliableEnv powerOnWorld))).sys.totalWrites = 1
    ∧ (SystemState.incrementFailedWrites (SystemState.incrementWrites
        (SystemState.saveState reliableEnv powerOnWorld))).sys.failedWrites = 1
    ∧ fsRead (SystemState.incrementFailedWrites (SystemState.incrementWrites
        (SystemState.saveState reliableEnv powerOnWorld))).hw.spiffsFiles STATE_FILE
        = some "status=0\r\nlastWriteTime=0\r\nstartTime=0\r\ncurrentLogFile=\r\nsdMounted=0\r\nloggingActive=0\r\ntotalWrites=0\r\nfailedWrites=0\r\nlastError=\r\n"
    ∧ fsRead (SystemState.incrementFailedWrites (SystemState.incrementWrites
        (SystemState.saveState reliableEnv powerOnWorld))).hw.spiffsFiles STATE_FILE
        ≠ some (stateText (SystemState.incrementFailedWrites (SystemState.incrementWrites
            (SystemState.saveState reliableEnv powerOnWorld))).sys)
    ∧ countersAtMaxWorld.sys.totalWrites = 4294967295
    ∧ countersAtMaxWorld.sys.failedWrites = 4294967295
    ∧ (SystemState.incrementWrites countersAtMaxWorld).sys.totalWrites = 0
    ∧ (SystemState.incrementFailedWrites countersAtMaxWorld).sys.failedWrites = 0 := by
  decide

/-- C18 (as amended): after `transitionTo` returns true the status equals the target and
every other field of the state machine, the storage manager and the engine is unchanged.
The state record is written through SPIFFS: when SPIFFS opens the state file, the record
holds the nine fields with their values after the call; when SPIFFS refuses, the files are
left as they were and `transitionTo` still returns true. -/
theorem C18_accepted_transition (env : Env) (w : World) (t : Int)
    (h : (SystemState.transitionTo env t w).1 = true) :
    (SystemState.transitionTo env t w).2.sys = { w.sys with currentStatus := t }
    ∧ (SystemState.transitionTo env t w).2.sd = w.sd
    ∧ (SystemState.transitionTo env t w).2.log = w.log
    ∧ (env.spiffsOpen w.hw.spiffsOpenCalls = true →
        fsRead (SystemState.transitionTo env t w).2.hw.spiffsFiles STATE_FILE
          = some (stateText { w.sys with currentStatus := t }))
    ∧ (env.spiffsOpen w.hw.spiffsOpenCalls = false →
        (SystemState.transitionTo env t w).2.hw.spiffsFiles = w.hw.spiffsFiles) := by
  have he : (SystemState.transitionTo env t w).2
      = SystemState.saveState env { w with sys := { w.sys with currentStatus := t } } := by
    unfold SystemState.transitionTo at h ⊢
    split
    · rename_i hr
      simp [hr] at h
    · rfl
  obtain ⟨r1, r2, r3, _, r5, r6⟩ :=
    saveState_record env { w with sys := { w.sys with currentStatus := t } }
  rw [he]
  exact ⟨r1, r2, r3, r5, r6⟩

/-- C18 applied: READY to LOGGING on a board that never fails. -/
theorem C18_accepted_transition_witness :
    (SystemState.transitionTo reliableEnv SystemStatus.LOGGING.toInt mountedReadyWorld).2.sys.currentStatus
        = SystemStatus.LOGGING.toInt
    ∧ fsRead (SystemState.transitionTo reliableEnv SystemStatus.LOGGING.toInt
          mountedReadyWorld).2.hw.spiffsFiles STATE_FILE
        = some "status=2\r\nlastWriteTime=0\r\nstartTime=0\r\ncurrentLogFile=\r\nsdMounted=1\r\nloggingActive=0\r\ntotalWrites=0\r\nfailedWrites=0\r\nlastError=\r\n" :=
  ⟨congrArg SystemState.currentStatus
      (C18_accepted_transition reliableEnv mountedReadyWorld SystemStatus.LOGGING.toInt (by decide)).1,
   by decide⟩

/-- C18 as stated fails: with SPIFFS refusing to open files, READY to LOGGING returns
true and the status in memory is LOGGING, but no state record has been written. -/
theorem C18_counterexample_nothing_persisted :
    (SystemState.transitionTo spiffsDownEnv SystemStatus.LOGGING.toInt mountedReadyWorld).1 = true
    ∧ (SystemState.transitionTo spiffsDownEnv SystemStatus.LOGGING.toInt
          mountedReadyWorld).2.sys.currentStatus = SystemStatus.LOGGING.toInt
    ∧ fsRead (SystemState.transitionTo spiffsDownEnv SystemStatus.LOGGING.toInt
          mountedReadyWorld).2.hw.spiffsFiles STATE_FILE = none := by
  decide

/-- C19 fails on the code: with the status INITIALIZING and a recovery point that has a
`currentLogFile` line, `attemptRecovery` reads the point, calls `transitionTo(RECOVERING)`
without reading its result, and returns true; the transition table rejects the target from
INITIALIZING, so the status after the call is INITIALIZING, not RECOVERING. -/
theorem C19_recovery_without_transition :
    recoveryPointWorld.sys.currentStatus = SystemStatus.INITIALIZING.toInt
    ∧ (SystemState.attemptRecovery reliableEnv recoveryPointWorld).1 = true
    ∧ (SystemState.attemptRecovery reliableEnv recoveryPointWorld).2.sys.currentLogFile
        = "/logs/log_0_0.csv"
    ∧ (SystemState.attemptRecovery reliableEnv recoveryPointWorld).2.sys.totalWrites = 2
    ∧ (SystemState.transitionTo reliableEnv SystemStatus.RECOVERING.toInt recoveryPointWorld).1 = false
    ∧ (SystemState.attemptRecovery reliableEnv recoveryPointWorld).2.sys.currentStatus
        = SystemStatus.INITIALIZING.toInt
    ∧ (SystemState.attemptRecovery reliableEnv recoveryPointWorld).2.sys.currentStatus
        ≠ SystemStatus.RECOVERING.toInt := by
  decide

/-- C20: after `initialize` of the state machine returns true the status is one of the
seven enumerators: the status in memory after loading when that lies in the range of the
enumeration, INITIALIZING otherwise; and `totalWrites`, `failedWrites` and
`lastGoodWriteTime` are zero.  The status after loading is the one the lines of the state
file give, when the file exists and SPIFFS opens it. -/
theorem C20_initialize_resets_state (env : Env) (w : World)
    (h : (SystemState.initializeState env w).1 = true) :
    (∃ s : SystemStatus, (SystemState.initializeState env w).2.sys.currentStatus = s.toInt)
    ∧ (SystemState.initializeState env w).2.sys.currentStatus
        = (if 0 ≤ (SystemState.loadState env (spiffsBegin env w).2).sys.currentStatus
              ∧ (SystemState.loadState env (spiffsBegin env w).2).sys.currentStatus ≤ 6
            then (SystemState.loadState env (spiffsBegin env w).2).sys.currentStatus
            else SystemStatus.INITIALIZING.toInt)
    ∧ (SystemState.initializeState env w).2.sys.totalWrites = 0
    ∧ (SystemState.initializeState env w).2.sys.failedWrites = 0
    ∧ (SystemState.initializeState env w).2.sys.lastGoodWriteTime = 0
    ∧ (∀ content, env.spiffsOpen w.hw.spiffsOpenCalls = true →
        fsRead w.hw.spiffsFiles STATE_FILE = some content →
        (SystemState.loadState env (spiffsBegin env w).2).sys.currentStatus
          = ((readLines content).foldl SystemState.applyStateLine w.sys).currentStatus) := by
  have hb : (spiffsBegin env w).1 = true := by
    cases hc : (spiffsBegin env w).1 with
    | true => rfl
    | false => simp [SystemState.initializeState, hc] at h
  generalize hL : (SystemState.loadState env (spiffsBegin env w).2) = L
  have hst : (SystemState.initializeState env w).2.sys.currentStatus
      = (if 0 ≤ L.sys.currentStatus ∧ L.sys.currentStatus ≤ 6 then L.sys.currentStatus
          else SystemStatus.INITIALIZING.toInt) := by
    unfold SystemState.initializeState
    simp only [hb, hL, Bool.not_true, Bool.false_eq_true, if_false]
    by_cases hr : 0 ≤ L.sys.currentStatus ∧ L.sys.currentStatus ≤ 6
    · have : SystemState.checkIntegrity L = true := by
        unfold SystemState.checkIntegrity
        simp only [SystemStatus.toInt]
        rw [if_neg (by omega)]
        split <;> rfl
      simp [this, hr]
    · have : SystemState.checkIntegrity L = false := by
        unfold SystemState.checkIntegrity
        simp only [SystemStatus.toInt]
        rw [if_pos (by omega)]
      simp [this, hr]
  refine ⟨?_, hst, ?_, ?_, ?_, ?_⟩
  · rw [hst]
    by_cases hr : 0 ≤ L.sys.currentStatus ∧ L.sys.currentStatus ≤ 6
    · rw [if_pos hr]
      obtain ⟨h0, h6⟩ := hr
      generalize L.sys.currentStatus = x at h0 h6
      interval_cases x
      · exact ⟨.INITIALIZING, rfl⟩
      · exact ⟨.READY, rfl⟩
      · exact ⟨.LOGGING, rfl⟩
      · exact ⟨.ERROR, rfl⟩
      · exact ⟨.RECOVERING, rfl⟩
      · exact ⟨.SD_MOUNT_FAILED, rfl⟩
      · exact ⟨.FILESYSTEM_ERROR, rfl⟩
    · rw [if_neg hr]
      exact ⟨.INITIALIZING, rfl⟩
  · unfold SystemState.initializeState
    simp [hb]
  · unfold SystemState.initializeState
    simp [hb]
  · unfold SystemState.initializeState
    simp [hb]
  · intro content ho hf
    rw [← hL]
    simp [SystemState.loadState, SystemState.loadStateFromSPIFFS, spiffsOpenRead, spiffsBegin, ho, hf]

/-- C20 applied: a state file with `status=9` and non-zero counters. -/
theorem C20_initialize_resets_state_witness :
    (SystemState.initializeState reliableEnv staleStateWorld).2.sys.totalWrites = 0
    ∧ (SystemState.loadState reliableEnv (spiffsBegin reliableEnv staleStateWorld).2).sys.currentStatus = 9
    ∧ (SystemState.loadState reliableEnv (spiffsBegin reliableEnv staleStateWorld).2).sys.totalWrites = 5
    ∧ (SystemState.initializeState reliableEnv staleStateWorld).2.sys.currentStatus
        = SystemStatus.INITIALIZING.toInt :=
  ⟨(C20_initialize_resets_state reliableEnv staleStateWorld (by decide)).2.2.1,
   by decide, by decide, by decide⟩

/-- C16 fails on the code: on a first boot (no state file) with a card that refuses every
`SD.begin`, the state machine starts up with status INITIALIZING, storage start-up fails,
`RobustLogger::initialize` calls `transitionTo(SD_MOUNT_FAILED)` without reading its result
and returns false; the transition table rejects that target from INITIALIZING, so the
status afterwards is INITIALIZING, neither ERROR nor STORAGE_MOUNT_FAILED. -/
theorem C16_first_boot_status_stays_initializing :
    (SystemState.initializeState noCardEnv powerOnWorld).1 = true
    ∧ (SDManager.initializeManager noCardEnv
        (SystemState.initializeState noCardEnv powerOnWorld).2).1 = false
    ∧ (RobustLogger.initializeRobust noCardEnv powerOnWorld).1 = false
    ∧ (RobustLogger.initializeRobust noCardEnv powerOnWorld).2.sys.currentStatus
        = SystemStatus.INITIALIZING.toInt
    ∧ (RobustLogger.initializeRobust noCardEnv powerOnWorld).2.sys.currentStatus
        ≠ SystemStatus.ERROR.toInt
    ∧ (RobustLogger.initializeRobust noCardEnv powerOnWorld).2.sys.currentStatus
        ≠ SystemStatus.SD_MOUNT_FAILED.toInt := by
  decide

/-- C21 (as amended): when SPIFFS has started and the state file is missing or cannot be
opened, `initialize` of the state machine returns true; the status is kept when it lies in
the enumeration and reset to INITIALIZING otherwise, the start time is the clock reading, the
two counters and the last write time are zero, and the other fields are untouched, so a
state machine fresh from its constructor holds the defaults (status INITIALIZING, counters
zero, empty file name and error).  When SPIFFS does not start, `initialize` returns false
and leaves the state as it was. -/
theorem C21_initialize_without_state_file (env : Env) (w : World) :
    (env.spiffsBegin w.hw.spiffsBeginCalls = false →
        (SystemState.initializeState env w).1 = false
        ∧ (SystemState.initializeState env w).2.sys = w.sys)
    ∧ (env.spiffsBegin w.hw.spiffsBeginCalls = true →
        (fsRead w.hw.spiffsFiles STATE_FILE = none ∨ env.spiffsOpen w.hw.spiffsOpenCalls = false) →
        (SystemState.initializeState env w).1 = true
        ∧ (SystemState.initializeState env w).2.sys
            = { w.sys with
                currentStatus := if 0 ≤ w.sys.currentStatus ∧ w.sys.currentStatus ≤ 6
                  then w.sys.currentStatus else SystemStatus.INITIALIZING.toInt,
                systemStartTime := millis w, lastGoodWriteTime := 0, totalWrites := 0,
                failedWrites := 0 }
        ∧ (w.sys = powerOnWorld.sys →
            (SystemState.initializeState env w).2.sys.currentStatus = SystemStatus.INITIALIZING.toInt
            ∧ (SystemState.initializeState env w).2.sys.totalWrites = 0
            ∧ (SystemState.initializeState env w).2.sys.failedWrites = 0
            ∧ (SystemState.initializeState env w).2.sys.currentLogFile = ""
            ∧ (SystemState.initializeState env w).2.sys.lastError = "")) := by
  constructor
  · intro hb
    simp [SystemState.initializeState, spiffsBegin, hb]
  · intro hb hu
    have hl := loadState_unreadable env (spiffsBegin env w).2 (by simpa [spiffsBegin] using hu)
    have hm : millis (spiffsBegin env w).2 = millis w := rfl
    have hs : (spiffsBegin env w).2.sys = w.sys := rfl
    have hsys : (SystemState.initializeState env w).2.sys
            = { w.sys with
                currentStatus := if 0 ≤ w.sys.currentStatus ∧ w.sys.currentStatus ≤ 6
                  then w.sys.currentStatus else SystemStatus.INITIALIZING.toInt,
                systemStartTime := millis w, lastGoodWriteTime := 0, totalWrites := 0,
                failedWrites := 0 } := by
      unfold SystemState.initializeState
      have hb1 : (spiffsBegin env w).1 = true := hb
      simp only [hb1, Bool.not_true, Bool.false_eq_true, if_false]
      by_cases hr : 0 ≤ w.sys.currentStatus ∧ w.sys.currentStatus ≤ 6
      · have hc : SystemState.checkIntegrity (SystemState.loadState env (spiffsBegin env w).2) = true := by
          unfold SystemState.checkIntegrity
          rw [hl.2.1, hs]
          simp only [SystemStatus.toInt]
          rw [if_neg (by omega)]
          split <;> rfl
        simp [hc, hr, hl.2.1, hl.2.2, hs, hm]
      · have hc : SystemState.checkIntegrity (SystemState.loadState env (spiffsBegin env w).2) = false := by
          unfold SystemState.checkIntegrity
          rw [hl.2.1, hs]
          simp only [SystemStatus.toInt]
          rw [if_pos (by omega)]
        simp [hc, hr, hl.2.1, hl.2.2, hs, hm]
        exact hl.2.2.trans hm
    refine ⟨by simp [SystemState.initializeState, spiffsBegin, hb], hsys, ?_⟩
    intro hd
    rw [hsys, hd]
    simp [powerOnWorld, SystemStatus.toInt]

/-- C21 applied: a board just powered on, with empty SPIFFS. -/
theorem C21_initialize_witness :
    (SystemState.initializeState reliableEnv powerOnWorld).1 = true
    ∧ (SystemState.initializeState reliableEnv powerOnWorld).2.sys.currentStatus
        = SystemStatus.INITIALIZING.toInt :=
  ⟨((C21_initialize_without_state_file reliableEnv powerOnWorld).2 (by decide)
      (Or.inl (by decide))).1,
   (((C21_initialize_without_state_file reliableEnv powerOnWorld).2 (by decide)
      (Or.inl (by decide))).2.2 rfl).1⟩

/-- C21 as stated fails: when `SPIFFS.begin` fails, `initialize` of the state machine
returns false; the state is still the one the constructor made. -/
theorem C21_counterexample_spiffs_not_started :
    (SystemState.initializeState spiffsDeadEnv powerOnWorld).1 = false
    ∧ (SystemState.initializeState spiffsDeadEnv powerOnWorld).2.sys = powerOnWorld.sys := by
  decide

/-- C23 (as amended): a `writeData` or `appendData` call that returns true has raised
`totalWrites` by one modulo 2^32 (by exactly one unless the counter was 4294967295, from
where it wraps to 0) and set `lastGoodWriteTime` to the clock reading of the call, with one
open and one write on the card; a call that returns false leaves `totalWrites` and
`lastGoodWriteTime` as they were and has made at most one open and at most one write on the
card.  The clock does not move during the call. -/
theorem C23_single_write_outcomes (env : Env) (data filename : String) (w : World) :
    (((SDManager.writeData env data filename w).1 = true →
        (SDManager.writeData env data filename w).2.sys.totalWrites = (w.sys.totalWrites + 1) % U32
        ∧ (SDManager.writeData env data filename w).2.sys.lastGoodWriteTime = millis w
        ∧ (SDManager.writeData env data filename w).2.hw.sdOpenCalls = w.hw.sdOpenCalls + 1
        ∧ (SDManager.writeData env data filename w).2.hw.sdWriteCalls = w.hw.sdWriteCalls + 1)
      ∧ ((SDManager.writeData env data filename w).1 = false →
        (SDManager.writeData env data filename w).2.sys.totalWrites = w.sys.totalWrites
        ∧ (SDManager.writeData env data filename w).2.sys.lastGoodWriteTime = w.sys.lastGoodWriteTime
        ∧ (SDManager.writeData env data filename w).2.hw.sdOpenCalls ≤ w.hw.sdOpenCalls + 1
        ∧ (SDManager.writeData env data filename w).2.hw.sdWriteCalls ≤ w.hw.sdWriteCalls + 1)
      ∧ (SDManager.writeData env data filename w).2.hw.now = w.hw.now)
    ∧ (((SDManager.appendData env data filename w).1 = true →
        (SDManager.appendData env data filename w).2.sys.totalWrites = (w.sys.totalWrites + 1) % U32
        ∧ (SDManager.appendData env data filename w).2.sys.lastGoodWriteTime = millis w
        ∧ (SDManager.appendData env data filename w).2.hw.sdOpenCalls = w.hw.sdOpenCalls + 1
        ∧ (SDManager.appendData env data filename w).2.hw.sdWriteCalls = w.hw.sdWriteCalls + 1)
      ∧ ((SDManager.appendData env data filename w).1 = false →
        (SDManager.appendData env data filename w).2.sys.totalWrites = w.sys.totalWrites
        ∧ (SDManager.appendData env data filename w).2.sys.lastGoodWriteTime = w.sys.lastGoodWriteTime
        ∧ (SDManager.appendData env data filename w).2.hw.sdOpenCalls ≤ w.hw.sdOpenCalls + 1
        ∧ (SDManager.appendData env data filename w).2.hw.sdWriteCalls ≤ w.hw.sdWriteCalls + 1)
      ∧ (SDManager.appendData env data filename w).2.hw.now = w.hw.now)
    ∧ ((SDManager.writeData env data filename w).1 = true → w.sys.totalWrites + 1 < U32 →
        (SDManager.writeData env data filename w).2.sys.totalWrites = w.sys.totalWrites + 1)
    ∧ ((SDManager.appendData env data filename w).1 = true → w.sys.totalWrites + 1 < U32 →
        (SDManager.appendData env data filename w).2.sys.totalWrites = w.sys.totalWrites + 1) :=
  ⟨writeData_cases env data filename w, appendData_cases env data filename w,
   fun h hlt => ((writeData_cases env data filename w).1 h).1.trans (Nat.mod_eq_of_lt hlt),
   fun h hlt => ((appendData_cases env data filename w).1 h).1.trans (Nat.mod_eq_of_lt hlt)⟩

/-- C23 applied: one record appended on a board that never fails, and the same append on a
card that opens no file. -/
theorem C23_single_write_witness :
    (SDManager.appendData reliableEnv "3000,c" "/logs/log_0_0.csv" pendingWorld).2.sys.totalWrites = 2
    ∧ (SDManager.appendData openFailsEnv "3000,c" "/logs/log_0_0.csv" pendingWorld).2.sys.totalWrites = 1 :=
  ⟨(C23_single_write_outcomes reliableEnv "3000,c" "/logs/log_0_0.csv" pendingWorld).2.2.2
      (by decide) (by decide),
   ((C23_single_write_outcomes openFailsEnv "3000,c" "/logs/log_0_0.csv" pendingWorld).2.1.2.1
      (by decide)).1⟩

/-- C23 as stated fails: `totalWrites` is an `unsigned long`.  With the counter at
4294967295, as `loadState` leaves it for a state file that stores `totalWrites=-1`, an
`appendData` call on a board that never fails returns true and leaves the counter at 0,
not one higher. -/
theorem C23_counterexample_total_writes_wraps :
    countersAtMaxWorld.sys.totalWrites = 4294967295
    ∧ (SDManager.appendData reliableEnv "3000,c" "/logs/log_0_0.csv" countersAtMaxWorld).1 = true
    ∧ (SDManager.appendData reliableEnv "3000,c" "/logs/log_0_0.csv" countersAtMaxWorld).2.sys.totalWrites
        = 0
    ∧ (SDManager.appendData reliableEnv "3000,c" "/logs/log_0_0.csv"
        countersAtMaxWorld).2.sys.lastGoodWriteTime = 2000
    ∧ (SDManager.writeData reliableEnv "3000,c" "/logs/log_0_0.csv" countersAtMaxWorld).1 = true
    ∧ (SDManager.writeData reliableEnv "3000,c" "/logs/log_0_0.csv" countersAtMaxWorld).2.sys.totalWrites
        = 0 := by
  decide

/-- C29: for every clock reading (a 32-bit value), the name produced by
`generateTimestampedFilename` has at most 25 characters, and as many bytes.  The current
file that a successful `createNewLogFile` leaves has such a name; for an engine whose
current file has such a name the rotation condition of `performMaintenance` (name length
above 50) is false, so maintenance runs without its `switchLogFile` call and the current
file stays the same. -/
theorem C29_generated_name_never_rotates (env : Env) (w v : World) :
    (SDManager.generateTimestampedFilename w).length ≤ 25
    ∧ (SDManager.generateTimestampedFilename w).utf8ByteSize ≤ 25
    ∧ ((DataLogger.createNewLogFile env w).1 = true →
        (DataLogger.createNewLogFile env w).2.log.currentLogFile
          = SDManager.generateTimestampedFilename w)
    ∧ (v.log.currentLogFile = SDManager.generateTimestampedFilename w →
        ¬ 50 < (DataLogger.forceFlushBuffer env v).2.log.currentLogFile.utf8ByteSize
        ∧ DataLogger.performMaintenance env v = DataLogger.maintenanceWithoutSwitch env v
        ∧ (DataLogger.performMaintenance env v).2.log.currentLogFile = v.log.currentLogFile) := by
  obtain ⟨g1, g2⟩ := generatedName_short w
  refine ⟨g1, g2, fun h => ((createNewLogFile_result env w).2 h).1, ?_⟩
  intro hv
  have hshort : ¬ 50 < v.log.currentLogFile.utf8ByteSize := by
    rw [hv]
    omega
  refine ⟨?_, performMaintenance_short_name env v hshort, ?_⟩
  · rw [(forceFlushBuffer_file env v).1]
    exact hshort
  · rw [performMaintenance_short_name env v hshort]
    exact (maintenanceWithoutSwitch_file env v).1

/-- C29 applied: the name generated at the largest clock reading has exactly 25
characters, and maintenance of the engine of `afterOneRecord`, whose file was created at
clock reading 0, keeps the file `/logs/log_0_0.csv`. -/
theorem C29_generated_name_witness :
    (SDManager.generateTimestampedFilename
        { powerOnWorld with hw := { powerOnWorld.hw with now := 4294967295 } })
      = "/logs/log_4294967_295.csv"
    ∧ (SDManager.generateTimestampedFilename
        { powerOnWorld with hw := { powerOnWorld.hw with now := 4294967295 } }).length = 25
    ∧ (DataLogger.performMaintenance reliableEnv afterOneRecord).2.log.currentLogFile
        = "/logs/log_0_0.csv" :=
  ⟨by decide, by decide,
   ((C29_generated_name_never_rotates reliableEnv powerOnWorld afterOneRecord).2.2.2
      (by decide)).2.2.trans (by decide)⟩

/-- C22: a line of a state file that holds no `=`, or whose key (the text before the
first `=` of the trimmed line) is none of the nine recognised keys, leaves the state as it
is.  For every text, the text without those lines reads as the kept lines, and loading it
gives the same state as loading the whole text, whatever state was in memory before.  The
result of the loader is the result of opening the file: it does not depend on the lines. -/
theorem C22_skipped_lines_have_no_effect (env : Env) (w : World) (content : String) :
    (∀ (s : SystemState) (line : List Char), skippedLine line = true →
        SystemState.applyStateLine s line = s)
    ∧ readLines (withoutSkippedLines content)
        = (readLines content).filter (fun l => !skippedLine l)
    ∧ (∀ s : SystemState,
        (readLines (withoutSkippedLines content)).foldl SystemState.applyStateLine s
          = (readLines content).foldl SystemState.applyStateLine s)
    ∧ (SystemState.loadStateFromSPIFFS env (withStateText content w)).1
        = env.spiffsOpen w.hw.spiffsOpenCalls
    ∧ (SystemState.loadStateFromSPIFFS env (withStateText (withoutSkippedLines content) w)).1
        = (SystemState.loadStateFromSPIFFS env (withStateText content w)).1
    ∧ (SystemState.loadStateFromSPIFFS env (withStateText (withoutSkippedLines content) w)).2.sys
        = (SystemState.loadStateFromSPIFFS env (withStateText content w)).2.sys := by
  have hfold : ∀ s : SystemState,
      (readLines (withoutSkippedLines content)).foldl SystemState.applyStateLine s
        = (readLines content).foldl SystemState.applyStateLine s := by
    intro s
    rw [readLines_withoutSkippedLines, foldl_filter_skipped]
  refine ⟨applyStateLine_skipped, readLines_withoutSkippedLines content, hfold, ?_, ?_, ?_⟩
  · cases ho : env.spiffsOpen w.hw.spiffsOpenCalls <;>
      simp [SystemState.loadStateFromSPIFFS, spiffsOpenRead, withStateText, ho, fsRead_fsWrite_same]
  · cases ho : env.spiffsOpen w.hw.spiffsOpenCalls <;>
      simp [SystemState.loadStateFromSPIFFS, spiffsOpenRead, withStateText, ho, fsRead_fsWrite_same]
  · cases ho : env.spiffsOpen w.hw.spiffsOpenCalls <;>
      simp [SystemState.loadStateFromSPIFFS, spiffsOpenRead, withStateText, ho, fsRead_fsWrite_same,
        hfold]

/-- C22 applied: a state file with a line without `=`, a line with an unknown key, an
empty line and an unfinished last line around `status=2` and `totalWrites=7`. -/
theorem C22_skipped_lines_witness :
    withoutSkippedLines "junk\r\nstatus=2\r\nfoo=bar\r\n\r\ntotalWrites=7\r\nend"
        = "status=2\r\ntotalWrites=7\r\n"
    ∧ (SystemState.loadStateFromSPIFFS reliableEnv noisyStateWorld).1 = true
    ∧ (SystemState.loadStateFromSPIFFS reliableEnv noisyStateWorld).2.sys
        = { powerOnWorld.sys with currentStatus := 2, totalWrites := 7 }
    ∧ (SystemState.loadStateFromSPIFFS reliableEnv
          (withStateText "status=2\r\ntotalWrites=7\r\n" powerOnWorld)).2.sys
        = { powerOnWorld.sys with currentStatus := 2, totalWrites := 7 } :=
  ⟨by decide,
   (C22_skipped_lines_have_no_effect reliableEnv powerOnWorld
      "junk\r\nstatus=2\r\nfoo=bar\r\n\r\ntotalWrites=7\r\nend").2.2.2.1.trans (by decide),
   by decide, by decide⟩

/-- C27 (as amended): for every state whose status is an enumerator, whose four numeric
fields are below 2^31 and whose file name and error text hold no line feed and no white
space at either end, when SPIFFS opens the state file for the write of `saveState` and for
the read of `loadState`: the write succeeds, the file holds the nine printed lines, and
`loadState`, run with any state `prior` in memory, restores all nine fields to the saved
values.  The same holds for the text alone: loading the printed text into any state gives
the saved state. -/
theorem C27_state_round_trip (env : Env) (w : World) (prior : SystemState)
    (hs : RoundTripState w.sys)
    (hsave : env.spiffsOpen w.hw.spiffsOpenCalls = true)
    (hload : env.spiffsOpen (w.hw.spiffsOpenCalls + 1) = true) :
    (SystemState.saveStateToSPIFFS env w).1 = true
    ∧ fsRead (SystemState.saveState env w).hw.spiffsFiles STATE_FILE = some (stateText w.sys)
    ∧ (readLines (stateText w.sys)).foldl SystemState.applyStateLine prior = w.sys
    ∧ (SystemState.loadStateFromSPIFFS env { SystemState.saveState env w with sys := prior }).1 = true
    ∧ (SystemState.loadState env { SystemState.saveState env w with sys := prior }).sys = w.sys := by
  have hrt := loadLines_stateText w.sys prior hs
  obtain ⟨r1, r2, r3, r4, r5, r6⟩ := saveState_record env w
  have hfile := r5 hsave
  have hcalls : (SystemState.saveState env w).hw.spiffsOpenCalls = w.hw.spiffsOpenCalls + 1 := by
    simp [SystemState.saveState, SystemState.saveStateToSPIFFS, spiffsWriteLines, hsave]
  refine ⟨?_, hfile, hrt, ?_, ?_⟩
  · simp [SystemState.saveStateToSPIFFS, spiffsWriteLines, hsave]
  · simp [SystemState.loadStateFromSPIFFS, spiffsOpenRead, hcalls, hload, hfile]
  · simp [SystemState.loadState, SystemState.loadStateFromSPIFFS, spiffsOpenRead, hcalls, hload,
      hfile, hrt]

/-- C27 applied: the state of a running logger is saved, the state in memory is replaced
by the constructor defaults, and `loadState` brings the saved state back. -/
theorem C27_state_round_trip_witness :
    (SystemState.loadState reliableEnv
        { SystemState.saveState reliableEnv { powerOnWorld with sys := loggingState } with
          sys := powerOnWorld.sys }).sys = loggingState :=
  (C27_state_round_trip reliableEnv { powerOnWorld with sys := loggingState } powerOnWorld.sys
    ⟨⟨.LOGGING, rfl⟩, by decide, by decide, by decide, by decide,
      by unfold plainValue; decide, by unfold plainValue; decide⟩
    rfl rfl).2.2.2.2

/-- C27 as stated fails: the state satisfies the conditions of the claim, but SPIFFS
refuses to open the state file; `saveStateToSPIFFS` returns false and writes nothing, and
after `loadState` the state in memory is still the prior one, not the saved one. -/
theorem C27_counterexample_save_refused :
    RoundTripState loggingState
    ∧ (SystemState.saveStateToSPIFFS spiffsDownEnv { powerOnWorld with sys := loggingState }).1 = false
    ∧ (SystemState.loadState spiffsDownEnv
        { SystemState.saveState spiffsDownEnv { powerOnWorld with sys := loggingState } with
          sys := powerOnWorld.sys }).sys = powerOnWorld.sys
    ∧ (SystemState.loadState spiffsDownEnv
        { SystemState.saveState spiffsDownEnv { powerOnWorld with sys := loggingState } with
          sys := powerOnWorld.sys }).sys ≠ loggingState :=
  ⟨⟨⟨.LOGGING, rfl⟩, by decide, by decide, by decide, by decide,
      by unfold plainValue; decide, by unfold plainValue; decide⟩,
   by decide, by decide, by decide⟩

/-- C24 (as amended): whenever `SDManager::createNewLogFile` returns true, the returned
name is the generated one, the file of that name holds the header text and nothing else,
and its first line is exactly `timestamp,flow_rate,temperature,pressure`.  On this file,
and on it after any text was appended, `validateLogFile` returns what the library call
`SD.open(name, FILE_READ)` returns: true whenever the file can be opened for reading, false
when the open is refused. -/
theorem C24_created_file_starts_with_header (env env2 : Env) (w v : World) (rest : String)
    (hc : (SDManager.createNewLogFile env w).1.1 = true) :
    (SDManager.createNewLogFile env w).1.2 = SDManager.generateTimestampedFilename w
    ∧ fsRead (SDManager.createNewLogFile env w).2.hw.sdFiles (SDManager.createNewLogFile env w).1.2
        = some "timestamp,flow_rate,temperature,pressure\n"
    ∧ firstLine "timestamp,flow_rate,temperature,pressure\n"
        = "timestamp,flow_rate,temperature,pressure"
    ∧ (DataLogger.validateLogFile env2 (SDManager.createNewLogFile env w).1.2
          (SDManager.createNewLogFile env w).2).1
        = env2.sdOpen (SDManager.createNewLogFile env w).2.hw.sdOpenCalls
    ∧ (fsRead v.hw.sdFiles (SDManager.createNewLogFile env w).1.2
          = some ("timestamp,flow_rate,temperature,pressure\n" ++ rest) →
        (DataLogger.validateLogFile env2 (SDManager.createNewLogFile env w).1.2 v).1
          = env2.sdOpen v.hw.sdOpenCalls) := by
  obtain ⟨h1, h2⟩ := sdCreateNewLogFile_ok env w hc
  rw [h1]
  refine ⟨rfl, h2, by decide, ?_, ?_⟩
  · exact validateLogFile_header env2 _ "" _ (by rw [h2]; rfl)
  · intro hv
    exact validateLogFile_header env2 _ rest v hv

/-- C24 applied: a file created on a board that never fails, then validated. -/
theorem C24_created_file_witness :
    (SDManager.createNewLogFile reliableEnv mountedReadyWorld).1.2 = "/logs/log_0_0.csv"
    ∧ (DataLogger.validateLogFile reliableEnv "/logs/log_0_0.csv"
        (SDManager.createNewLogFile reliableEnv mountedReadyWorld).2).1 = true :=
  ⟨(C24_created_file_starts_with_header reliableEnv reliableEnv mountedReadyWorld mountedReadyWorld ""
      (by decide)).1.trans (by decide),
   by decide⟩

/-- C24 as stated fails: on a card where only the first open succeeds,
`createNewLogFile` returns true and the file holds the header, but `validateLogFile` on
that file returns false, because the open for reading is refused. -/
theorem C24_counterexample_unreadable_file :
    (SDManager.createNewLogFile firstOpenOnlyEnv mountedReadyWorld).1 = (true, "/logs/log_0_0.csv")
    ∧ fsRead (SDManager.createNewLogFile firstOpenOnlyEnv mountedReadyWorld).2.hw.sdFiles
        "/logs/log_0_0.csv" = some "timestamp,flow_rate,temperature,pressure\n"
    ∧ (DataLogger.validateLogFile firstOpenOnlyEnv "/logs/log_0_0.csv"
        (SDManager.createNewLogFile firstOpenOnlyEnv mountedReadyWorld).2).1 = false := by
  decide

/-- C25 (as amended): for every public call of the engine other than `initialize`, if the
buffer holds fewer records after the call than before, then a flush of a non-empty buffer
returned success during the call; in no call is a flush counted as failed without being
counted as made.  `initialize` is the exception: it leaves the buffer empty whatever the
buffer held, and the instrumentation shows that it makes no flush. -/
theorem C25_buffer_drained_only_by_flush (env : Env) (call : EngineCall) (w : World)
    (h : call ≠ EngineCall.initializeLogger) :
    ((call.run env w).2.log.dataBuffer.length < w.log.dataBuffer.length →
        flushSucceeded w (call.run env w).2)
    ∧ drainedOnlyByFlush w (call.run env w).2
    ∧ (EngineCall.initializeLogger.run env w).2.log.dataBuffer = []
    ∧ (EngineCall.initializeLogger.run env w).2.ghost = w.ghost :=
  ⟨(engineCall_drained env call w h).2, engineCall_drained env call w h,
   (initializeLogger_buffer env w).1, (initializeLogger_buffer env w).2.2⟩

/-- C25 applied: a forced flush of two pending records on a board that never fails
empties the buffer, and the flush is counted as a success. -/
theorem C25_buffer_drained_witness :
    (DataLogger.forceFlushBuffer reliableEnv pendingWorld).2.log.dataBuffer.length
        < pendingWorld.log.dataBuffer.length
    ∧ flushSucceeded pendingWorld (DataLogger.forceFlushBuffer reliableEnv pendingWorld).2 :=
  ⟨by decide,
   (C25_buffer_drained_only_by_flush reliableEnv EngineCall.forceFlushBuffer pendingWorld
      (by decide)).1 (by decide)⟩

/-- C25 as stated fails: `initialize` called on an engine with two pending records
returns true with an empty buffer; no flush was made, and the file on the card still holds
the header only, so the two records are gone. -/
theorem C25_counterexample_initialize_clears :
    pendingWorld.log.dataBuffer = ["1000,a", "2000,b"]
    ∧ (DataLogger.initializeLogger reliableEnv pendingWorld).1 = true
    ∧ (DataLogger.initializeLogger reliableEnv pendingWorld).2.log.dataBuffer = []
    ∧ (DataLogger.initializeLogger reliableEnv pendingWorld).2.ghost = pendingWorld.ghost
    ∧ ¬ flushSucceeded pendingWorld (DataLogger.initializeLogger reliableEnv pendingWorld).2
    ∧ (DataLogger.initializeLogger reliableEnv pendingWorld).2.log.currentLogFile = "/logs/log_0_0.csv"
    ∧ fsRead (DataLogger.initializeLogger reliableEnv pendingWorld).2.hw.sdFiles "/logs/log_0_0.csv"
        = some "timestamp,flow_rate,temperature,pressure\n" := by
  unfold flushSucceeded
  decide

/-- C30: when `update` gets to its health check (its flush block did not fail) and the
engine is not ready, it returns false and the status is ERROR.  None of `logData`,
`update`, `forceFlushBuffer`, `switchLogFile`, `DataLogger::attemptRecovery` and
`performMaintenance` changes the status ERROR; so after any sequence of these calls, with
time passing between them, the status is still ERROR and every `logData` call returns
false. -/
theorem C30_error_status_is_kept (env : Env) (w : World) :
    ((DataLogger.updateFlush env w).1 = true →
      (DataLogger.isSystemReady env (DataLogger.updateFlush env w).2).1 = false →
        (DataLogger.update env w).1 = false
        ∧ (DataLogger.update env w).2.sys.currentStatus = SystemStatus.ERROR.toInt
        ∧ ∀ steps : List EngineStep, (∀ s ∈ steps, s.isLoggingStep = true) →
            (runSteps env steps (DataLogger.update env w).2).sys.currentStatus
              = SystemStatus.ERROR.toInt
            ∧ ∀ d : String,
                (DataLogger.logData env d (runSteps env steps (DataLogger.update env w).2)).1 = false)
    ∧ (∀ call : EngineCall, call.isLoggingOperation = true →
        w.sys.currentStatus = SystemStatus.ERROR.toInt →
        (call.run env w).2.sys.currentStatus = SystemStatus.ERROR.toInt)
    ∧ (∀ steps : List EngineStep, (∀ s ∈ steps, s.isLoggingStep = true) →
        w.sys.currentStatus = SystemStatus.ERROR.toInt →
        (runSteps env steps w).sys.currentStatus = SystemStatus.ERROR.toInt
        ∧ ∀ d : String, (DataLogger.logData env d (runSteps env steps w)).1 = false) := by
  refine ⟨?_, fun call hc he => engineCall_keeps_error env call w hc he, ?_⟩
  · intro h1 h2
    obtain ⟨u1, u2⟩ := (update_status env w).1 h1 h2
    refine ⟨u1, u2, ?_⟩
    intro steps hs
    have hk := runSteps_keeps_error env steps _ hs u2
    exact ⟨hk, fun d => logData_in_error env d _ hk⟩
  · intro steps hs he
    have hk := runSteps_keeps_error env steps w hs he
    exact ⟨hk, fun d => logData_in_error env d _ hk⟩

/-- C30 applied: an engine whose card is not mounted; `update` sets the status ERROR,
and after a second of waiting, a recovery attempt and a forced flush, `logData` still
returns false. -/
theorem C30_error_status_witness :
    (DataLogger.update reliableEnv powerOnWorld).1 = false
    ∧ (DataLogger.update reliableEnv powerOnWorld).2.sys.currentStatus = SystemStatus.ERROR.toInt
    ∧ (DataLogger.logData reliableEnv "x"
        (runSteps reliableEnv
          [EngineStep.tick 1000, EngineStep.call EngineCall.attemptRecovery,
           EngineStep.call EngineCall.forceFlushBuffer]
          (DataLogger.update reliableEnv powerOnWorld).2)).1 = false :=
  ⟨((C30_error_status_is_kept reliableEnv powerOnWorld).1 (by decide) (by decide)).1,
   ((C30_error_status_is_kept reliableEnv powerOnWorld).1 (by decide) (by decide)).2.1,
   (((C30_error_status_is_kept reliableEnv powerOnWorld).1 (by decide) (by decide)).2.2
      [EngineStep.tick 1000, EngineStep.call EngineCall.attemptRecovery,
       EngineStep.call EngineCall.forceFlushBuffer] (by decide)).2 "x"⟩

end FlowSensor
